import Mathlib

/-! The reconnecting channel manager of `src/services/websocket.js`.

A shallow embedding of the class `WebSocketService` together with the part of
the browser it talks to: the `WebSocket` objects it constructs, the timers it
registers with `setTimeout`, and the calls it makes on them.

* a JavaScript `Map` is an insertion-ordered association list (`JsMap`);
* a transport handle is the index of the `WebSocket` object in the list of all
  objects constructed so far;
* the callbacks given to `connect` are tokens, and calling one is recorded in the
  trace (a callback is taken to return normally and not to re-enter the manager);
* `console.log / warn / error` output is not recorded.
-/

namespace JsMap

/-- The method `Map.prototype.get`: the value stored under the key, if any. -/
def get {β : Type} (m : List (String × β)) (k : String) : Option β :=
  match m with
  | [] => none
  | (k₁, v) :: rest => if k₁ = k then some v else get rest k

/-- The method `Map.prototype.has`. -/
def has {β : Type} (m : List (String × β)) (k : String) : Bool :=
  (get m k).isSome

/-- The method `Map.prototype.set`: an existing key keeps its place, a new key goes last. -/
def set {β : Type} (m : List (String × β)) (k : String) (v : β) : List (String × β) :=
  match m with
  | [] => [(k, v)]
  | (k₁, v₁) :: rest => if k₁ = k then (k, v) :: rest else (k₁, v₁) :: set rest k v

/-- The method `Map.prototype.delete`. -/
def delete {β : Type} (m : List (String × β)) (k : String) : List (String × β) :=
  m.filter (fun p => decide (p.1 ≠ k))

/-- The method `Map.prototype.keys`, in insertion order. -/
def keys {β : Type} (m : List (String × β)) : List String :=
  m.map Prod.fst

end JsMap

namespace WebSocketService

/-- The values of `WebSocket.readyState`. -/
inductive ReadyState
  | CONNECTING
  | OPEN
  | CLOSING
  | CLOSED
deriving DecidableEq, Repr

/-- The callbacks handed to `connect`: `onMessage`, and the optional `onError`
and `onClose` (`null` by default). -/
structure Callbacks where
  onMessage : Nat
  onError : Option Nat
  onClose : Option Nat
deriving DecidableEq, Repr

/-- A `WebSocket` object made by `new WebSocket(wsUrl)` inside `connect`. Its four
handlers close over `endpoint`, `userId` and the callbacks of that call. -/
structure Socket where
  url : String
  readyState : ReadyState
  endpoint : String
  userId : String
  cbs : Callbacks
deriving DecidableEq, Repr

/-- A callback registered by `setTimeout` in `attemptReconnect`: when it fires it
runs `this.connect(endpoint, userId, onMessage, onError, onClose)`. -/
structure Timer where
  delay : Nat
  endpoint : String
  userId : String
  cbs : Callbacks
  pending : Bool
deriving DecidableEq, Repr

/-- What the manager does to the outside: calls on a transport and on callbacks. -/
inductive Effect
  | wsClose (ws : Nat) (code : Nat) (reason : String)
  | wsSend (ws : Nat) (frame : String)
  | callOnError (cb : Nat)
  | callOnClose (cb : Nat) (code : Nat)
deriving DecidableEq, Repr

/-- The manager (`this.connections`, `this.reconnectAttempts`) and its surroundings. -/
structure State where
  wsBaseUrl : Option String
  connections : List (String × Nat)
  reconnectAttempts : List (String × Nat)
  sockets : List Socket
  timers : List Timer
  trace : List Effect
deriving DecidableEq, Repr

/-- The field `this.maxReconnectAttempts = 5` (constructor; never assigned again). -/
def maxReconnectAttempts : Nat := 5

/-- The field `this.reconnectInterval = 3000` (constructor; never assigned again). -/
def reconnectInterval : Nat := 3000

/-- The state after `new WebSocketService()`: both maps empty. -/
def init (wsBaseUrl : Option String) : State :=
  { wsBaseUrl := wsBaseUrl, connections := [], reconnectAttempts := [],
    sockets := [], timers := [], trace := [] }

/-- The expression `process.env.REACT_APP_WS_URL || "ws://localhost:8000"`: an unset or empty
variable gives the default. -/
def baseUrl (env : Option String) : String :=
  match env with
  | some u => if u = "" then "ws://localhost:8000" else u
  | none => "ws://localhost:8000"

/-- The address built on the first line of `connect`. -/
def wsUrl (env : Option String) (endpoint userId : String) : String :=
  baseUrl env ++ "/ws/" ++ endpoint ++ "/" ++ userId ++ "/"

/-- The method `WebSocket.prototype.close`: a connecting or open transport starts closing;
on a closing or closed one the call does nothing. -/
def Socket.close (sk : Socket) : Socket :=
  match sk.readyState with
  | .CONNECTING => { sk with readyState := .CLOSING }
  | .OPEN => { sk with readyState := .CLOSING }
  | .CLOSING => sk
  | .CLOSED => sk

/-- Apply a change to the transport with handle `ws`, if there is one. -/
def updateSocket (l : List Socket) (ws : Nat) (f : Socket → Socket) : List Socket :=
  match l[ws]? with
  | some sk => l.set ws (f sk)
  | none => l

/-- The method `disconnect(endpoint)`. A stored handle is an object, hence truthy. -/
def disconnect (s : State) (endpoint : String) : State :=
  match JsMap.get s.connections endpoint with
  | some ws =>
    { s with
      sockets := updateSocket s.sockets ws Socket.close
      trace := s.trace ++ [Effect.wsClose ws 1000 "Client disconnect"]
      connections := JsMap.delete s.connections endpoint
      reconnectAttempts := JsMap.delete s.reconnectAttempts endpoint }
  | none => s

/-- The method `connect(endpoint, userId, onMessage, onError, onClose)`. `created` tells
whether `new WebSocket(wsUrl)` returns (`true`) or throws (`false`); the result is
the new handle, or `undefined` after the `catch`. -/
def connect (s : State) (endpoint userId : String) (cbs : Callbacks) (created : Bool) :
    State × Option Nat :=
  let s₁ := if JsMap.has s.connections endpoint then disconnect s endpoint else s
  if created then
    let ws := s₁.sockets.length
    let sk : Socket :=
      { url := wsUrl s₁.wsBaseUrl endpoint userId, readyState := .CONNECTING,
        endpoint := endpoint, userId := userId, cbs := cbs }
    ({ s₁ with sockets := s₁.sockets ++ [sk]
               connections := JsMap.set s₁.connections endpoint ws }, some ws)
  else
    match cbs.onError with
    | some f => ({ s₁ with trace := s₁.trace ++ [Effect.callOnError f] }, none)
    | none => (s₁, none)

/-- The method `attemptReconnect(endpoint, userId, onMessage, onError, onClose)`:
`get(endpoint) || 0` reads an absent counter as 0. -/
def attemptReconnect (s : State) (endpoint userId : String) (cbs : Callbacks) : State :=
  let attempts := (JsMap.get s.reconnectAttempts endpoint).getD 0
  if attempts < maxReconnectAttempts then
    { s with
      reconnectAttempts := JsMap.set s.reconnectAttempts endpoint (attempts + 1)
      timers := s.timers ++
        [{ delay := reconnectInterval * 2 ^ attempts, endpoint := endpoint,
           userId := userId, cbs := cbs, pending := true }] }
  else s

/-- The handler `ws.onopen` installed by `connect`. -/
def onopen (s : State) (endpoint : String) : State :=
  { s with reconnectAttempts := JsMap.set s.reconnectAttempts endpoint 0 }

/-- The handler `ws.onerror` installed by `connect`. -/
def onerror (s : State) (cbs : Callbacks) : State :=
  match cbs.onError with
  | some f => { s with trace := s.trace ++ [Effect.callOnError f] }
  | none => s

/-- The handler `ws.onclose` installed by `connect`, run with `event.code = code`. -/
def onclose (s : State) (endpoint userId : String) (cbs : Callbacks) (code : Nat) : State :=
  let s₁ := { s with connections := JsMap.delete s.connections endpoint }
  let s₂ :=
    match cbs.onClose with
    | some f => { s₁ with trace := s₁.trace ++ [Effect.callOnClose f code] }
    | none => s₁
  if code ≠ 1000 then attemptReconnect s₂ endpoint userId cbs else s₂

/-- The method `send(endpoint, message)`, with `JSON.stringify` as the parameter
`stringify` (taken to return a string). -/
def send {μ : Type} (stringify : μ → String) (s : State) (endpoint : String) (message : μ) :
    Bool × State :=
  match JsMap.get s.connections endpoint with
  | some ws =>
    match s.sockets[ws]? with
    | some sk =>
      if sk.readyState = .OPEN then
        (true, { s with trace := s.trace ++ [Effect.wsSend ws (stringify message)] })
      else (false, s)
    | none => (false, s)
  | none => (false, s)

/-- The method `disconnectAll()`. The loop runs over `this.connections.keys()` while
`disconnect` deletes the key being visited; a `Map` iterator then goes on to the
next entry, so every key present at the start is visited once, in order. -/
def disconnectAll (s : State) : State :=
  (JsMap.keys s.connections).foldl disconnect s

/-- The method `isConnected(endpoint)`. -/
def isConnected (s : State) (endpoint : String) : Bool :=
  match JsMap.get s.connections endpoint with
  | some ws =>
    match s.sockets[ws]? with
    | some sk => decide (sk.readyState = .OPEN)
    | none => false
  | none => false

/-- The browser fires `open` on a connecting transport: it becomes `OPEN` and
`onopen` runs. -/
def openEvent (s : State) (ws : Nat) : State :=
  match s.sockets[ws]? with
  | some sk =>
    if sk.readyState = .CONNECTING then
      onopen { s with sockets := s.sockets.set ws { sk with readyState := .OPEN } } sk.endpoint
    else s
  | none => s

/-- The browser fires `close` with some code on a transport that is not closed yet
(whether or not `close()` was called on it): it becomes `CLOSED` and `onclose` runs. -/
def closeEvent (s : State) (ws : Nat) (code : Nat) : State :=
  match s.sockets[ws]? with
  | some sk =>
    if sk.readyState ≠ .CLOSED then
      onclose { s with sockets := s.sockets.set ws { sk with readyState := .CLOSED } }
        sk.endpoint sk.userId sk.cbs code
    else s
  | none => s

/-- The browser fires `error` on a transport that is not closed yet. -/
def errorEvent (s : State) (ws : Nat) : State :=
  match s.sockets[ws]? with
  | some sk => if sk.readyState ≠ .CLOSED then onerror s sk.cbs else s
  | none => s

/-- A pending timer fires: its callback calls `connect` with the arguments that
`attemptReconnect` was given. -/
def fireTimer (s : State) (id : Nat) (created : Bool) : State :=
  match s.timers[id]? with
  | some t =>
    if t.pending then
      (connect { s with timers := s.timers.set id { t with pending := false } }
        t.endpoint t.userId t.cbs created).1
    else s
  | none => s

/-- What can happen to the manager: a call of its interface, or the browser
delivering a transport event or a timer. -/
inductive Event
  | connect (endpoint userId : String) (cbs : Callbacks) (created : Bool)
  | disconnect (endpoint : String)
  | disconnectAll
  | wsOpen (ws : Nat)
  | wsClose (ws : Nat) (code : Nat)
  | wsError (ws : Nat)
  | timerFires (id : Nat) (created : Bool)
deriving DecidableEq, Repr

/-- One step of the manager. -/
def step (s : State) (e : Event) : State :=
  match e with
  | .connect endpoint userId cbs created => (connect s endpoint userId cbs created).1
  | .disconnect endpoint => disconnect s endpoint
  | .disconnectAll => disconnectAll s
  | .wsOpen ws => openEvent s ws
  | .wsClose ws code => closeEvent s ws code
  | .wsError ws => errorEvent s ws
  | .timerFires id created => fireTimer s id created

/-- The state after a sequence of events. -/
def run (s : State) (es : List Event) : State :=
  es.foldl step s

/-- A transport is live while it is connecting or open: `close()` has not been
called on it and no close event has reached it. -/
def Socket.live (sk : Socket) : Bool :=
  match sk.readyState with
  | .CONNECTING => true
  | .OPEN => true
  | .CLOSING => false
  | .CLOSED => false

/-- Whether handle `ws` is a live transport of the channel name. -/
def liveAt (s : State) (endpoint : String) (ws : Nat) : Bool :=
  match s.sockets[ws]? with
  | some sk => sk.live && decide (sk.endpoint = endpoint)
  | none => false

/-- The handles of the live transports of a channel name, in order of creation. -/
def liveFor (s : State) (endpoint : String) : List Nat :=
  (List.range s.sockets.length).filter (liveAt s endpoint)

end WebSocketService

namespace WebSocketService

/-- A call `onMessage(data)` made by a message handler of a transport. -/
structure MessageCall (J : Type) where
  cb : Nat
  data : J
deriving DecidableEq, Repr

/-- The handler `ws.onmessage` installed by `connect`, run with `event.data = frame`.
`parse` stands for `JSON.parse`, with `none` where it throws. The `catch` also absorbs
whatever `onMessage` throws, so the handler always returns; it touches neither map.
The result lists the calls of `onMessage`. -/
def onmessage {J : Type} (parse : String → Option J) (s : State) (cbs : Callbacks)
    (frame : String) : State × List (MessageCall J) :=
  match parse frame with
  | some data => (s, [{ cb := cbs.onMessage, data := data }])
  | none => (s, [])

/-- The browser fires `message` with a frame on an open transport: `onmessage` runs. -/
def messageEvent {J : Type} (parse : String → Option J) (s : State) (ws : Nat)
    (frame : String) : State × List (MessageCall J) :=
  match s.sockets[ws]? with
  | some sk => if sk.readyState = .OPEN then onmessage parse s sk.cbs frame else (s, [])
  | none => (s, [])

/-- The address built on the first line of `systemWebSocket.connect`. -/
def systemWsUrl (env : Option String) : String :=
  baseUrl env ++ "/ws/system/"

/-- The method `systemWebSocket.connect(onMessage, onError, onClose)`: it works on the
maps of the shared manager under the key "system". The transport it constructs gets
handlers of its own (no counter reset on open, no reconnect on close), which are not
those modelled by `openEvent` and `closeEvent`; the record keeps the key as `endpoint`
and an empty `userId`, the address having no user-id segment. -/
def systemWebSocket.connect (s : State) (cbs : Callbacks) (created : Bool) :
    State × Option Nat :=
  let s₁ := if JsMap.has s.connections "system" then disconnect s "system" else s
  if created then
    let ws := s₁.sockets.length
    let sk : Socket :=
      { url := systemWsUrl s₁.wsBaseUrl, readyState := .CONNECTING,
        endpoint := "system", userId := "", cbs := cbs }
    ({ s₁ with sockets := s₁.sockets ++ [sk]
               connections := JsMap.set s₁.connections "system" ws }, some ws)
  else
    match cbs.onError with
    | some f => ({ s₁ with trace := s₁.trace ++ [Effect.callOnError f] }, none)
    | none => (s₁, none)

end WebSocketService

/-! The HTTP client adapter of `src/services/api.js`: the two interceptors of the
axios instance `api`, with `localStorage`, `window.location.href` and the network as
explicit state. The answers of the server are scripts, consumed one per call; a call
whose script is exhausted never settles. One request is followed on its own: what
other code does to `localStorage` while a call is awaited is not part of the model. -/

namespace Api

/-- The three keys of `localStorage` that the client uses; `none` is what `getItem`
returns as `null`. -/
structure Storage where
  access_token : Option String
  refresh_token : Option String
  aikshetra_user : Option String
deriving DecidableEq, Repr

/-- JavaScript truthiness of a string that may be missing: `null`, `undefined` and
the empty string are falsy. -/
def truthy (v : Option String) : Option String :=
  match v with
  | some t => if t = "" then none else some t
  | none => none

/-- An axios request configuration: `headers` is the header object, `_retry` the mark
that the response interceptor puts on it (`undefined` read as `false`), and the
other fields stand for everything else in it. -/
structure Config where
  method : String
  url : String
  data : String
  headers : List (String × String)
  _retry : Bool
deriving DecidableEq, Repr

/-- The part of an error payload that the client reads. -/
structure ErrorData where
  detail : Option String
  non_field_errors : Option (List String)
deriving DecidableEq, Repr

/-- The `response` of an axios error: the status and the payload, if any. -/
structure ErrorResponse where
  status : Nat
  data : Option ErrorData
deriving DecidableEq, Repr

/-- An axios error: the configuration of the failed request and the response, which
is missing when no answer came (a network error). -/
structure AxiosError where
  config : Config
  response : Option ErrorResponse
deriving DecidableEq, Repr

/-- A network call that the adapter issues. -/
inductive Call
  | refresh (url : String) (refresh : String)
  | request (config : Config)
deriving DecidableEq, Repr

/-- The surroundings of the adapter: the configured API base URL, `localStorage`, the
values assigned to `window.location.href`, and the calls issued so far. -/
structure Browser where
  apiUrl : Option String
  storage : Storage
  redirects : List String
  calls : List Call
deriving DecidableEq, Repr

/-- The server's answer to a request sent through `api`: a response with its data, or
a rejection. -/
inductive Reply (β : Type)
  | fulfilled (data : β)
  | rejected (response : Option ErrorResponse)

/-- The server's answer to the token-refresh call: a response whose data has the field
`access` (or lacks it: `none`), a response without data (reading `access` from it
throws), or a rejection. -/
inductive RefreshReply
  | fulfilled (access : Option String)
  | malformed
  | rejected
deriving DecidableEq, Repr

/-- How a call through `api` ends for its caller. -/
inductive Outcome (β : Type)
  | fulfilled (data : β)
  | rejected (error : AxiosError)
  | pending

/-- The constant `API_BASE_URL`. -/
def API_BASE_URL (env : Option String) : String :=
  match env with
  | some u => if u = "" then "http://localhost:8000/api" else u
  | none => "http://localhost:8000/api"

/-- The request interceptor (its first handler): it reads the access token and, when
there is one, sets the `Authorization` header. -/
def requestInterceptor (storage : Storage) (config : Config) : Config :=
  match truthy storage.access_token with
  | some token =>
    { config with headers := JsMap.set config.headers "Authorization" ("Bearer " ++ token) }
  | none => config

/-- The three `localStorage.removeItem` calls of the `catch` block. -/
def clearSession (storage : Storage) : Storage :=
  { storage with access_token := none, refresh_token := none, aikshetra_user := none }

/-- The response interceptor (its error handler). `api` is the instance itself, called
for the retry, and `refresh` is the answer to the refresh call (`none`: it never
settles). A value that is `undefined` is stored and interpolated as "undefined". The
retry is returned without being awaited, so its failure does not reach the `catch`. -/
def responseInterceptor {β : Type} (api : Browser → Config → Browser × Outcome β)
    (refresh : Option RefreshReply) (b : Browser) (error : AxiosError) :
    Browser × Outcome β :=
  if error.response.map ErrorResponse.status = some 401 ∧ error.config._retry = false then
    let originalRequest : Config := { error.config with _retry := true }
    let error₁ : AxiosError := { error with config := originalRequest }
    match truthy b.storage.refresh_token with
    | some refreshToken =>
      let b₁ : Browser :=
        { b with calls := b.calls ++
            [Call.refresh (API_BASE_URL b.apiUrl ++ "/auth/token/refresh/") refreshToken] }
      match refresh with
      | none => (b₁, Outcome.pending)
      | some (RefreshReply.fulfilled access) =>
        api { b₁ with storage :=
                { b₁.storage with access_token := some (access.getD "undefined") } }
          { originalRequest with
            headers := JsMap.set originalRequest.headers "Authorization"
              ("Bearer " ++ access.getD "undefined") }
      | some RefreshReply.malformed =>
        ({ b₁ with storage := clearSession b₁.storage,
                   redirects := b₁.redirects ++ ["/login"] }, Outcome.rejected error₁)
      | some RefreshReply.rejected =>
        ({ b₁ with storage := clearSession b₁.storage,
                   redirects := b₁.redirects ++ ["/login"] }, Outcome.rejected error₁)
    | none => (b, Outcome.rejected error₁)
  else (b, Outcome.rejected error)

/-- A call `api(config)`: the request interceptor, the network, then the response
interceptor (which passes a response through). `replies` are the answers to the
requests sent through the instance and `refreshes` those to the refresh calls. The
configuration keeps its `_retry` mark on the way through axios, as the code relies
on. -/
def api {β : Type} : List (Reply β) → List RefreshReply → Browser → Config →
    Browser × Outcome β
  | [], _, b, config =>
    ({ b with calls := b.calls ++ [Call.request (requestInterceptor b.storage config)] },
      Outcome.pending)
  | r :: replies, refreshes, b, config =>
    match r with
    | Reply.fulfilled data =>
      ({ b with calls := b.calls ++ [Call.request (requestInterceptor b.storage config)] },
        Outcome.fulfilled data)
    | Reply.rejected response =>
      responseInterceptor (fun b₁ c₁ => api replies refreshes.tail b₁ c₁) refreshes.head?
        { b with calls := b.calls ++ [Call.request (requestInterceptor b.storage config)] }
        { config := requestInterceptor b.storage config, response := response }

end Api

/-! The session store of `src/contexts/AuthContext.jsx`. Each function takes the
result with which the awaited `authAPI` call settled, and the state at that moment. -/

namespace AuthContext

/-- The React state of `AuthProvider`. -/
structure AuthState (υ : Type) where
  user : Option υ
  isAuthenticated : Bool
  loading : Bool
deriving DecidableEq, Repr

/-- The body of a login response: the tokens are strings and the identity an object,
each possibly missing (a body that is not an object is outside the model). -/
structure LoginResponse (υ : Type) where
  access : Option String
  refresh : Option String
  user : Option υ
deriving DecidableEq, Repr

/-- How an awaited call settled. -/
inductive Settled (α : Type)
  | fulfilled (value : α)
  | rejected (error : Api.AxiosError)

/-- What `login` returns: `{ success: true, user }` or `{ success: false, error }`. -/
inductive LoginResult (υ : Type)
  | success (user : υ)
  | failure (error : String)
deriving DecidableEq, Repr

/-- The message computed in the `catch` of `login`:
`error.response?.data?.detail || error.response?.data?.non_field_errors?.[0] || "Login failed"`. -/
def loginErrorMessage (error : Api.AxiosError) : String :=
  match Api.truthy ((error.response.bind Api.ErrorResponse.data).bind Api.ErrorData.detail) with
  | some detail => detail
  | none =>
    match Api.truthy
        (((error.response.bind Api.ErrorResponse.data).bind
          Api.ErrorData.non_field_errors).bind List.head?) with
    | some first => first
    | none => "Login failed"

/-- The function `login(credentials)`, from the point where `authAPI.login` settles.
`stringify` stands for `JSON.stringify`; a missing refresh token is stored as
"undefined". -/
def login {υ : Type} (stringify : υ → String) (b : Api.Browser) (a : AuthState υ)
    (settled : Settled (LoginResponse υ)) : Api.Browser × AuthState υ × LoginResult υ :=
  match settled with
  | Settled.fulfilled response =>
    match Api.truthy response.access, response.user with
    | some access, some user =>
      ({ b with storage :=
          { access_token := some access
            refresh_token := some (response.refresh.getD "undefined")
            aikshetra_user := some (stringify user) } },
        { a with user := some user, isAuthenticated := true },
        LoginResult.success user)
    | _, _ => (b, a, LoginResult.failure "Invalid response from server")
  | Settled.rejected error => (b, a, LoginResult.failure (loginErrorMessage error))

end AuthContext

namespace Api

/-- Whether a call is a token-refresh call. -/
def Call.isRefresh (c : Call) : Bool :=
  match c with
  | Call.refresh _ _ => true
  | Call.request _ => false

/-- Whether a call is a request sent through `api`. -/
def Call.isRequest (c : Call) : Bool :=
  match c with
  | Call.refresh _ _ => false
  | Call.request _ => true

/-- What the caller of `api(config)` gets when the request is answered by the head of
`replies` and no interceptor steps in: the response data, an error carrying the
configuration, or nothing yet. -/
def settle {β : Type} (replies : List (Reply β)) (config : Config) : Outcome β :=
  match replies with
  | [] => Outcome.pending
  | Reply.fulfilled data :: _ => Outcome.fulfilled data
  | Reply.rejected response :: _ => Outcome.rejected { config := config, response := response }

end Api

namespace AuthContext

/-- The test `token && savedUser` at the start of `initializeAuth`. -/
def hasSavedSession (storage : Api.Storage) : Bool :=
  (Api.truthy storage.access_token).isSome && (Api.truthy storage.aikshetra_user).isSome

/-- The part of `initializeAuth` that runs once `authAPI.getCurrentUser()` settled,
followed by `setLoading(false)`. -/
def initializeAuth.settle {υ : Type} (b : Api.Browser) (a : AuthState υ)
    (settled : Settled υ) : Api.Browser × AuthState υ :=
  match settled with
  | Settled.fulfilled userData =>
    (b, { a with user := some userData, isAuthenticated := true, loading := false })
  | Settled.rejected _ =>
    ({ b with storage := Api.clearSession b.storage }, { a with loading := false })

/-- The request configuration of `api.post("/auth/logout/", { refresh_token })`; the
payload is represented by the refresh token it carries. -/
def logoutRequest (refreshToken : String) : Api.Config :=
  { method := "post", url := "/auth/logout/", data := refreshToken,
    headers := [("Content-Type", "application/json")], _retry := false }

/-- The function `logout()`. The logout call is started first when a refresh token is
persisted (third component) and is not awaited; its rejection goes to `console.error`.
The rest runs at once: the three items are removed, the React state is reset and
"/login" is assigned to `window.location.href`. -/
def logout {υ : Type} (b : Api.Browser) (a : AuthState υ) :
    Api.Browser × AuthState υ × Option Api.Config :=
  ({ b with storage := Api.clearSession b.storage, redirects := b.redirects ++ ["/login"] },
    { a with user := none, isAuthenticated := false },
    (Api.truthy b.storage.refresh_token).map logoutRequest)

/-- The message computed in the `catch` of `updateUser`:
`error.response?.data?.detail || "Profile update failed"`. -/
def updateErrorMessage (error : Api.AxiosError) : String :=
  match Api.truthy ((error.response.bind Api.ErrorResponse.data).bind Api.ErrorData.detail) with
  | some detail => detail
  | none => "Profile update failed"

/-- The function `updateUser(profileData)`, from the point where
`authAPI.updateProfile` settles. It returns an object of the same shape as `login`. -/
def updateUser {υ : Type} (stringify : υ → String) (b : Api.Browser) (a : AuthState υ)
    (settled : Settled υ) : Api.Browser × AuthState υ × LoginResult υ :=
  match settled with
  | Settled.fulfilled updatedUser =>
    ({ b with storage := { b.storage with aikshetra_user := some (stringify updatedUser) } },
      { a with user := some updatedUser },
      LoginResult.success updatedUser)
  | Settled.rejected error => (b, a, LoginResult.failure (updateErrorMessage error))

end AuthContext

/-! The session store together with the HTTP adapter: every `authAPI` call goes
through `Api.api`, so the refresh handling of the response interceptor takes part in
each step. -/

namespace AuthContext

/-- The configuration of `api.get("/auth/current-user/")`. -/
def currentUserRequest : Api.Config :=
  { method := "get", url := "/auth/current-user/", data := "",
    headers := [("Content-Type", "application/json")], _retry := false }

/-- The configuration of `api.post("/auth/login/", credentials)`. -/
def loginRequest (credentials : String) : Api.Config :=
  { method := "post", url := "/auth/login/", data := credentials,
    headers := [("Content-Type", "application/json")], _retry := false }

/-- The configuration of `api.patch("/auth/profile/", profileData)`. -/
def profileRequest (profileData : String) : Api.Config :=
  { method := "patch", url := "/auth/profile/", data := profileData,
    headers := [("Content-Type", "application/json")], _retry := false }

/-- A session: the browser side of the adapter, the React state of `AuthProvider`, and
two history marks that are not program state: `verified` records that a login or a
restore-and-verify has succeeded, `updated` that a profile update has. -/
structure Session (υ : Type) where
  browser : Api.Browser
  auth : AuthState υ
  verified : Bool
  updated : Bool
deriving DecidableEq, Repr

/-- A page load: the given `localStorage`, the initial React state, no history. -/
def Session.start {υ : Type} (apiUrl : Option String) (storage : Api.Storage) : Session υ :=
  { browser := { apiUrl := apiUrl, storage := storage, redirects := [], calls := [] },
    auth := { user := none, isAuthenticated := false, loading := true },
    verified := false, updated := false }

/-- What can happen to a session, each with the answers the server gives to the
requests and refresh calls it causes: `initializeAuth`, `login`, `logout`, `updateUser`,
and any other request through `api`. -/
inductive Step (υ : Type)
  | restore (replies : List (Api.Reply υ)) (refreshes : List Api.RefreshReply)
  | login (credentials : String) (replies : List (Api.Reply (LoginResponse υ)))
      (refreshes : List Api.RefreshReply)
  | logout (replies : List (Api.Reply Unit)) (refreshes : List Api.RefreshReply)
  | updateUser (profileData : String) (replies : List (Api.Reply υ))
      (refreshes : List Api.RefreshReply)
  | request (config : Api.Config) (replies : List (Api.Reply Unit))
      (refreshes : List Api.RefreshReply)

/-- Whether a result is `{ success: true, ... }`. -/
def LoginResult.isSuccess {υ : Type} (r : LoginResult υ) : Bool :=
  match r with
  | LoginResult.success _ => true
  | LoginResult.failure _ => false

/-- One step of a session. A function whose awaited call never settles leaves the
React state as it is. The logout call runs through the interceptors after `logout`
has cleared the storage. -/
def Session.step {υ : Type} (stringify : υ → String) (s : Session υ) (e : Step υ) :
    Session υ :=
  match e with
  | Step.restore replies refreshes =>
    if hasSavedSession s.browser.storage then
      match (Api.api replies refreshes s.browser currentUserRequest).2 with
      | Api.Outcome.fulfilled userData =>
        { s with
          browser := (initializeAuth.settle
            (Api.api replies refreshes s.browser currentUserRequest).1 s.auth
            (Settled.fulfilled userData)).1
          auth := (initializeAuth.settle
            (Api.api replies refreshes s.browser currentUserRequest).1 s.auth
            (Settled.fulfilled userData)).2
          verified := true }
      | Api.Outcome.rejected error =>
        { s with
          browser := (initializeAuth.settle
            (Api.api replies refreshes s.browser currentUserRequest).1 s.auth
            (Settled.rejected error)).1
          auth := (initializeAuth.settle
            (Api.api replies refreshes s.browser currentUserRequest).1 s.auth
            (Settled.rejected error)).2 }
      | Api.Outcome.pending =>
        { s with browser := (Api.api replies refreshes s.browser currentUserRequest).1 }
    else { s with auth := { s.auth with loading := false } }
  | Step.login credentials replies refreshes =>
    match (Api.api replies refreshes s.browser (loginRequest credentials)).2 with
    | Api.Outcome.fulfilled response =>
      { s with
        browser := (login stringify
          (Api.api replies refreshes s.browser (loginRequest credentials)).1 s.auth
          (Settled.fulfilled response)).1
        auth := (login stringify
          (Api.api replies refreshes s.browser (loginRequest credentials)).1 s.auth
          (Settled.fulfilled response)).2.1
        verified := s.verified || (login stringify
          (Api.api replies refreshes s.browser (loginRequest credentials)).1 s.auth
          (Settled.fulfilled response)).2.2.isSuccess }
    | Api.Outcome.rejected error =>
      { s with
        browser := (login stringify
          (Api.api replies refreshes s.browser (loginRequest credentials)).1 s.auth
          (Settled.rejected error)).1
        auth := (login stringify
          (Api.api replies refreshes s.browser (loginRequest credentials)).1 s.auth
          (Settled.rejected error)).2.1 }
    | Api.Outcome.pending =>
      { s with browser := (Api.api replies refreshes s.browser (loginRequest credentials)).1 }
  | Step.logout replies refreshes =>
    { s with
      browser :=
        match (logout s.browser s.auth).2.2 with
        | some config => (Api.api replies refreshes (logout s.browser s.auth).1 config).1
        | none => (logout s.browser s.auth).1
      auth := (logout s.browser s.auth).2.1 }
  | Step.updateUser profileData replies refreshes =>
    match (Api.api replies refreshes s.browser (profileRequest profileData)).2 with
    | Api.Outcome.fulfilled updatedUser =>
      { s with
        browser := (updateUser stringify
          (Api.api replies refreshes s.browser (profileRequest profileData)).1 s.auth
          (Settled.fulfilled updatedUser)).1
        auth := (updateUser stringify
          (Api.api replies refreshes s.browser (profileRequest profileData)).1 s.auth
          (Settled.fulfilled updatedUser)).2.1
        updated := true }
    | Api.Outcome.rejected error =>
      { s with
        browser := (updateUser stringify
          (Api.api replies refreshes s.browser (profileRequest profileData)).1 s.auth
          (Settled.rejected error)).1
        auth := (updateUser stringify
          (Api.api replies refreshes s.browser (profileRequest profileData)).1 s.auth
          (Settled.rejected error)).2.1 }
    | Api.Outcome.pending =>
      { s with browser := (Api.api replies refreshes s.browser (profileRequest profileData)).1 }
  | Step.request config replies refreshes =>
    { s with browser := (Api.api replies refreshes s.browser config).1 }

/-- The session after a sequence of steps. -/
def Session.run {υ : Type} (stringify : υ → String) (s : Session υ) (es : List (Step υ)) :
    Session υ :=
  es.foldl (Session.step stringify) s

end AuthContext

/-! The subscription hooks of `src/hooks/useWebSocket.js`: the message handlers that
`useNotifications`, `useAttendance` and `useTasks` hand to the channel manager. A
handler is given the parsed message and the result lists the feature callbacks it
calls. -/

namespace useWebSocket

/-- A parsed inbound message (an object): the fields that the hooks read, each
possibly missing. -/
structure InboundMessage (ν δ : Type) where
  type : Option String
  notification : Option ν
  count : Option Int
  notifications : Option (List ν)
  data : Option δ
deriving DecidableEq, Repr

/-- A call of a feature callback, with the argument it is given (`none`: `undefined`). -/
inductive FeatureCall (ν δ : Type)
  | onNotification (notification : Option ν)
  | updateNotificationCount (count : Option Int)
  | updateNotificationsList (notifications : Option (List ν))
  | onAttendanceUpdate (data : Option δ)
  | onTaskUpdate (data : Option δ)
deriving DecidableEq, Repr

/-- Whether `window.updateNotificationCount` and `window.updateNotificationsList`
are set (the notification centre registers both while it is mounted). -/
structure Window where
  updateNotificationCount : Bool
  updateNotificationsList : Bool
deriving DecidableEq, Repr

/-- The handler of `useNotifications(onNotification)`: the `switch` on `data.type`. -/
def useNotifications {ν δ : Type} (window : Window) (data : InboundMessage ν δ) :
    List (FeatureCall ν δ) :=
  if data.type = some "new_notification" then
    [FeatureCall.onNotification data.notification]
  else if data.type = some "unread_count" then
    if window.updateNotificationCount then [FeatureCall.updateNotificationCount data.count]
    else []
  else if data.type = some "notifications_list" then
    if window.updateNotificationsList then
      [FeatureCall.updateNotificationsList data.notifications]
    else []
  else []

/-- The handler of `useAttendance(onAttendanceUpdate)`. -/
def useAttendance {ν δ : Type} (data : InboundMessage ν δ) : List (FeatureCall ν δ) :=
  if data.type = some "attendance_update" then [FeatureCall.onAttendanceUpdate data.data]
  else []

/-- The handler of `useTasks(onTaskUpdate)`: the `switch` on `data.type`. -/
def useTasks {ν δ : Type} (data : InboundMessage ν δ) : List (FeatureCall ν δ) :=
  if data.type = some "task_assigned" then [FeatureCall.onTaskUpdate data.data]
  else if data.type = some "task_update" then [FeatureCall.onTaskUpdate data.data]
  else []

end useWebSocket

/-! JavaScript numbers. The counters of the client are IEEE-754 doubles; the model
holds their integer values, and the integer result of an addition is rounded to the
nearest double, ties to the even significand. Magnitudes of 2^1024 and more, which
round to `Infinity`, are outside the model. -/

namespace JsNumber

/-- The number of halvings that bring `n` below 2^53; `fuel` bounds the halvings and
`n` itself is always enough. -/
def excess (fuel n : Nat) : Nat :=
  match fuel with
  | 0 => 0
  | fuel + 1 => if n < 2 ^ 53 then 0 else excess fuel (n / 2) + 1

/-- The double nearest to the integer `x`: an integer of magnitude below 2^53 is a
double itself, and a larger one keeps 53 significant bits, rounded to nearest with
ties to even. -/
def toDouble (x : Int) : Int :=
  if x.natAbs < 2 ^ 53 then x
  else
    let e := excess x.natAbs x.natAbs
    let q := x.natAbs / 2 ^ e
    let r := x.natAbs % 2 ^ e
    let m := if 2 ^ e < 2 * r ∨ (2 * r = 2 ^ e ∧ q % 2 = 1) then q + 1 else q
    Int.sign x * ((m * 2 ^ e : Nat) : Int)

end JsNumber

/-! The notification centre of `src/components/common/NotificationCenter.jsx`: its
list and unread counter, and what it does to the outside. -/

namespace NotificationCenter

/-- A notification as the component uses it; `other` stands for the remaining
fields, and a missing `is_read` reads as `false`. -/
structure NotificationItem where
  id : String
  title : String
  message : String
  is_read : Bool
  other : String
deriving DecidableEq, Repr

/-- The values of `Notification.permission`. -/
inductive Permission
  | granted
  | denied
  | default
deriving DecidableEq, Repr

/-- What the component does to the outside: a desktop notification, the REST call
`notificationsAPI.markNotificationRead(id)`, and the channel message
`{ type: "mark_read", notification_id }` handed to `send`. -/
inductive Effect
  | desktop (title body icon : String)
  | restMarkRead (notificationId : String)
  | channelMarkRead (notificationId : String)
deriving DecidableEq, Repr

/-- The React state of the component (without `isOpen`) and the effects so far. -/
structure State where
  notifications : List NotificationItem
  unreadCount : Int
  loading : Bool
  effects : List Effect
deriving DecidableEq, Repr

/-- The callback given to `useNotifications`: a pushed notification. The updater
`(prev) => prev + 1` adds in double arithmetic. -/
def onNotification (permission : Permission) (s : State) (notification : NotificationItem) :
    State :=
  { s with
    notifications := notification :: s.notifications
    unreadCount := JsNumber.toDouble (s.unreadCount + 1)
    effects := s.effects ++
      (if permission = Permission.granted then
        [Effect.desktop notification.title notification.message "/favicon.ico"]
      else []) }

/-- What `notificationsAPI.getNotifications()` resolves with: a page object with
`results`, or the list itself. -/
inductive Fetched
  | paginated (results : List NotificationItem)
  | plain (items : List NotificationItem)
deriving DecidableEq, Repr

/-- The expression `data.results || data`. -/
def Fetched.items (data : Fetched) : List NotificationItem :=
  match data with
  | Fetched.paginated results => results
  | Fetched.plain items => items

/-- The function `loadNotifications()`, from the point where the fetch settles
(`none`: it was rejected). -/
def loadNotifications (s : State) (settled : Option Fetched) : State :=
  match settled with
  | some data =>
    { s with
      notifications := data.items
      unreadCount := ((data.items.filter (fun n => !n.is_read)).length : Int)
      loading := false }
  | none => { s with loading := false }

/-- The function `markAsRead(notificationId)`: the REST call is awaited first, and
the rest of the `try` block runs only when it is fulfilled. -/
def markAsRead (s : State) (notificationId : String) (fulfilled : Bool) : State :=
  if fulfilled then
    { s with
      notifications :=
        s.notifications.map (fun n => if n.id = notificationId then { n with is_read := true } else n)
      unreadCount := max 0 (s.unreadCount - 1)
      effects := s.effects ++
        [Effect.restMarkRead notificationId, Effect.channelMarkRead notificationId] }
  else { s with effects := s.effects ++ [Effect.restMarkRead notificationId] }

/-- The first statement of the click handler of a list entry (and the body of the
loop of "Mark all as read"), for the notification as rendered:
`if (!notification.is_read) markAsRead(notification.id)`. The navigation to
`action_url` that follows in the click handler is left out. -/
def onClick (s : State) (notification : NotificationItem) (fulfilled : Bool) : State :=
  if notification.is_read then s else markAsRead s notification.id fulfilled

/-- The number of list items whose `is_read` is false. -/
def unread (l : List NotificationItem) : Int :=
  ((l.filter (fun n => !n.is_read)).length : Int)

end NotificationCenter

/-! The `authAPI` object of `src/services/api.js`: the three calls that the session
store awaits. Each sends one request through `api` and hands `response.data` to its
caller, so the interceptors take part in it. -/

namespace authAPI

/-- The call `authAPI.login(credentials)`. -/
def login {υ : Type} (replies : List (Api.Reply (AuthContext.LoginResponse υ)))
    (refreshes : List Api.RefreshReply) (b : Api.Browser) (credentials : String) :
    Api.Browser × Api.Outcome (AuthContext.LoginResponse υ) :=
  Api.api replies refreshes b (AuthContext.loginRequest credentials)

/-- The call `authAPI.getCurrentUser()`. -/
def getCurrentUser {υ : Type} (replies : List (Api.Reply υ))
    (refreshes : List Api.RefreshReply) (b : Api.Browser) : Api.Browser × Api.Outcome υ :=
  Api.api replies refreshes b AuthContext.currentUserRequest

/-- The call `authAPI.updateProfile(profileData)`. -/
def updateProfile {υ : Type} (replies : List (Api.Reply υ))
    (refreshes : List Api.RefreshReply) (b : Api.Browser) (profileData : String) :
    Api.Browser × Api.Outcome υ :=
  Api.api replies refreshes b (AuthContext.profileRequest profileData)

end authAPI

/-! The functions of `AuthProvider` in `src/contexts/AuthContext.jsx` as they are
called: each awaits its `authAPI` call, which runs through the adapter on the
`localStorage` of the moment of the call, and then continues as in `AuthContext` on
the state that the adapter left. A function whose call never settles has not returned:
its result is `none` and the React state is as it was. -/

namespace AuthProvider

/-- The function `initializeAuth()`, run on page load. Without an access token and a
saved identity no call is made. -/
def initializeAuth {υ : Type} (replies : List (Api.Reply υ))
    (refreshes : List Api.RefreshReply) (b : Api.Browser) (a : AuthContext.AuthState υ) :
    Api.Browser × AuthContext.AuthState υ :=
  if AuthContext.hasSavedSession b.storage then
    match (authAPI.getCurrentUser replies refreshes b).2 with
    | Api.Outcome.fulfilled userData =>
      AuthContext.initializeAuth.settle (authAPI.getCurrentUser replies refreshes b).1 a
        (AuthContext.Settled.fulfilled userData)
    | Api.Outcome.rejected error =>
      AuthContext.initializeAuth.settle (authAPI.getCurrentUser replies refreshes b).1 a
        (AuthContext.Settled.rejected error)
    | Api.Outcome.pending => ((authAPI.getCurrentUser replies refreshes b).1, a)
  else (b, { a with loading := false })

/-- The function `login(credentials)`. -/
def login {υ : Type} (stringify : υ → String)
    (replies : List (Api.Reply (AuthContext.LoginResponse υ)))
    (refreshes : List Api.RefreshReply) (b : Api.Browser) (a : AuthContext.AuthState υ)
    (credentials : String) :
    Api.Browser × AuthContext.AuthState υ × Option (AuthContext.LoginResult υ) :=
  match (authAPI.login replies refreshes b credentials).2 with
  | Api.Outcome.fulfilled response =>
    ((AuthContext.login stringify (authAPI.login replies refreshes b credentials).1 a
        (AuthContext.Settled.fulfilled response)).1,
      (AuthContext.login stringify (authAPI.login replies refreshes b credentials).1 a
        (AuthContext.Settled.fulfilled response)).2.1,
      some (AuthContext.login stringify (authAPI.login replies refreshes b credentials).1 a
        (AuthContext.Settled.fulfilled response)).2.2)
  | Api.Outcome.rejected error =>
    ((AuthContext.login stringify (authAPI.login replies refreshes b credentials).1 a
        (AuthContext.Settled.rejected error)).1,
      (AuthContext.login stringify (authAPI.login replies refreshes b credentials).1 a
        (AuthContext.Settled.rejected error)).2.1,
      some (AuthContext.login stringify (authAPI.login replies refreshes b credentials).1 a
        (AuthContext.Settled.rejected error)).2.2)
  | Api.Outcome.pending => ((authAPI.login replies refreshes b credentials).1, a, none)

/-- The function `updateUser(profileData)`. -/
def updateUser {υ : Type} (stringify : υ → String) (replies : List (Api.Reply υ))
    (refreshes : List Api.RefreshReply) (b : Api.Browser) (a : AuthContext.AuthState υ)
    (profileData : String) :
    Api.Browser × AuthContext.AuthState υ × Option (AuthContext.LoginResult υ) :=
  match (authAPI.updateProfile replies refreshes b profileData).2 with
  | Api.Outcome.fulfilled updatedUser =>
    ((AuthContext.updateUser stringify (authAPI.updateProfile replies refreshes b profileData).1
        a (AuthContext.Settled.fulfilled updatedUser)).1,
      (AuthContext.updateUser stringify (authAPI.updateProfile replies refreshes b profileData).1
        a (AuthContext.Settled.fulfilled updatedUser)).2.1,
      some (AuthContext.updateUser stringify
        (authAPI.updateProfile replies refreshes b profileData).1
        a (AuthContext.Settled.fulfilled updatedUser)).2.2)
  | Api.Outcome.rejected error =>
    ((AuthContext.updateUser stringify (authAPI.updateProfile replies refreshes b profileData).1
        a (AuthContext.Settled.rejected error)).1,
      (AuthContext.updateUser stringify (authAPI.updateProfile replies refreshes b profileData).1
        a (AuthContext.Settled.rejected error)).2.1,
      some (AuthContext.updateUser stringify
        (authAPI.updateProfile replies refreshes b profileData).1
        a (AuthContext.Settled.rejected error)).2.2)
  | Api.Outcome.pending => ((authAPI.updateProfile replies refreshes b profileData).1, a, none)

end AuthProvider

/-! ## Facts about the association-list `Map` -/

namespace JsMap

theorem get_nil {β : Type} (k : String) : get ([] : List (String × β)) k = none := rfl

theorem get_cons {β : Type} (k₁ : String) (v : β) (rest : List (String × β)) (k : String) :
    get ((k₁, v) :: rest) k = if k₁ = k then some v else get rest k := rfl

theorem set_cons {β : Type} (k₁ : String) (v₁ : β) (rest : List (String × β)) (k : String)
    (v : β) :
    set ((k₁, v₁) :: rest) k v = if k₁ = k then (k, v) :: rest else (k₁, v₁) :: set rest k v :=
  rfl

theorem delete_cons {β : Type} (k₁ : String) (v : β) (rest : List (String × β)) (k : String) :
    delete ((k₁, v) :: rest) k = if k₁ = k then delete rest k else (k₁, v) :: delete rest k := by
  by_cases h : k₁ = k <;> simp [delete, h]

theorem get_delete_self {β : Type} (m : List (String × β)) (k : String) :
    get (delete m k) k = none := by
  induction m with
  | nil => rfl
  | cons p rest ih =>
    obtain ⟨k₁, v⟩ := p
    rw [delete_cons]
    by_cases h : k₁ = k
    · rw [if_pos h]; exact ih
    · rw [if_neg h, get_cons, if_neg h]; exact ih

theorem get_delete_ne {β : Type} (m : List (String × β)) {k k₂ : String} (hk : k₂ ≠ k) :
    get (delete m k) k₂ = get m k₂ := by
  induction m with
  | nil => rfl
  | cons p rest ih =>
    obtain ⟨k₁, v⟩ := p
    rw [delete_cons]
    by_cases h : k₁ = k
    · have h₂ : ¬ k₁ = k₂ := fun e => hk (e ▸ h)
      rw [if_pos h, get_cons, if_neg h₂]; exact ih
    · rw [if_neg h, get_cons, get_cons, ih]

theorem get_set_self {β : Type} (m : List (String × β)) (k : String) (v : β) :
    get (set m k v) k = some v := by
  induction m with
  | nil => simp [set, get]
  | cons p rest ih =>
    obtain ⟨k₁, v₁⟩ := p
    rw [set_cons]
    by_cases h : k₁ = k
    · rw [if_pos h, get_cons, if_pos rfl]
    · rw [if_neg h, get_cons, if_neg h]; exact ih

theorem get_set_ne {β : Type} (m : List (String × β)) {k k₂ : String} (v : β) (hk : k₂ ≠ k) :
    get (set m k v) k₂ = get m k₂ := by
  induction m with
  | nil => simp [set, get, Ne.symm hk]
  | cons p rest ih =>
    obtain ⟨k₁, v₁⟩ := p
    rw [set_cons]
    by_cases h : k₁ = k
    · have h₂ : ¬ k₁ = k₂ := fun e => hk (e ▸ h)
      rw [if_pos h, get_cons, get_cons, if_neg (Ne.symm hk), if_neg h₂]
    · rw [if_neg h, get_cons, get_cons, ih]

theorem has_eq_false_iff {β : Type} (m : List (String × β)) (k : String) :
    has m k = false ↔ get m k = none := by
  simp [has]

theorem has_eq_true_iff {β : Type} (m : List (String × β)) (k : String) :
    has m k = true ↔ ∃ v, get m k = some v := by
  simp [has, Option.isSome_iff_exists]

end JsMap

namespace WebSocketService

/-! ## Supporting facts about the manager -/

theorem live_close (sk : Socket) : sk.close.live = false := by
  cases h : sk.readyState <;> simp [Socket.close, Socket.live, h]

theorem endpoint_close (sk : Socket) : sk.close.endpoint = sk.endpoint := by
  cases h : sk.readyState <;> simp [Socket.close, h]

theorem length_updateSocket (l : List Socket) (ws : Nat) (f : Socket → Socket) :
    (updateSocket l ws f).length = l.length := by
  unfold updateSocket
  cases l[ws]? <;> simp

theorem getElem?_updateSocket_self (l : List Socket) (ws : Nat) (f : Socket → Socket) :
    (updateSocket l ws f)[ws]? = (l[ws]?).map f := by
  unfold updateSocket
  cases h : l[ws]? with
  | none => simp [h]
  | some sk =>
    have hlt : ws < l.length := by
      by_contra hn
      rw [List.getElem?_eq_none (Nat.le_of_not_lt hn)] at h
      cases h
    simp [List.getElem?_set_self hlt]

theorem getElem?_updateSocket_ne (l : List Socket) {ws i : Nat} (f : Socket → Socket)
    (h : ws ≠ i) : (updateSocket l ws f)[i]? = l[i]? := by
  unfold updateSocket
  cases l[ws]? with
  | none => rfl
  | some sk => simp [List.getElem?_set_ne h]

theorem mem_liveFor (s : State) (name : String) (ws : Nat) :
    ws ∈ liveFor s name ↔ liveAt s name ws = true := by
  unfold liveFor
  rw [List.mem_filter, List.mem_range]
  constructor
  · exact fun h => h.2
  · intro h
    refine ⟨?_, h⟩
    by_contra hn
    unfold liveAt at h
    rw [List.getElem?_eq_none (Nat.le_of_not_lt hn)] at h
    cases h

theorem liveFor_eq_nil (s : State) (name : String)
    (h : ∀ ws, liveAt s name ws = false) : liveFor s name = [] := by
  unfold liveFor
  rw [List.filter_eq_nil_iff]
  intro ws _
  simp [h ws]

/-- Adding a freshly constructed transport adds its handle to the live ones of its
channel and changes nothing else. -/
theorem liveFor_push (s t : State) (sk : Socket) (name : String)
    (hs : t.sockets = s.sockets ++ [sk]) :
    liveFor t name =
      liveFor s name ++
        (if (sk.live && decide (sk.endpoint = name)) = true then [s.sockets.length] else []) := by
  unfold liveFor
  rw [hs, List.length_append, List.length_singleton, List.range_succ, List.filter_append]
  congr 1
  · apply List.filter_congr
    intro ws hws
    rw [List.mem_range] at hws
    unfold liveAt
    rw [hs, List.getElem?_append_left hws]
  · have : liveAt t name s.sockets.length = (sk.live && decide (sk.endpoint = name)) := by
      unfold liveAt
      rw [hs]
      simp
    simp only [List.filter_cons, List.filter_nil, this]

/-- After `disconnect`, a channel whose live transports were all tracked has none. -/
theorem liveFor_disconnect (s : State) (name : String)
    (h : ∀ ws ∈ liveFor s name, JsMap.get s.connections name = some ws) :
    liveFor (disconnect s name) name = [] := by
  apply liveFor_eq_nil
  intro i
  unfold disconnect
  cases hg : JsMap.get s.connections name with
  | none =>
    simp only []
    by_contra hl
    have := h i ((mem_liveFor s name i).2 (by simpa using hl))
    rw [hg] at this
    cases this
  | some ws =>
    simp only []
    unfold liveAt
    simp only []
    by_cases hi : ws = i
    · subst hi
      rw [getElem?_updateSocket_self]
      cases s.sockets[ws]? with
      | none => rfl
      | some sk => simp [live_close]
    · rw [getElem?_updateSocket_ne _ _ hi]
      by_contra hl
      have hl' : liveAt s name i = true := by
        unfold liveAt
        simpa using hl
      have := h i ((mem_liveFor s name i).2 hl')
      rw [hg] at this
      exact hi (Option.some.inj this)

theorem sockets_connect_true (t : State) (name userId : String) (cbs : Callbacks) :
    (connect t name userId cbs true).1.sockets =
      (if JsMap.has t.connections name = true then disconnect t name else t).sockets ++
        [{ url := wsUrl t.wsBaseUrl name userId, readyState := .CONNECTING, endpoint := name,
           userId := userId, cbs := cbs }] := by
  have hb : (disconnect t name).wsBaseUrl = t.wsBaseUrl := by
    unfold disconnect
    cases JsMap.get t.connections name <;> rfl
  unfold connect
  by_cases hh : JsMap.has t.connections name = true <;> simp [hh, hb]

/-- What one `connect` whose constructor call returns does, on a channel whose live
transports are all tracked: the tracked transport (if any) is closed with code 1000,
and the new transport is the only live one and is the one tracked. -/
theorem connect_created (s : State) (name userId : String) (cbs : Callbacks)
    (h : ∀ ws ∈ liveFor s name, JsMap.get s.connections name = some ws) :
    (connect s name userId cbs true).2 = some s.sockets.length ∧
    (connect s name userId cbs true).1.sockets.length = s.sockets.length + 1 ∧
    liveFor (connect s name userId cbs true).1 name = [s.sockets.length] ∧
    JsMap.get (connect s name userId cbs true).1.connections name = some s.sockets.length ∧
    (connect s name userId cbs true).1.trace =
      s.trace ++ (match JsMap.get s.connections name with
        | some ws => [Effect.wsClose ws 1000 "Client disconnect"]
        | none => []) := by
  have hlen : (disconnect s name).sockets.length = s.sockets.length := by
    unfold disconnect
    cases JsMap.get s.connections name <;> simp [length_updateSocket]
  cases hg : JsMap.get s.connections name with
  | none =>
    have hhas : JsMap.has s.connections name = false := (JsMap.has_eq_false_iff _ _).2 hg
    have hnil : liveFor s name = [] := by
      have := liveFor_disconnect s name h
      simpa [disconnect, hg] using this
    refine ⟨by simp [connect, hhas], by simp [connect, hhas], ?_, ?_, by simp [connect, hhas]⟩
    · rw [liveFor_push s (connect s name userId cbs true).1 _ name (by simp [connect, hhas]; rfl)]
      simp [hnil, Socket.live]
    · simp [connect, hhas, JsMap.get_set_self]
  | some ws =>
    have hhas : JsMap.has s.connections name = true := (JsMap.has_eq_true_iff _ _).2 ⟨ws, hg⟩
    have hnil := liveFor_disconnect s name h
    refine ⟨by simp [connect, hhas, hlen], by simp [connect, hhas, hlen], ?_, ?_, ?_⟩
    · rw [liveFor_push (disconnect s name) (connect s name userId cbs true).1 _ name
        (by simp [connect, hhas]; rfl)]
      simp [hnil, Socket.live, hlen]
    · simp [connect, hhas, JsMap.get_set_self, hlen]
    · simp [connect, hhas, disconnect, hg]

/-- What one `connect` whose constructor call returns does in every state: it
returns the new handle, tracks it under the name, and calls `close(1000, ...)` on
the transport tracked before (if any) and on nothing else. -/
theorem connect_true_effect (s : State) (name userId : String) (cbs : Callbacks) :
    (connect s name userId cbs true).2 = some s.sockets.length ∧
    (connect s name userId cbs true).1.sockets.length = s.sockets.length + 1 ∧
    JsMap.get (connect s name userId cbs true).1.connections name = some s.sockets.length ∧
    (connect s name userId cbs true).1.trace =
      s.trace ++ (match JsMap.get s.connections name with
        | some ws => [Effect.wsClose ws 1000 "Client disconnect"]
        | none => []) := by
  have hlen : (disconnect s name).sockets.length = s.sockets.length := by
    unfold disconnect
    cases JsMap.get s.connections name <;> simp [length_updateSocket]
  cases hg : JsMap.get s.connections name with
  | none =>
    have hhas : JsMap.has s.connections name = false := (JsMap.has_eq_false_iff _ _).2 hg
    exact ⟨by simp [connect, hhas], by simp [connect, hhas],
      by simp [connect, hhas, JsMap.get_set_self], by simp [connect, hhas]⟩
  | some ws =>
    have hhas : JsMap.has s.connections name = true := (JsMap.has_eq_true_iff _ _).2 ⟨ws, hg⟩
    exact ⟨by simp [connect, hhas, hlen], by simp [connect, hhas, hlen],
      by simp [connect, hhas, JsMap.get_set_self, hlen], by simp [connect, hhas, disconnect, hg]⟩

theorem attemptReconnect_below_max (s : State) (endpoint userId : String) (cbs : Callbacks)
    (h : (JsMap.get s.reconnectAttempts endpoint).getD 0 < maxReconnectAttempts) :
    attemptReconnect s endpoint userId cbs =
      { s with
        reconnectAttempts := JsMap.set s.reconnectAttempts endpoint
          ((JsMap.get s.reconnectAttempts endpoint).getD 0 + 1)
        timers := s.timers ++
          [{ delay := reconnectInterval * 2 ^ ((JsMap.get s.reconnectAttempts endpoint).getD 0),
             endpoint := endpoint, userId := userId, cbs := cbs, pending := true }] } := by
  unfold attemptReconnect
  simp only [h, if_true]

theorem attemptReconnect_at_max (s : State) (endpoint userId : String) (cbs : Callbacks)
    (h : ¬ (JsMap.get s.reconnectAttempts endpoint).getD 0 < maxReconnectAttempts) :
    attemptReconnect s endpoint userId cbs = s := by
  unfold attemptReconnect
  simp only [h, if_false]

theorem closeEvent_eq (s : State) (ws : Nat) (sk : Socket) (code : Nat)
    (hsk : s.sockets[ws]? = some sk) (hst : sk.readyState ≠ .CLOSED) :
    closeEvent s ws code =
      onclose { s with sockets := s.sockets.set ws { sk with readyState := .CLOSED } }
        sk.endpoint sk.userId sk.cbs code := by
  unfold closeEvent
  rw [hsk]
  simp only [hst, ne_eq, not_false_eq_true, if_true]

/-- What the close handler does to the active set, the trace, the timers and the
counters (the content of C3; also used for C9). -/
theorem onclose_effect (s : State) (ws : Nat) (sk : Socket) (code : Nat)
    (hsk : s.sockets[ws]? = some sk) (hst : sk.readyState ≠ .CLOSED) :
    JsMap.has (closeEvent s ws code).connections sk.endpoint = false ∧
    (closeEvent s ws code).trace =
      s.trace ++ (match sk.cbs.onClose with
        | some f => [Effect.callOnClose f code]
        | none => []) ∧
    (code = 1000 →
      (closeEvent s ws code).timers = s.timers ∧
      (closeEvent s ws code).reconnectAttempts = s.reconnectAttempts) ∧
    (code ≠ 1000 → (JsMap.get s.reconnectAttempts sk.endpoint).getD 0 < 5 →
      (closeEvent s ws code).timers =
        s.timers ++
          [{ delay := 3000 * 2 ^ ((JsMap.get s.reconnectAttempts sk.endpoint).getD 0),
             endpoint := sk.endpoint, userId := sk.userId, cbs := sk.cbs, pending := true }] ∧
      ∀ created, fireTimer (closeEvent s ws code) s.timers.length created =
        (connect
          { closeEvent s ws code with
            timers := s.timers ++
              [{ delay := 3000 * 2 ^ ((JsMap.get s.reconnectAttempts sk.endpoint).getD 0),
                 endpoint := sk.endpoint, userId := sk.userId, cbs := sk.cbs,
                 pending := false }] }
          sk.endpoint sk.userId sk.cbs created).1) := by
  rw [closeEvent_eq s ws sk code hsk hst]
  refine ⟨?_, ?_, ?_, ?_⟩
  · rw [JsMap.has_eq_false_iff]
    unfold onclose
    by_cases hc : code = 1000
    · cases sk.cbs.onClose <;> simp [hc, JsMap.get_delete_self]
    · unfold attemptReconnect
      cases sk.cbs.onClose <;> simp only [hc, ne_eq, not_false_eq_true, if_true] <;>
        split <;> simp [JsMap.get_delete_self]
  · unfold onclose
    by_cases hc : code = 1000
    · cases sk.cbs.onClose <;> simp [hc]
    · unfold attemptReconnect
      cases sk.cbs.onClose <;> simp only [hc, ne_eq, not_false_eq_true, if_true] <;>
        split <;> simp
  · intro hc
    unfold onclose
    cases sk.cbs.onClose <;> simp [hc]
  · intro hc hlt
    have htimers : (onclose { s with sockets := s.sockets.set ws { sk with readyState := .CLOSED } }
        sk.endpoint sk.userId sk.cbs code).timers =
        s.timers ++
          [{ delay := 3000 * 2 ^ ((JsMap.get s.reconnectAttempts sk.endpoint).getD 0),
             endpoint := sk.endpoint, userId := sk.userId, cbs := sk.cbs, pending := true }] := by
      unfold onclose
      simp only [hc, ne_eq, not_false_eq_true, if_true]
      cases sk.cbs.onClose <;>
        (simp only []
         rw [attemptReconnect_below_max _ _ _ _ (by simpa [maxReconnectAttempts] using hlt)]
         simp [reconnectInterval])
    refine ⟨htimers, ?_⟩
    intro created
    unfold fireTimer
    rw [htimers]
    simp

theorem length_sockets_disconnect (t : State) (name : String) :
    (disconnect t name).sockets.length = t.sockets.length := by
  unfold disconnect
  cases JsMap.get t.connections name <;> simp [length_updateSocket]

theorem timers_disconnect (t : State) (name : String) :
    (disconnect t name).timers = t.timers := by
  unfold disconnect
  cases JsMap.get t.connections name <;> rfl

theorem disconnect_untracked (t : State) (name : String)
    (h : JsMap.get t.connections name = none) : disconnect t name = t := by
  unfold disconnect
  rw [h]

/-- A `connect` whose constructor call returns tracks the new transport, which is
connecting. -/
theorem connect_true_tracks (t : State) (name userId : String) (cbs : Callbacks) :
    (connect t name userId cbs true).2 = some t.sockets.length ∧
    JsMap.get (connect t name userId cbs true).1.connections name = some t.sockets.length ∧
    liveAt (connect t name userId cbs true).1 name t.sockets.length = true := by
  have hlen := length_sockets_disconnect t name
  refine ⟨?_, ?_, ?_⟩
  · unfold connect
    by_cases hh : JsMap.has t.connections name = true <;> simp [hh, hlen]
  · unfold connect
    by_cases hh : JsMap.has t.connections name = true <;>
      simp [hh, hlen, JsMap.get_set_self]
  · unfold liveAt
    rw [sockets_connect_true]
    by_cases hh : JsMap.has t.connections name = true
    · rw [if_pos hh, ← hlen]
      simp [Socket.live]
    · rw [if_neg hh]
      simp [Socket.live]

theorem closeEvent_normal (t : State) (ws : Nat) :
    (closeEvent t ws 1000).timers = t.timers ∧
    (closeEvent t ws 1000).reconnectAttempts = t.reconnectAttempts := by
  unfold closeEvent
  cases t.sockets[ws]? with
  | none => exact ⟨rfl, rfl⟩
  | some sk =>
    by_cases hst : sk.readyState = .CLOSED
    · simp [hst]
    · unfold onclose
      cases hc : sk.cbs.onClose <;> simp [hst, hc]

/-- What `disconnect` does for a name with a tracked transport (the content of C7;
also used for `disconnectAll`). -/
theorem disconnect_tracked (s : State) (name : String) (ws : Nat)
    (h : JsMap.get s.connections name = some ws) :
    (disconnect s name).trace = s.trace ++ [Effect.wsClose ws 1000 "Client disconnect"] ∧
    (∀ sk, (disconnect s name).sockets[ws]? = some sk → sk.live = false) ∧
    JsMap.has (disconnect s name).connections name = false ∧
    JsMap.has (disconnect s name).reconnectAttempts name = false := by
  refine ⟨?_, ?_, ?_, ?_⟩
  · unfold disconnect
    rw [h]
  · intro sk hsk
    unfold disconnect at hsk
    rw [h] at hsk
    simp only [] at hsk
    rw [getElem?_updateSocket_self] at hsk
    cases h₀ : s.sockets[ws]? with
    | none => rw [h₀] at hsk; cases hsk
    | some sk₀ =>
      rw [h₀] at hsk
      have : sk = sk₀.close := (Option.some.inj hsk).symm
      rw [this]
      exact live_close sk₀
  · rw [JsMap.has_eq_false_iff]
    unfold disconnect
    rw [h]
    exact JsMap.get_delete_self _ _
  · rw [JsMap.has_eq_false_iff]
    unfold disconnect
    rw [h]
    exact JsMap.get_delete_self _ _

theorem trace_openEvent (t : State) (ws : Nat) : (openEvent t ws).trace = t.trace := by
  unfold openEvent
  cases t.sockets[ws]? with
  | none => rfl
  | some sk =>
    by_cases hst : sk.readyState = .CONNECTING
    · simp [hst, onopen]
    · simp [hst]

theorem send_untracked {μ : Type} (stringify : μ → String) (s : State) (name : String)
    (message : μ) (hg : JsMap.get s.connections name = none) :
    send stringify s name message = (false, s) := by
  unfold send
  rw [hg]

theorem send_tracked {μ : Type} (stringify : μ → String) (s : State) (name : String)
    (message : μ) (ws : Nat) (hg : JsMap.get s.connections name = some ws) :
    send stringify s name message =
      (match s.sockets[ws]? with
      | some sk =>
        if sk.readyState = .OPEN then
          (true, { s with trace := s.trace ++ [Effect.wsSend ws (stringify message)] })
        else (false, s)
      | none => (false, s)) := by
  unfold send
  rw [hg]

theorem openEvent_eq (s : State) (ws : Nat) (sk : Socket)
    (hsk : s.sockets[ws]? = some sk) (hst : sk.readyState = .CONNECTING) :
    openEvent s ws =
      onopen { s with sockets := s.sockets.set ws { sk with readyState := .OPEN } }
        sk.endpoint := by
  unfold openEvent
  rw [hsk]
  simp only [hst, if_true]

theorem connections_disconnect (t : State) (k : String) :
    ∀ p ∈ (disconnect t k).connections, p ∈ t.connections ∧ p.1 ≠ k := by
  intro p hp
  unfold disconnect at hp
  cases hg : JsMap.get t.connections k with
  | none =>
    rw [hg] at hp
    refine ⟨hp, ?_⟩
    intro hk
    have hex : ∀ (m : List (String × Nat)), p ∈ m → JsMap.get m k ≠ none := by
      intro m
      induction m with
      | nil => intro h; cases h
      | cons q rest ih =>
        obtain ⟨k₁, v⟩ := q
        intro hmem
        rw [JsMap.get_cons]
        by_cases h₁ : k₁ = k
        · rw [if_pos h₁]; exact Option.some_ne_none v
        · rw [if_neg h₁]
          rcases List.mem_cons.1 hmem with h | h
          · exact absurd (by rw [h] at hk; exact hk) h₁
          · exact ih h
    exact hex _ hp hg
  | some ws =>
    rw [hg] at hp
    simp only [JsMap.delete, List.mem_filter, decide_eq_true_eq] at hp
    exact hp

theorem connections_foldl_disconnect (ks : List String) (t : State) :
    ∀ p ∈ (ks.foldl disconnect t).connections, p ∈ t.connections ∧ p.1 ∉ ks := by
  induction ks generalizing t with
  | nil => intro p hp; exact ⟨hp, List.not_mem_nil _⟩
  | cons k rest ih =>
    intro p hp
    rw [List.foldl_cons] at hp
    obtain ⟨h₁, h₂⟩ := ih (disconnect t k) p hp
    obtain ⟨h₃, h₄⟩ := connections_disconnect t k p h₁
    refine ⟨h₃, ?_⟩
    intro hmem
    rcases List.mem_cons.1 hmem with h | h
    · exact h₄ h
    · exact h₂ h

theorem trace_disconnect_mono (t : State) (k : String) (e : Effect) (he : e ∈ t.trace) :
    e ∈ (disconnect t k).trace := by
  unfold disconnect
  cases JsMap.get t.connections k with
  | none => exact he
  | some ws => exact List.mem_append_left _ he

theorem trace_foldl_disconnect_mono (ks : List String) (t : State) (e : Effect)
    (he : e ∈ t.trace) : e ∈ (ks.foldl disconnect t).trace := by
  induction ks generalizing t with
  | nil => exact he
  | cons k rest ih => exact ih (disconnect t k) (trace_disconnect_mono t k e he)

theorem not_live_disconnect_mono (t : State) (k : String) (ws : Nat)
    (h : ∀ sk, t.sockets[ws]? = some sk → sk.live = false) :
    ∀ sk, (disconnect t k).sockets[ws]? = some sk → sk.live = false := by
  intro sk hsk
  unfold disconnect at hsk
  cases hg : JsMap.get t.connections k with
  | none => rw [hg] at hsk; exact h sk hsk
  | some w =>
    rw [hg] at hsk
    simp only [] at hsk
    by_cases hw : w = ws
    · subst hw
      rw [getElem?_updateSocket_self] at hsk
      cases h₀ : t.sockets[w]? with
      | none => rw [h₀] at hsk; cases hsk
      | some sk₀ =>
        rw [h₀] at hsk
        rw [← Option.some.inj hsk]
        exact live_close sk₀
    · rw [getElem?_updateSocket_ne _ _ hw] at hsk
      exact h sk hsk

theorem not_live_foldl_disconnect_mono (ks : List String) (t : State) (ws : Nat)
    (h : ∀ sk, t.sockets[ws]? = some sk → sk.live = false) :
    ∀ sk, (ks.foldl disconnect t).sockets[ws]? = some sk → sk.live = false := by
  induction ks generalizing t with
  | nil => exact h
  | cons k rest ih => exact ih (disconnect t k) (not_live_disconnect_mono t k ws h)

theorem counter_absent_disconnect_mono (t : State) (k name : String)
    (h : JsMap.get t.reconnectAttempts name = none) :
    JsMap.get (disconnect t k).reconnectAttempts name = none := by
  unfold disconnect
  cases JsMap.get t.connections k with
  | none => exact h
  | some ws =>
    simp only []
    by_cases hk : name = k
    · rw [hk]; exact JsMap.get_delete_self _ _
    · rw [JsMap.get_delete_ne _ hk]; exact h

theorem counter_absent_foldl_disconnect_mono (ks : List String) (t : State) (name : String)
    (h : JsMap.get t.reconnectAttempts name = none) :
    JsMap.get (ks.foldl disconnect t).reconnectAttempts name = none := by
  induction ks generalizing t with
  | nil => exact h
  | cons k rest ih => exact ih (disconnect t k) (counter_absent_disconnect_mono t k name h)

theorem connections_disconnect_other (t : State) {k name : String} (hk : name ≠ k) :
    JsMap.get (disconnect t k).connections name = JsMap.get t.connections name := by
  unfold disconnect
  cases JsMap.get t.connections k with
  | none => rfl
  | some ws => exact JsMap.get_delete_ne _ hk

/-- Visiting a list of keys that contains a tracked name closes its transport and
drops its counter. -/
theorem foldl_disconnect_closes (ks : List String) (t : State) (name : String) (ws : Nat)
    (hmem : name ∈ ks) (hg : JsMap.get t.connections name = some ws) :
    Effect.wsClose ws 1000 "Client disconnect" ∈ (ks.foldl disconnect t).trace ∧
    (∀ sk, (ks.foldl disconnect t).sockets[ws]? = some sk → sk.live = false) ∧
    JsMap.get (ks.foldl disconnect t).reconnectAttempts name = none := by
  induction ks generalizing t with
  | nil => cases hmem
  | cons k rest ih =>
    rw [List.foldl_cons]
    by_cases hk : name = k
    · subst hk
      obtain ⟨h₁, h₂, _, h₄⟩ := disconnect_tracked t name ws hg
      refine ⟨?_, ?_, ?_⟩
      · apply trace_foldl_disconnect_mono
        rw [h₁]
        exact List.mem_append_right _ (List.mem_singleton.2 rfl)
      · exact not_live_foldl_disconnect_mono rest _ ws h₂
      · exact counter_absent_foldl_disconnect_mono rest _ name
          ((JsMap.has_eq_false_iff _ _).1 h₄)
    · have hrest : name ∈ rest := by
        rcases List.mem_cons.1 hmem with h | h
        · exact absurd h hk
        · exact h
      exact ih (disconnect t k) hrest (by rw [connections_disconnect_other t hk]; exact hg)

theorem mem_keys_of_get {β : Type} (m : List (String × β)) (k : String) (v : β)
    (h : JsMap.get m k = some v) : k ∈ JsMap.keys m := by
  induction m with
  | nil => cases h
  | cons p rest ih =>
    obtain ⟨k₁, v₁⟩ := p
    rw [JsMap.get_cons] at h
    by_cases h₁ : k₁ = k
    · simp [JsMap.keys, h₁]
    · rw [if_neg h₁] at h
      have := ih h
      simp only [JsMap.keys, List.map_cons, List.mem_cons] at this ⊢
      exact Or.inr this

theorem counter_disconnect (t : State) (k name : String) :
    JsMap.get (disconnect t k).reconnectAttempts name = JsMap.get t.reconnectAttempts name ∨
    JsMap.get (disconnect t k).reconnectAttempts name = none := by
  unfold disconnect
  cases JsMap.get t.connections k with
  | none => exact Or.inl rfl
  | some ws =>
    simp only []
    by_cases hk : name = k
    · rw [hk]; exact Or.inr (JsMap.get_delete_self _ _)
    · exact Or.inl (JsMap.get_delete_ne _ hk)

theorem counter_foldl_disconnect (ks : List String) (t : State) (name : String) :
    JsMap.get (ks.foldl disconnect t).reconnectAttempts name
      = JsMap.get t.reconnectAttempts name ∨
    JsMap.get (ks.foldl disconnect t).reconnectAttempts name = none := by
  induction ks generalizing t with
  | nil => exact Or.inl rfl
  | cons k rest ih =>
    rw [List.foldl_cons]
    rcases counter_disconnect t k name with h | h
    · rw [← h]; exact ih (disconnect t k)
    · exact Or.inr (counter_absent_foldl_disconnect_mono rest _ name h)

theorem reconnectAttempts_connect (t : State) (name userId : String) (cbs : Callbacks)
    (created : Bool) :
    (connect t name userId cbs created).1.reconnectAttempts =
      (if JsMap.has t.connections name = true then disconnect t name else t).reconnectAttempts := by
  unfold connect
  cases created
  · cases cbs.onError <;> simp
  · simp

theorem counter_connect (t : State) (k userId : String) (cbs : Callbacks) (created : Bool)
    (name : String) :
    JsMap.get (connect t k userId cbs created).1.reconnectAttempts name
      = JsMap.get t.reconnectAttempts name ∨
    JsMap.get (connect t k userId cbs created).1.reconnectAttempts name = none := by
  rw [reconnectAttempts_connect]
  by_cases hh : JsMap.has t.connections k = true
  · rw [if_pos hh]; exact counter_disconnect t k name
  · rw [if_neg hh]; exact Or.inl rfl

theorem counter_attemptReconnect (t : State) (k userId : String) (cbs : Callbacks)
    (name : String) :
    JsMap.get (attemptReconnect t k userId cbs).reconnectAttempts name
      = JsMap.get t.reconnectAttempts name ∨
    ((JsMap.get t.reconnectAttempts name).getD 0 < maxReconnectAttempts ∧
      JsMap.get (attemptReconnect t k userId cbs).reconnectAttempts name
        = some ((JsMap.get t.reconnectAttempts name).getD 0 + 1)) := by
  by_cases hlt : (JsMap.get t.reconnectAttempts k).getD 0 < maxReconnectAttempts
  · rw [attemptReconnect_below_max t k userId cbs hlt]
    by_cases hk : name = k
    · subst hk
      exact Or.inr ⟨hlt, JsMap.get_set_self _ _ _⟩
    · exact Or.inl (JsMap.get_set_ne _ _ hk)
  · rw [attemptReconnect_at_max t k userId cbs hlt]
    exact Or.inl rfl

theorem reconnectAttempts_onclose (t : State) (k userId : String) (cbs : Callbacks)
    (code : Nat) :
    (code = 1000 → (onclose t k userId cbs code).reconnectAttempts = t.reconnectAttempts) ∧
    (code ≠ 1000 → ∀ name,
      JsMap.get (onclose t k userId cbs code).reconnectAttempts name
        = JsMap.get t.reconnectAttempts name ∨
      ((JsMap.get t.reconnectAttempts name).getD 0 < maxReconnectAttempts ∧
        JsMap.get (onclose t k userId cbs code).reconnectAttempts name
          = some ((JsMap.get t.reconnectAttempts name).getD 0 + 1))) := by
  constructor
  · intro hc
    unfold onclose
    cases hcb : cbs.onClose <;> simp [hc]
  · intro hc name
    unfold onclose
    simp only [hc, ne_eq, not_false_eq_true, if_true]
    cases hcb : cbs.onClose
    · exact counter_attemptReconnect _ k userId cbs name
    · exact counter_attemptReconnect _ k userId cbs name

theorem counter_openEvent (s : State) (ws : Nat) (name : String) :
    JsMap.get (openEvent s ws).reconnectAttempts name = JsMap.get s.reconnectAttempts name ∨
    JsMap.get (openEvent s ws).reconnectAttempts name = some 0 := by
  unfold openEvent
  cases hs : s.sockets[ws]? with
  | none => exact Or.inl rfl
  | some sk =>
    simp only []
    by_cases hst : sk.readyState = .CONNECTING
    · rw [if_pos hst]
      by_cases hk : name = sk.endpoint
      · rw [hk]; exact Or.inr (JsMap.get_set_self _ _ _)
      · exact Or.inl (JsMap.get_set_ne _ _ hk)
    · rw [if_neg hst]; exact Or.inl rfl

theorem counter_closeEvent (s : State) (ws code : Nat) (name : String) :
    JsMap.get (closeEvent s ws code).reconnectAttempts name
      = JsMap.get s.reconnectAttempts name ∨
    (code ≠ 1000 ∧ (JsMap.get s.reconnectAttempts name).getD 0 < maxReconnectAttempts ∧
      JsMap.get (closeEvent s ws code).reconnectAttempts name
        = some ((JsMap.get s.reconnectAttempts name).getD 0 + 1)) := by
  unfold closeEvent
  cases hs : s.sockets[ws]? with
  | none => exact Or.inl rfl
  | some sk =>
    simp only []
    by_cases hst : sk.readyState = .CLOSED
    · rw [if_neg (not_not.2 hst)]; exact Or.inl rfl
    · rw [if_pos hst]
      by_cases hc : code = 1000
      · rw [(reconnectAttempts_onclose _ sk.endpoint sk.userId sk.cbs code).1 hc]
        exact Or.inl rfl
      · rcases (reconnectAttempts_onclose _ sk.endpoint sk.userId sk.cbs code).2 hc name
          with h | h
        · exact Or.inl h
        · exact Or.inr ⟨hc, h⟩

theorem reconnectAttempts_errorEvent (s : State) (ws : Nat) :
    (errorEvent s ws).reconnectAttempts = s.reconnectAttempts := by
  unfold errorEvent onerror
  cases hs : s.sockets[ws]? with
  | none => rfl
  | some sk =>
    simp only []
    by_cases hst : sk.readyState = .CLOSED
    · rw [if_neg (not_not.2 hst)]
    · rw [if_pos hst]
      cases sk.cbs.onError <;> rfl

theorem counter_fireTimer (s : State) (id : Nat) (created : Bool) (name : String) :
    JsMap.get (fireTimer s id created).reconnectAttempts name
      = JsMap.get s.reconnectAttempts name ∨
    JsMap.get (fireTimer s id created).reconnectAttempts name = none := by
  unfold fireTimer
  cases hs : s.timers[id]? with
  | none => exact Or.inl rfl
  | some t =>
    simp only []
    by_cases hp : t.pending = true
    · rw [if_pos hp]
      exact counter_connect
        { s with timers := s.timers.set id { t with pending := false } }
        t.endpoint t.userId t.cbs created name
    · rw [if_neg hp]; exact Or.inl rfl

/-- The four ways in which one step can change the counter of a name: not at all,
delete it, reset it to 0, or (only at a close event with a code other than 1000, and
only below the maximum) add one to it. -/
theorem counter_step (s : State) (e : Event) (name : String) :
    JsMap.get (step s e).reconnectAttempts name = JsMap.get s.reconnectAttempts name ∨
    JsMap.get (step s e).reconnectAttempts name = none ∨
    JsMap.get (step s e).reconnectAttempts name = some 0 ∨
    ((∃ ws code, e = Event.wsClose ws code ∧ code ≠ 1000) ∧
      (JsMap.get s.reconnectAttempts name).getD 0 < maxReconnectAttempts ∧
      JsMap.get (step s e).reconnectAttempts name
        = some ((JsMap.get s.reconnectAttempts name).getD 0 + 1)) := by
  cases e with
  | connect k userId cbs created =>
    rcases counter_connect s k userId cbs created name with h | h
    · exact Or.inl h
    · exact Or.inr (Or.inl h)
  | disconnect k =>
    rcases counter_disconnect s k name with h | h
    · exact Or.inl h
    · exact Or.inr (Or.inl h)
  | disconnectAll =>
    rcases counter_foldl_disconnect (JsMap.keys s.connections) s name with h | h
    · exact Or.inl h
    · exact Or.inr (Or.inl h)
  | wsOpen ws =>
    rcases counter_openEvent s ws name with h | h
    · exact Or.inl h
    · exact Or.inr (Or.inr (Or.inl h))
  | wsClose ws code =>
    rcases counter_closeEvent s ws code name with h | ⟨hc, h⟩
    · exact Or.inl h
    · exact Or.inr (Or.inr (Or.inr ⟨⟨ws, code, rfl, hc⟩, h⟩))
  | wsError ws =>
    exact Or.inl (congrArg (fun m => JsMap.get m name) (reconnectAttempts_errorEvent s ws))
  | timerFires id created =>
    rcases counter_fireTimer s id created name with h | h
    · exact Or.inl h
    · exact Or.inr (Or.inl h)

/-- In every state reached from a new manager, every reconnect counter is at most
`maxReconnectAttempts` (5). -/
theorem counter_le_max (env : Option String) (es : List Event) (name : String) (v : Nat)
    (h : JsMap.get (run (init env) es).reconnectAttempts name = some v) :
    v ≤ maxReconnectAttempts := by
  have key : ∀ (es : List Event) (s : State),
      (∀ n w, JsMap.get s.reconnectAttempts n = some w → w ≤ maxReconnectAttempts) →
      ∀ n w, JsMap.get (run s es).reconnectAttempts n = some w → w ≤ maxReconnectAttempts := by
    intro es
    induction es with
    | nil => intro s hs; exact hs
    | cons e rest ih =>
      intro s hs
      apply ih (step s e)
      intro n w hw
      rcases counter_step s e n with h₁ | h₁ | h₁ | ⟨_, hlt, h₁⟩
      · exact hs n w (h₁ ▸ hw)
      · rw [h₁] at hw; cases hw
      · rw [h₁] at hw; cases hw; exact Nat.zero_le _
      · rw [h₁] at hw; cases hw; exact hlt
  exact key es (init env) (by intro n w hw; cases hw) name v h

/-- A counter that reads 0 (or is absent) stays so along any events among which no
close event has a code other than 1000. -/
theorem counter_zero_run (es : List Event) (s : State) (name : String)
    (h0 : (JsMap.get s.reconnectAttempts name).getD 0 = 0)
    (hes : ∀ e ∈ es, ∀ w c, e = Event.wsClose w c → c = 1000) :
    (JsMap.get (run s es).reconnectAttempts name).getD 0 = 0 := by
  induction es generalizing s with
  | nil => exact h0
  | cons e rest ih =>
    apply ih (step s e)
    · rcases counter_step s e name with h | h | h | ⟨⟨w, c, he, hc⟩, _⟩
      · rw [h]; exact h0
      · rw [h]; rfl
      · rw [h]; rfl
      · exact absurd (hes e (List.mem_cons_self _ _) w c he) hc
    · intro e₁ he₁
      exact hes e₁ (List.mem_cons_of_mem _ he₁)

/-! ## The claims -/

/-- C1 (fails on the code). The claim says that no reachable state has two live
transports for one channel name. Here `connect` is called twice for "notifications";
the close event of the replaced transport 0 then arrives with code 1006, its handler
deletes the entry of transport 1 and schedules a reconnect, and when that timer fires
`connect` finds no entry to tear down: transports 1 and 2 are both live, and only 2
is tracked. -/
theorem stale_close_leaves_two_live_transports :
    liveFor
      (run (init none)
        [Event.connect "notifications" "7" ⟨0, none, none⟩ true,
         Event.connect "notifications" "7" ⟨0, none, none⟩ true,
         Event.wsClose 0 1006,
         Event.timerFires 0 true]) "notifications" = [1, 2] ∧
    JsMap.get
      (run (init none)
        [Event.connect "notifications" "7" ⟨0, none, none⟩ true,
         Event.connect "notifications" "7" ⟨0, none, none⟩ true,
         Event.wsClose 0 1006,
         Event.timerFires 0 true]).connections "notifications" = some 2 := by
  decide

/-- C2. Two `connect` calls in a row for one name, each constructing its
transport: the second call closes the transport of the first with code 1000 (it goes
from `CONNECTING` to `CLOSING` and is no longer live) and makes no other call, the
transport of the second call is live, and the active set maps the name to it. When
the live transports of the name were all tracked before the two calls (as on a new
manager), the transport of the second call is the only live one of the name. -/
theorem connect_twice_one_live (s : State) (name u₁ u₂ : String) (cb₁ cb₂ : Callbacks) :
    (connect s name u₁ cb₁ true).2 = some s.sockets.length ∧
    (connect (connect s name u₁ cb₁ true).1 name u₂ cb₂ true).2 = some (s.sockets.length + 1) ∧
    JsMap.get (connect (connect s name u₁ cb₁ true).1 name u₂ cb₂ true).1.connections name
      = some (s.sockets.length + 1) ∧
    (connect (connect s name u₁ cb₁ true).1 name u₂ cb₂ true).1.trace
      = (connect s name u₁ cb₁ true).1.trace ++
          [Effect.wsClose s.sockets.length 1000 "Client disconnect"] ∧
    ((connect (connect s name u₁ cb₁ true).1 name u₂ cb₂ true).1.sockets[s.sockets.length]?).map
      Socket.readyState = some ReadyState.CLOSING ∧
    liveAt (connect (connect s name u₁ cb₁ true).1 name u₂ cb₂ true).1 name
      s.sockets.length = false ∧
    liveAt (connect (connect s name u₁ cb₁ true).1 name u₂ cb₂ true).1 name
      (s.sockets.length + 1) = true ∧
    ((∀ ws ∈ liveFor s name, JsMap.get s.connections name = some ws) →
      liveFor (connect (connect s name u₁ cb₁ true).1 name u₂ cb₂ true).1 name
        = [s.sockets.length + 1]) := by
  obtain ⟨hr₁, hl₁, hget₁, _⟩ := connect_true_effect s name u₁ cb₁
  obtain ⟨hr₂, _, hget₂, htr₂⟩ := connect_true_effect (connect s name u₁ cb₁ true).1 name u₂ cb₂
  rw [hl₁] at hr₂ hget₂
  rw [hget₁] at htr₂
  have hhas : JsMap.has (connect s name u₁ cb₁ true).1.connections name = true :=
    (JsMap.has_eq_true_iff _ _).2 ⟨_, hget₁⟩
  have hsk : (connect s name u₁ cb₁ true).1.sockets[s.sockets.length]? =
      some { url := wsUrl s.wsBaseUrl name u₁, readyState := .CONNECTING, endpoint := name,
             userId := u₁, cbs := cb₁ } := by
    rw [sockets_connect_true]
    by_cases hh : JsMap.has s.connections name = true
    · rw [if_pos hh, ← length_sockets_disconnect s name]
      simp
    · rw [if_neg hh]
      simp
  have hlt : s.sockets.length < (connect s name u₁ cb₁ true).1.sockets.length := by
    rw [hl₁]; exact Nat.lt_succ_self _
  have hupd : (disconnect (connect s name u₁ cb₁ true).1 name).sockets[s.sockets.length]? =
      some { url := wsUrl s.wsBaseUrl name u₁, readyState := .CLOSING, endpoint := name,
             userId := u₁, cbs := cb₁ } := by
    unfold disconnect
    rw [hget₁]
    simp only []
    rw [getElem?_updateSocket_self, hsk]
    rfl
  have hlt' : s.sockets.length <
      (disconnect (connect s name u₁ cb₁ true).1 name).sockets.length := by
    rw [length_sockets_disconnect]; exact hlt
  have hfirst :
      (connect (connect s name u₁ cb₁ true).1 name u₂ cb₂ true).1.sockets[s.sockets.length]? =
      some { url := wsUrl s.wsBaseUrl name u₁, readyState := .CLOSING, endpoint := name,
             userId := u₁, cbs := cb₁ } := by
    rw [sockets_connect_true, if_pos hhas, List.getElem?_append_left hlt', hupd]
  have hsecond := (connect_true_tracks (connect s name u₁ cb₁ true).1 name u₂ cb₂).2.2
  rw [hl₁] at hsecond
  refine ⟨hr₁, hr₂, hget₂, htr₂, ?_, ?_, hsecond, ?_⟩
  · rw [hfirst]; rfl
  · unfold liveAt
    rw [hfirst]
    rfl
  · intro h
    obtain ⟨_, _, hlive₁, _, _⟩ := connect_created s name u₁ cb₁ h
    have h₁ : ∀ ws ∈ liveFor (connect s name u₁ cb₁ true).1 name,
        JsMap.get (connect s name u₁ cb₁ true).1.connections name = some ws := by
      intro ws hws
      rw [hlive₁, List.mem_singleton] at hws
      rw [hget₁, hws]
    obtain ⟨_, _, hlive₂, _, _⟩ :=
      connect_created (connect s name u₁ cb₁ true).1 name u₂ cb₂ h₁
    rw [hl₁] at hlive₂
    exact hlive₂

/-- C2, on a new manager and the channel "notifications". -/
theorem connect_twice_one_live_witness :
    (∀ ws ∈ liveFor (init none) "notifications",
      JsMap.get (init none).connections "notifications" = some ws) ∧
    liveFor (connect (connect (init none) "notifications" "7" ⟨0, none, none⟩ true).1
      "notifications" "7" ⟨0, none, none⟩ true).1 "notifications" = [1] :=
  ⟨(by intro ws hws; cases hws),
   (connect_twice_one_live (init none) "notifications" "7" "7" ⟨0, none, none⟩
      ⟨0, none, none⟩).2.2.2.2.2.2.2 (by intro ws hws; cases hws)⟩

/-- C3. A close event with code `code` reaches a transport made by `connect` (one
that is not closed yet). The handler removes the channel name from the active set and
calls the close callback once when there is one. With code 1000 it schedules nothing
and leaves the counters alone. With any other code and a counter below 5 it schedules
exactly one timer, and that timer, when it fires, calls `connect` with the name, the
user id and the callbacks of the closed transport. -/
theorem close_event_handler (s : State) (ws : Nat) (sk : Socket) (code : Nat)
    (hsk : s.sockets[ws]? = some sk) (hst : sk.readyState ≠ .CLOSED) :
    JsMap.has (closeEvent s ws code).connections sk.endpoint = false ∧
    (closeEvent s ws code).trace =
      s.trace ++ (match sk.cbs.onClose with
        | some f => [Effect.callOnClose f code]
        | none => []) ∧
    (code = 1000 →
      (closeEvent s ws code).timers = s.timers ∧
      (closeEvent s ws code).reconnectAttempts = s.reconnectAttempts) ∧
    (code ≠ 1000 → (JsMap.get s.reconnectAttempts sk.endpoint).getD 0 < 5 →
      (closeEvent s ws code).timers =
        s.timers ++
          [{ delay := 3000 * 2 ^ ((JsMap.get s.reconnectAttempts sk.endpoint).getD 0),
             endpoint := sk.endpoint, userId := sk.userId, cbs := sk.cbs, pending := true }] ∧
      ∀ created, fireTimer (closeEvent s ws code) s.timers.length created =
        (connect
          { closeEvent s ws code with
            timers := s.timers ++
              [{ delay := 3000 * 2 ^ ((JsMap.get s.reconnectAttempts sk.endpoint).getD 0),
                 endpoint := sk.endpoint, userId := sk.userId, cbs := sk.cbs,
                 pending := false }] }
          sk.endpoint sk.userId sk.cbs created).1) :=
  onclose_effect s ws sk code hsk hst

/-- C3, at the abnormal close (code 1006) of the transport of a single `connect`
for "tasks": one reconnect is scheduled, with the base delay. -/
theorem close_event_handler_witness :
    ((connect (init none) "tasks" "7" ⟨0, none, some 1⟩ true).1.sockets[0]? =
        some ⟨"ws://localhost:8000/ws/tasks/7/", .CONNECTING, "tasks", "7", ⟨0, none, some 1⟩⟩ ∧
      ReadyState.CONNECTING ≠ ReadyState.CLOSED ∧ 1006 ≠ 1000) ∧
    (closeEvent (connect (init none) "tasks" "7" ⟨0, none, some 1⟩ true).1 0 1006).timers =
      [⟨3000, "tasks", "7", ⟨0, none, some 1⟩, true⟩] :=
  ⟨⟨by decide, by decide, by decide⟩,
   ((close_event_handler (connect (init none) "tasks" "7" ⟨0, none, some 1⟩ true).1 0
      ⟨"ws://localhost:8000/ws/tasks/7/", .CONNECTING, "tasks", "7", ⟨0, none, some 1⟩⟩ 1006
      (by decide) (by decide)).2.2.2 (by decide) (by decide)).1⟩

/-- C4 (fails on the code). The claim bounds by 5 the reconnects scheduled in a run
of abnormal closes of one channel without an open event or an explicit
connect/disconnect. After two `connect` calls for "tasks" no timer exists. The run
that follows has only close events with code 1006 and timer firings, all on that
channel, and schedules 6 reconnects; the counter is back at 2 at its end, because the
`connect` of a firing timer finds the transport of the other timer tracked and its
`disconnect` deletes the counter. -/
theorem reconnects_exceed_cap :
    (run (init none)
      [Event.connect "tasks" "7" ⟨0, none, none⟩ true,
       Event.connect "tasks" "7" ⟨0, none, none⟩ true]).timers = [] ∧
    ((run
      (run (init none)
        [Event.connect "tasks" "7" ⟨0, none, none⟩ true,
         Event.connect "tasks" "7" ⟨0, none, none⟩ true])
      [Event.wsClose 0 1006, Event.wsClose 1 1006,
       Event.timerFires 0 true, Event.timerFires 1 true,
       Event.wsClose 2 1006, Event.wsClose 3 1006,
       Event.timerFires 2 true, Event.timerFires 3 true,
       Event.wsClose 4 1006, Event.wsClose 5 1006]).timers.map Timer.delay)
      = [3000, 6000, 3000, 6000, 3000, 6000] ∧
    JsMap.get
      (run
        (run (init none)
          [Event.connect "tasks" "7" ⟨0, none, none⟩ true,
           Event.connect "tasks" "7" ⟨0, none, none⟩ true])
        [Event.wsClose 0 1006, Event.wsClose 1 1006,
         Event.timerFires 0 true, Event.timerFires 1 true,
         Event.wsClose 2 1006, Event.wsClose 3 1006,
         Event.timerFires 2 true, Event.timerFires 3 true,
         Event.wsClose 4 1006, Event.wsClose 5 1006]).reconnectAttempts "tasks" = some 2 := by
  decide

/-- C5. When `attemptReconnect` is entered with the channel's counter at `k`
(absent counts as 0) and `k` is in 0..4, it schedules one timer with delay
`3000 * 2 ^ k`. The five delays are 3000, 6000, 12000, 24000 and 48000 ms, and they
are the delays scheduled, in this order, when a transport and each of its four
replacements closes abnormally without having opened. -/
theorem reconnect_delay (s : State) (endpoint userId : String) (cbs : Callbacks) (k : Nat)
    (hk : (JsMap.get s.reconnectAttempts endpoint).getD 0 = k) (hlt : k < 5) :
    (attemptReconnect s endpoint userId cbs).timers =
      s.timers ++ [{ delay := 3000 * 2 ^ k, endpoint := endpoint, userId := userId,
                     cbs := cbs, pending := true }] ∧
    reconnectInterval = 3000 ∧
    (List.range 5).map (fun i => reconnectInterval * 2 ^ i) = [3000, 6000, 12000, 24000, 48000] ∧
    (run (init none)
      [Event.connect "tasks" "7" ⟨0, none, none⟩ true,
       Event.wsClose 0 1006, Event.timerFires 0 true,
       Event.wsClose 1 1006, Event.timerFires 1 true,
       Event.wsClose 2 1006, Event.timerFires 2 true,
       Event.wsClose 3 1006, Event.timerFires 3 true,
       Event.wsClose 4 1006]).timers.map Timer.delay = [3000, 6000, 12000, 24000, 48000] := by
  refine ⟨?_, rfl, by decide, by decide⟩
  rw [attemptReconnect_below_max _ _ _ _ (by rw [hk]; exact hlt), hk]
  rfl

/-- C5, at a counter of 3: the delay is 24000 ms. -/
theorem reconnect_delay_witness :
    ((JsMap.get [("tasks", 3)] "tasks").getD 0 = 3 ∧ 3 < 5) ∧
    (attemptReconnect ⟨none, [], [("tasks", 3)], [], [], []⟩ "tasks" "7" ⟨0, none, none⟩).timers =
      [{ delay := 24000, endpoint := "tasks", userId := "7", cbs := ⟨0, none, none⟩,
         pending := true }] :=
  ⟨⟨by decide, by decide⟩,
   (reconnect_delay ⟨none, [], [("tasks", 3)], [], [], []⟩ "tasks" "7" ⟨0, none, none⟩ 3
      (by decide) (by decide)).1⟩

/-- C6 (fails on the code). A transport for "tasks" closes abnormally, so a
reconnect is pending; `disconnect("tasks")` is called; the timer fires. After the
`disconnect` the timer is still pending, and after it fired a transport (handle 1)
exists, is live and is tracked under the name: the channel that was disconnected is
connected again. -/
theorem disconnect_leaves_reconnect_pending :
    (run (init none)
      [Event.connect "tasks" "7" ⟨0, none, none⟩ true, Event.wsClose 0 1006,
       Event.disconnect "tasks"]).timers = [⟨3000, "tasks", "7", ⟨0, none, none⟩, true⟩] ∧
    JsMap.get
      (run (init none)
        [Event.connect "tasks" "7" ⟨0, none, none⟩ true, Event.wsClose 0 1006,
         Event.disconnect "tasks", Event.timerFires 0 true]).connections "tasks" = some 1 ∧
    liveFor
      (run (init none)
        [Event.connect "tasks" "7" ⟨0, none, none⟩ true, Event.wsClose 0 1006,
         Event.disconnect "tasks", Event.timerFires 0 true]) "tasks" = [1] := by
  decide

/-- What `disconnect(name)` does to the timers, in every state: it leaves every
registered timer as it was, and it changes nothing at all when the name has no
tracked transport (the case right after an abnormal close). When a pending timer of
the name then fires and its `connect` constructs a transport, that transport is live
and the active set maps the name to it. -/
theorem disconnect_keeps_timers (s : State) (name : String) :
    (disconnect s name).timers = s.timers ∧
    (JsMap.get s.connections name = none → disconnect s name = s) ∧
    (∀ id t, s.timers[id]? = some t → t.pending = true → t.endpoint = name →
      JsMap.get (fireTimer (disconnect s name) id true).connections name
        = some s.sockets.length ∧
      liveAt (fireTimer (disconnect s name) id true) name s.sockets.length = true) := by
  refine ⟨timers_disconnect s name, disconnect_untracked s name, ?_⟩
  intro id t ht hp he
  have hfire : fireTimer (disconnect s name) id true =
      (connect { disconnect s name with
                 timers := (disconnect s name).timers.set id { t with pending := false } }
        name t.userId t.cbs true).1 := by
    unfold fireTimer
    rw [timers_disconnect, ht]
    simp only [hp, if_true, he]
  rw [hfire]
  have := connect_true_tracks
    { disconnect s name with
      timers := (disconnect s name).timers.set id { t with pending := false } }
    name t.userId t.cbs
  simp only [length_sockets_disconnect] at this
  exact ⟨this.2.1, this.2.2⟩

/-- The same at the state reached by one `connect` for "tasks" and the abnormal
close of its transport. -/
theorem disconnect_keeps_timers_witness :
    ((closeEvent (connect (init none) "tasks" "7" ⟨0, none, none⟩ true).1 0 1006).timers[0]? =
        some ⟨3000, "tasks", "7", ⟨0, none, none⟩, true⟩ ∧
      JsMap.get (closeEvent (connect (init none) "tasks" "7" ⟨0, none, none⟩ true).1 0
        1006).connections "tasks" = none) ∧
    disconnect (closeEvent (connect (init none) "tasks" "7" ⟨0, none, none⟩ true).1 0 1006)
        "tasks" =
      closeEvent (connect (init none) "tasks" "7" ⟨0, none, none⟩ true).1 0 1006 ∧
    JsMap.get
      (fireTimer
        (disconnect (closeEvent (connect (init none) "tasks" "7" ⟨0, none, none⟩ true).1 0 1006)
          "tasks") 0 true).connections "tasks" = some 1 :=
  ⟨⟨by decide, by decide⟩,
   (disconnect_keeps_timers
      (closeEvent (connect (init none) "tasks" "7" ⟨0, none, none⟩ true).1 0 1006)
      "tasks").2.1 (by decide),
   ((disconnect_keeps_timers
      (closeEvent (connect (init none) "tasks" "7" ⟨0, none, none⟩ true).1 0 1006)
      "tasks").2.2 0 ⟨3000, "tasks", "7", ⟨0, none, none⟩, true⟩
      (by decide) (by decide) (by decide)).1⟩

/-- C7. For a name with a tracked transport `ws`, `disconnect(name)` makes exactly
one call, `ws.close(1000, "Client disconnect")`, after which `ws` is not live, and
removes the name from the active set and from the counter map; the close event of
`ws` with code 1000, in whatever state it arrives, registers no timer and changes no
counter. For a name with no tracked transport `disconnect(name)` changes nothing. -/
theorem disconnect_spec (s : State) (name : String) :
    (∀ ws, JsMap.get s.connections name = some ws →
      (disconnect s name).trace = s.trace ++ [Effect.wsClose ws 1000 "Client disconnect"] ∧
      (∀ sk, (disconnect s name).sockets[ws]? = some sk → sk.live = false) ∧
      JsMap.has (disconnect s name).connections name = false ∧
      JsMap.has (disconnect s name).reconnectAttempts name = false ∧
      (disconnect s name).timers = s.timers ∧
      ∀ t : State, (closeEvent t ws 1000).timers = t.timers ∧
        (closeEvent t ws 1000).reconnectAttempts = t.reconnectAttempts) ∧
    (JsMap.get s.connections name = none → disconnect s name = s) := by
  refine ⟨?_, disconnect_untracked s name⟩
  intro ws h
  obtain ⟨h₁, h₂, h₃, h₄⟩ := disconnect_tracked s name ws h
  exact ⟨h₁, h₂, h₃, h₄, timers_disconnect s name, fun t => closeEvent_normal t ws⟩

/-- C7, at a manager tracking one open transport for "tasks" with counter 0 (the
tracked case), and at a new manager (the untracked case). -/
theorem disconnect_spec_witness :
    (JsMap.get (openEvent (connect (init none) "tasks" "7" ⟨0, none, none⟩ true).1 0).connections
        "tasks" = some 0 ∧
      JsMap.get (init none).connections "tasks" = none) ∧
    JsMap.has
      (disconnect (openEvent (connect (init none) "tasks" "7" ⟨0, none, none⟩ true).1 0)
        "tasks").reconnectAttempts "tasks" = false ∧
    disconnect (init none) "tasks" = init none :=
  ⟨⟨by decide, by decide⟩,
   ((disconnect_spec (openEvent (connect (init none) "tasks" "7" ⟨0, none, none⟩ true).1 0)
      "tasks").1 0 (by decide)).2.2.2.1,
   (disconnect_spec (init none) "tasks").2 (by decide)⟩

/-- C8. `send(name, message)` returns `true` exactly when the active set holds a
transport for the name whose ready state is `OPEN`; it then makes exactly one call,
`ws.send(JSON.stringify(message))` on that transport, and changes nothing else.
Otherwise it returns `false` and the state, trace included, is unchanged. An open event
makes no call on a transport, so nothing is transmitted later on account of a refused
send. -/
theorem send_spec {μ : Type} (stringify : μ → String) (s : State) (name : String)
    (message : μ) :
    ((send stringify s name message).1 = true ↔
      ∃ ws sk, JsMap.get s.connections name = some ws ∧ s.sockets[ws]? = some sk ∧
        sk.readyState = .OPEN) ∧
    (send stringify s name message).1 = isConnected s name ∧
    (∀ ws, (send stringify s name message).1 = true → JsMap.get s.connections name = some ws →
      (send stringify s name message).2 =
        { s with trace := s.trace ++ [Effect.wsSend ws (stringify message)] }) ∧
    ((send stringify s name message).1 = false → (send stringify s name message).2 = s) ∧
    (∀ (t : State) (ws : Nat), (openEvent t ws).trace = t.trace) := by
  refine ⟨?_, ?_, ?_, ?_, trace_openEvent⟩
  · cases hg : JsMap.get s.connections name with
    | none => simp [send_untracked stringify s name message hg]
    | some ws =>
      cases hs : s.sockets[ws]? with
      | none => simp [send_tracked stringify s name message ws hg, hs]
      | some sk =>
        by_cases hst : sk.readyState = .OPEN <;>
          simp [send_tracked stringify s name message ws hg, hs, hst]
  · cases hg : JsMap.get s.connections name with
    | none => simp [send_untracked stringify s name message hg, isConnected, hg]
    | some ws =>
      cases hs : s.sockets[ws]? with
      | none => simp [send_tracked stringify s name message ws hg, isConnected, hg, hs]
      | some sk =>
        by_cases hst : sk.readyState = .OPEN <;>
          simp [send_tracked stringify s name message ws hg, isConnected, hg, hs, hst]
  · intro ws htrue hg
    rw [send_tracked stringify s name message ws hg] at htrue ⊢
    cases hs : s.sockets[ws]? with
    | none => rw [hs] at htrue; simp at htrue
    | some sk =>
      rw [hs] at htrue
      by_cases hst : sk.readyState = .OPEN
      · simp [hst]
      · simp [hst] at htrue
  · intro hfalse
    cases hg : JsMap.get s.connections name with
    | none => rw [send_untracked stringify s name message hg]
    | some ws =>
      rw [send_tracked stringify s name message ws hg] at hfalse ⊢
      cases hs : s.sockets[ws]? with
      | none => rfl
      | some sk =>
        rw [hs] at hfalse
        by_cases hst : sk.readyState = .OPEN
        · simp [hst] at hfalse
        · simp [hst]

/-- C8, on the channel "notifications": once its transport is open a send transmits
one frame; while it is still connecting a send is refused and changes nothing. -/
theorem send_spec_witness :
    ((send (fun n : Nat => toString n)
        (openEvent (connect (init none) "notifications" "7" ⟨0, none, none⟩ true).1 0)
        "notifications" 5).1 = true ∧
      JsMap.get (openEvent (connect (init none) "notifications" "7" ⟨0, none, none⟩
        true).1 0).connections "notifications" = some 0 ∧
      (send (fun n : Nat => toString n)
        (connect (init none) "notifications" "7" ⟨0, none, none⟩ true).1
        "notifications" 5).1 = false) ∧
    (send (fun n : Nat => toString n)
        (openEvent (connect (init none) "notifications" "7" ⟨0, none, none⟩ true).1 0)
        "notifications" 5).2.trace = [Effect.wsSend 0 (toString 5)] ∧
    (send (fun n : Nat => toString n)
        (connect (init none) "notifications" "7" ⟨0, none, none⟩ true).1
        "notifications" 5).2 = (connect (init none) "notifications" "7" ⟨0, none, none⟩ true).1 :=
  ⟨⟨by decide, by decide, by decide⟩,
   by
     rw [(send_spec (fun n : Nat => toString n)
       (openEvent (connect (init none) "notifications" "7" ⟨0, none, none⟩ true).1 0)
       "notifications" 5).2.2.1 0 (by decide) (by decide)]
     rfl,
   (send_spec (fun n : Nat => toString n)
       (connect (init none) "notifications" "7" ⟨0, none, none⟩ true).1
       "notifications" 5).2.2.2.1 (by decide)⟩

/-- C9. An open event on a connecting transport sets the counter of its channel
to 0, whatever it was. If that transport then closes with a code other than 1000, the
handler registers exactly one timer, with delay 3000 ms, and the counter becomes 1.
More generally, after the open event and any further events none of which is a close
with a code other than 1000, the first such close of a transport of the channel
registers exactly one timer, with delay 3000 ms. -/
theorem open_resets_counter (s : State) (ws : Nat) (sk : Socket)
    (hsk : s.sockets[ws]? = some sk) (hst : sk.readyState = .CONNECTING) :
    JsMap.get (openEvent s ws).reconnectAttempts sk.endpoint = some 0 ∧
    (openEvent s ws).timers = s.timers ∧
    (∀ code, code ≠ 1000 →
      (closeEvent (openEvent s ws) ws code).timers =
        s.timers ++ [{ delay := 3000, endpoint := sk.endpoint, userId := sk.userId,
                       cbs := sk.cbs, pending := true }] ∧
      JsMap.get (closeEvent (openEvent s ws) ws code).reconnectAttempts sk.endpoint = some 1) ∧
    (∀ es : List Event, (∀ e ∈ es, ∀ w c, e = Event.wsClose w c → c = 1000) →
      ∀ ws₁ sk₁ code, (run (openEvent s ws) es).sockets[ws₁]? = some sk₁ →
        sk₁.readyState ≠ .CLOSED → sk₁.endpoint = sk.endpoint → code ≠ 1000 →
        (closeEvent (run (openEvent s ws) es) ws₁ code).timers =
          (run (openEvent s ws) es).timers ++
            [{ delay := 3000, endpoint := sk₁.endpoint, userId := sk₁.userId,
               cbs := sk₁.cbs, pending := true }]) := by
  have hlt : ws < s.sockets.length := by
    by_contra hn
    rw [List.getElem?_eq_none (Nat.le_of_not_lt hn)] at hsk
    cases hsk
  have hzero : JsMap.get (openEvent s ws).reconnectAttempts sk.endpoint = some 0 := by
    rw [openEvent_eq s ws sk hsk hst]
    exact JsMap.get_set_self _ _ _
  have htim : (openEvent s ws).timers = s.timers := by
    rw [openEvent_eq s ws sk hsk hst]
    rfl
  have hget : (JsMap.get (openEvent s ws).reconnectAttempts sk.endpoint).getD 0 = 0 := by
    rw [hzero]; rfl
  refine ⟨hzero, htim, ?_, ?_⟩
  · intro code hc
    have hsk₁ : (openEvent s ws).sockets[ws]? = some { sk with readyState := .OPEN } := by
      rw [openEvent_eq s ws sk hsk hst]
      simp [onopen, List.getElem?_set_self hlt]
    obtain ⟨_, _, _, h4⟩ := onclose_effect (openEvent s ws) ws
      { sk with readyState := .OPEN } code hsk₁ (by simp)
    have h5 := (h4 hc (by simp only [hget]; decide)).1
    simp only [hget, pow_zero, mul_one, htim] at h5
    refine ⟨h5, ?_⟩
    rw [closeEvent_eq (openEvent s ws) ws { sk with readyState := .OPEN } code hsk₁ (by simp)]
    unfold onclose
    simp only [hc, ne_eq, not_false_eq_true, if_true]
    cases hcb : sk.cbs.onClose <;>
      (simp only []
       rw [attemptReconnect_below_max _ _ _ _ (by simp only [hget]; decide)]
       simp only [hget]
       exact JsMap.get_set_self _ _ _)
  · intro es hes ws₁ sk₁ code hsk₁ hst₁ hend hc
    have hget₁ := counter_zero_run es (openEvent s ws) sk.endpoint hget hes
    obtain ⟨_, _, _, h4⟩ := onclose_effect (run (openEvent s ws) es) ws₁ sk₁ code hsk₁ hst₁
    have h5 := (h4 hc (by rw [hend, hget₁]; decide)).1
    rw [hend, hget₁] at h5
    rw [h5, hend]
    rfl

/-- C9, after four failed reconnects of "tasks" (counter 4): the fifth transport
opens, and its abnormal close, at once or after an error event, schedules a reconnect
3000 ms later. -/
theorem open_resets_counter_witness :
    ((⟨none, [("tasks", 0)], [("tasks", 4)], [⟨"u", .CONNECTING, "tasks", "7", ⟨0, none, none⟩⟩],
        [], []⟩ : State).sockets[0]? = some ⟨"u", .CONNECTING, "tasks", "7", ⟨0, none, none⟩⟩ ∧
      ReadyState.CONNECTING = ReadyState.CONNECTING ∧ 1006 ≠ 1000 ∧
      (∀ e ∈ [Event.wsError 0], ∀ w c, e = Event.wsClose w c → c = 1000) ∧
      (run (openEvent ⟨none, [("tasks", 0)], [("tasks", 4)],
        [⟨"u", .CONNECTING, "tasks", "7", ⟨0, none, none⟩⟩], [], []⟩ 0)
        [Event.wsError 0]).sockets[0]? = some ⟨"u", .OPEN, "tasks", "7", ⟨0, none, none⟩⟩ ∧
      ReadyState.OPEN ≠ ReadyState.CLOSED) ∧
    (closeEvent (openEvent ⟨none, [("tasks", 0)], [("tasks", 4)],
        [⟨"u", .CONNECTING, "tasks", "7", ⟨0, none, none⟩⟩], [], []⟩ 0) 0 1006).timers =
      [{ delay := 3000, endpoint := "tasks", userId := "7", cbs := ⟨0, none, none⟩,
         pending := true }] ∧
    (closeEvent (run (openEvent ⟨none, [("tasks", 0)], [("tasks", 4)],
        [⟨"u", .CONNECTING, "tasks", "7", ⟨0, none, none⟩⟩], [], []⟩ 0) [Event.wsError 0])
        0 1006).timers =
      [{ delay := 3000, endpoint := "tasks", userId := "7", cbs := ⟨0, none, none⟩,
         pending := true }] :=
  ⟨⟨by decide, by decide, by decide,
    (by intro e he w c hec; rw [List.mem_singleton] at he; rw [he] at hec; cases hec),
    by decide, by decide⟩,
   ((open_resets_counter ⟨none, [("tasks", 0)], [("tasks", 4)],
        [⟨"u", .CONNECTING, "tasks", "7", ⟨0, none, none⟩⟩], [], []⟩ 0
      ⟨"u", .CONNECTING, "tasks", "7", ⟨0, none, none⟩⟩ (by decide) (by decide)).2.2.1 1006
      (by decide)).1,
   (open_resets_counter ⟨none, [("tasks", 0)], [("tasks", 4)],
        [⟨"u", .CONNECTING, "tasks", "7", ⟨0, none, none⟩⟩], [], []⟩ 0
      ⟨"u", .CONNECTING, "tasks", "7", ⟨0, none, none⟩⟩ (by decide) (by decide)).2.2.2
      [Event.wsError 0]
      (by intro e he w c hec; rw [List.mem_singleton] at he; rw [he] at hec; cases hec)
      0 ⟨"u", .OPEN, "tasks", "7", ⟨0, none, none⟩⟩ 1006 (by decide) (by decide) (by decide)
      (by decide)⟩

/-- C10. After `disconnectAll()` the active set is empty; every transport it held
(the value stored under some name) has received `close(1000, "Client disconnect")`
and is not live; and no name that was tracked has a counter. -/
theorem disconnectAll_spec (s : State) :
    (disconnectAll s).connections = [] ∧
    (∀ name ws, JsMap.get s.connections name = some ws →
      Effect.wsClose ws 1000 "Client disconnect" ∈ (disconnectAll s).trace ∧
      (∀ sk, (disconnectAll s).sockets[ws]? = some sk → sk.live = false) ∧
      JsMap.has (disconnectAll s).reconnectAttempts name = false) ∧
    (disconnectAll s).timers = s.timers := by
  refine ⟨?_, ?_, ?_⟩
  · rw [List.eq_nil_iff_forall_not_mem]
    intro p hp
    obtain ⟨h₁, h₂⟩ := connections_foldl_disconnect (JsMap.keys s.connections) s p hp
    exact h₂ (List.mem_map.2 ⟨p, h₁, rfl⟩)
  · intro name ws hg
    obtain ⟨h₁, h₂, h₃⟩ := foldl_disconnect_closes (JsMap.keys s.connections) s name ws
      (mem_keys_of_get _ _ _ hg) hg
    exact ⟨h₁, h₂, (JsMap.has_eq_false_iff _ _).2 h₃⟩
  · unfold disconnectAll
    generalize JsMap.keys s.connections = ks
    induction ks generalizing s with
    | nil => rfl
    | cons k rest ih => rw [List.foldl_cons, ih, timers_disconnect]

/-- C10, at a manager tracking "notifications" and "tasks": both transports are
closed by `disconnectAll`. -/
theorem disconnectAll_spec_witness :
    JsMap.get
      (run (init none)
        [Event.connect "notifications" "7" ⟨0, none, none⟩ true,
         Event.connect "tasks" "7" ⟨0, none, none⟩ true, Event.wsOpen 1]).connections
      "tasks" = some 1 ∧
    Effect.wsClose 1 1000 "Client disconnect" ∈
      (disconnectAll
        (run (init none)
          [Event.connect "notifications" "7" ⟨0, none, none⟩ true,
           Event.connect "tasks" "7" ⟨0, none, none⟩ true, Event.wsOpen 1])).trace :=
  ⟨by decide,
   ((disconnectAll_spec
      (run (init none)
        [Event.connect "notifications" "7" ⟨0, none, none⟩ true,
         Event.connect "tasks" "7" ⟨0, none, none⟩ true, Event.wsOpen 1])).2.1
      "tasks" 1 (by decide)).1⟩

theorem messageEvent_open {J : Type} (parse : String → Option J) (s : State) (ws : Nat)
    (sk : Socket) (frame : String) (hsk : s.sockets[ws]? = some sk)
    (hst : sk.readyState = .OPEN) :
    messageEvent parse s ws frame = onmessage parse s sk.cbs frame := by
  unfold messageEvent
  rw [hsk]
  simp only [hst, if_true]

/-- C11. A frame reaches the message handler of an open transport made by
`connect`. If its text is not valid JSON (`JSON.parse` throws), `onMessage` is not
called and the manager state, active set and counters included, is unchanged; the
handler returns normally. If it is valid JSON, `onMessage` is called exactly once, with
the parsed value, and the manager state is unchanged as well. -/
theorem message_handler {J : Type} (parse : String → Option J) (s : State) (ws : Nat)
    (sk : Socket) (frame : String) (hsk : s.sockets[ws]? = some sk)
    (hst : sk.readyState = .OPEN) :
    (parse frame = none → messageEvent parse s ws frame = (s, [])) ∧
    (∀ v, parse frame = some v →
      messageEvent parse s ws frame = (s, [{ cb := sk.cbs.onMessage, data := v }])) ∧
    (messageEvent parse s ws frame).1 = s ∧
    JsMap.get (messageEvent parse s ws frame).1.connections sk.endpoint
      = JsMap.get s.connections sk.endpoint := by
  rw [messageEvent_open parse s ws sk frame hsk hst]
  unfold onmessage
  cases hp : parse frame with
  | none => exact ⟨fun _ => rfl, fun v hv => (by cases hv), rfl, rfl⟩
  | some d => exact ⟨fun h => (by cases h), fun v hv => (by cases hv; rfl), rfl, rfl⟩

/-- C11, on the open transport of "notifications", with a parser that accepts only
the text "7": the frame "oops" calls nothing, the frame "7" calls `onMessage(7)`. -/
theorem message_handler_witness :
    ((openEvent (connect (init none) "notifications" "7" ⟨3, none, none⟩ true).1 0).sockets[0]?
        = some ⟨"ws://localhost:8000/ws/notifications/7/", .OPEN, "notifications", "7",
            ⟨3, none, none⟩⟩ ∧
      (fun f : String => if f = "7" then some 7 else none) "oops" = none ∧
      (fun f : String => if f = "7" then some 7 else none) "7" = some 7) ∧
    messageEvent (fun f : String => if f = "7" then some 7 else none)
        (openEvent (connect (init none) "notifications" "7" ⟨3, none, none⟩ true).1 0) 0 "oops"
      = (openEvent (connect (init none) "notifications" "7" ⟨3, none, none⟩ true).1 0, []) ∧
    messageEvent (fun f : String => if f = "7" then some 7 else none)
        (openEvent (connect (init none) "notifications" "7" ⟨3, none, none⟩ true).1 0) 0 "7"
      = (openEvent (connect (init none) "notifications" "7" ⟨3, none, none⟩ true).1 0,
          [{ cb := 3, data := 7 }]) :=
  ⟨⟨by decide, by decide, by decide⟩,
   (message_handler (fun f : String => if f = "7" then some 7 else none)
      (openEvent (connect (init none) "notifications" "7" ⟨3, none, none⟩ true).1 0) 0
      ⟨"ws://localhost:8000/ws/notifications/7/", .OPEN, "notifications", "7", ⟨3, none, none⟩⟩
      "oops" (by decide) (by decide)).1 (by decide),
   (message_handler (fun f : String => if f = "7" then some 7 else none)
      (openEvent (connect (init none) "notifications" "7" ⟨3, none, none⟩ true).1 0) 0
      ⟨"ws://localhost:8000/ws/notifications/7/", .OPEN, "notifications", "7", ⟨3, none, none⟩⟩
      "7" (by decide) (by decide)).2.1 7 (by decide)⟩

/-! ## Steps of one channel leave the others alone -/

theorem counter_disconnect_other (t : State) {k name : String} (hk : name ≠ k) :
    JsMap.get (disconnect t k).reconnectAttempts name = JsMap.get t.reconnectAttempts name := by
  unfold disconnect
  cases JsMap.get t.connections k with
  | none => rfl
  | some ws => exact JsMap.get_delete_ne _ hk

theorem connect_other (t : State) (k userId : String) (cbs : Callbacks) (created : Bool)
    {name : String} (hk : name ≠ k) :
    JsMap.get (connect t k userId cbs created).1.connections name
      = JsMap.get t.connections name ∧
    JsMap.get (connect t k userId cbs created).1.reconnectAttempts name
      = JsMap.get t.reconnectAttempts name := by
  have h₁ : JsMap.get
      (if JsMap.has t.connections k = true then disconnect t k else t).connections name
      = JsMap.get t.connections name := by
    by_cases hh : JsMap.has t.connections k = true
    · rw [if_pos hh]; exact connections_disconnect_other t hk
    · rw [if_neg hh]
  have h₂ : JsMap.get
      (if JsMap.has t.connections k = true then disconnect t k else t).reconnectAttempts name
      = JsMap.get t.reconnectAttempts name := by
    by_cases hh : JsMap.has t.connections k = true
    · rw [if_pos hh]; exact counter_disconnect_other t hk
    · rw [if_neg hh]
  constructor
  · unfold connect
    cases created
    · cases cbs.onError <;> exact h₁
    · simp only [if_true]
      rw [JsMap.get_set_ne _ _ hk]
      exact h₁
  · rw [reconnectAttempts_connect]
    exact h₂

theorem attemptReconnect_other (t : State) (k userId : String) (cbs : Callbacks)
    {name : String} (hk : name ≠ k) :
    (attemptReconnect t k userId cbs).connections = t.connections ∧
    JsMap.get (attemptReconnect t k userId cbs).reconnectAttempts name
      = JsMap.get t.reconnectAttempts name := by
  by_cases hlt : (JsMap.get t.reconnectAttempts k).getD 0 < maxReconnectAttempts
  · rw [attemptReconnect_below_max t k userId cbs hlt]
    exact ⟨rfl, JsMap.get_set_ne _ _ hk⟩
  · rw [attemptReconnect_at_max t k userId cbs hlt]
    exact ⟨rfl, rfl⟩

theorem onclose_other (t : State) (k userId : String) (cbs : Callbacks) (code : Nat)
    {name : String} (hk : name ≠ k) :
    JsMap.get (onclose t k userId cbs code).connections name = JsMap.get t.connections name ∧
    JsMap.get (onclose t k userId cbs code).reconnectAttempts name
      = JsMap.get t.reconnectAttempts name := by
  unfold onclose
  by_cases hc : code = 1000
  · simp only [hc, ne_eq, not_true_eq_false, if_false]
    cases cbs.onClose <;> exact ⟨JsMap.get_delete_ne _ hk, rfl⟩
  · simp only [hc, ne_eq, not_false_eq_true, if_true]
    cases cbs.onClose
    · obtain ⟨h₁, h₂⟩ := attemptReconnect_other
        { t with connections := JsMap.delete t.connections k } k userId cbs hk
      rw [h₁, h₂]
      exact ⟨JsMap.get_delete_ne _ hk, rfl⟩
    · rename_i f
      obtain ⟨h₁, h₂⟩ := attemptReconnect_other
        { t with connections := JsMap.delete t.connections k,
                 trace := t.trace ++ [Effect.callOnClose f code] } k userId cbs hk
      rw [h₁, h₂]
      exact ⟨JsMap.get_delete_ne _ hk, rfl⟩

theorem openEvent_other (s : State) (ws : Nat) (sk : Socket) (hsk : s.sockets[ws]? = some sk)
    {name : String} (hk : name ≠ sk.endpoint) :
    JsMap.get (openEvent s ws).connections name = JsMap.get s.connections name ∧
    JsMap.get (openEvent s ws).reconnectAttempts name
      = JsMap.get s.reconnectAttempts name := by
  unfold openEvent
  rw [hsk]
  simp only []
  by_cases hst : sk.readyState = .CONNECTING
  · rw [if_pos hst]
    exact ⟨rfl, JsMap.get_set_ne _ _ hk⟩
  · rw [if_neg hst]
    exact ⟨rfl, rfl⟩

theorem closeEvent_other (s : State) (ws code : Nat) (sk : Socket)
    (hsk : s.sockets[ws]? = some sk) {name : String} (hk : name ≠ sk.endpoint) :
    JsMap.get (closeEvent s ws code).connections name = JsMap.get s.connections name ∧
    JsMap.get (closeEvent s ws code).reconnectAttempts name
      = JsMap.get s.reconnectAttempts name := by
  unfold closeEvent
  rw [hsk]
  simp only []
  by_cases hst : sk.readyState = .CLOSED
  · rw [if_neg (not_not.2 hst)]
    exact ⟨rfl, rfl⟩
  · rw [if_pos hst]
    exact onclose_other _ sk.endpoint sk.userId sk.cbs code hk

theorem errorEvent_maps (s : State) (ws : Nat) :
    (errorEvent s ws).connections = s.connections ∧
    (errorEvent s ws).reconnectAttempts = s.reconnectAttempts := by
  refine ⟨?_, reconnectAttempts_errorEvent s ws⟩
  unfold errorEvent onerror
  cases hs : s.sockets[ws]? with
  | none => rfl
  | some sk =>
    simp only []
    by_cases hst : sk.readyState = .CLOSED
    · rw [if_neg (not_not.2 hst)]
    · rw [if_pos hst]
      cases sk.cbs.onError <;> rfl

theorem fireTimer_other (s : State) (id : Nat) (created : Bool) (t : Timer)
    (ht : s.timers[id]? = some t) {name : String} (hk : name ≠ t.endpoint) :
    JsMap.get (fireTimer s id created).connections name = JsMap.get s.connections name ∧
    JsMap.get (fireTimer s id created).reconnectAttempts name
      = JsMap.get s.reconnectAttempts name := by
  unfold fireTimer
  rw [ht]
  simp only []
  by_cases hp : t.pending = true
  · rw [if_pos hp]
    exact connect_other
      { s with timers := s.timers.set id { t with pending := false } }
      t.endpoint t.userId t.cbs created hk
  · rw [if_neg hp]
    exact ⟨rfl, rfl⟩

theorem send_state {μ : Type} (stringify : μ → String) (s : State) (name : String)
    (message : μ) :
    (send stringify s name message).2.connections = s.connections ∧
    (send stringify s name message).2.reconnectAttempts = s.reconnectAttempts := by
  cases hg : JsMap.get s.connections name with
  | none => rw [send_untracked stringify s name message hg]; exact ⟨rfl, rfl⟩
  | some ws =>
    rw [send_tracked stringify s name message ws hg]
    cases hs : s.sockets[ws]? with
    | none => exact ⟨rfl, rfl⟩
    | some sk =>
      by_cases hst : sk.readyState = .OPEN
      · simp only []; rw [if_pos hst]; exact ⟨rfl, rfl⟩
      · simp only []; rw [if_neg hst]; exact ⟨rfl, rfl⟩

/-- C12. For two distinct channel names `a` and `b`, every step that concerns `a`
(`connect`, `send`, `disconnect`, an open, error or close event of a transport of `a`,
the firing of a reconnect timer of `a`) leaves the entry of `b` in the active set and
the counter of `b` as they were. -/
theorem other_channel_untouched (s : State) (a b : String) (hab : b ≠ a) :
    (∀ userId cbs created,
      JsMap.get (connect s a userId cbs created).1.connections b = JsMap.get s.connections b ∧
      JsMap.get (connect s a userId cbs created).1.reconnectAttempts b
        = JsMap.get s.reconnectAttempts b) ∧
    (∀ (μ : Type) (stringify : μ → String) (message : μ),
      JsMap.get (send stringify s a message).2.connections b = JsMap.get s.connections b ∧
      JsMap.get (send stringify s a message).2.reconnectAttempts b
        = JsMap.get s.reconnectAttempts b) ∧
    (JsMap.get (disconnect s a).connections b = JsMap.get s.connections b ∧
      JsMap.get (disconnect s a).reconnectAttempts b = JsMap.get s.reconnectAttempts b) ∧
    (∀ ws sk, s.sockets[ws]? = some sk → sk.endpoint = a →
      (JsMap.get (openEvent s ws).connections b = JsMap.get s.connections b ∧
        JsMap.get (openEvent s ws).reconnectAttempts b = JsMap.get s.reconnectAttempts b) ∧
      (JsMap.get (errorEvent s ws).connections b = JsMap.get s.connections b ∧
        JsMap.get (errorEvent s ws).reconnectAttempts b = JsMap.get s.reconnectAttempts b) ∧
      ∀ code,
        JsMap.get (closeEvent s ws code).connections b = JsMap.get s.connections b ∧
        JsMap.get (closeEvent s ws code).reconnectAttempts b
          = JsMap.get s.reconnectAttempts b) ∧
    (∀ id t created, s.timers[id]? = some t → t.endpoint = a →
      JsMap.get (fireTimer s id created).connections b = JsMap.get s.connections b ∧
      JsMap.get (fireTimer s id created).reconnectAttempts b
        = JsMap.get s.reconnectAttempts b) := by
  refine ⟨?_, ?_, ?_, ?_, ?_⟩
  · intro userId cbs created
    exact connect_other s a userId cbs created hab
  · intro μ stringify message
    obtain ⟨h₁, h₂⟩ := send_state stringify s a message
    rw [h₁, h₂]
    exact ⟨rfl, rfl⟩
  · exact ⟨connections_disconnect_other s hab, counter_disconnect_other s hab⟩
  · intro ws sk hsk he
    have hk : b ≠ sk.endpoint := by rw [he]; exact hab
    refine ⟨openEvent_other s ws sk hsk hk, ?_, fun code => closeEvent_other s ws code sk hsk hk⟩
    obtain ⟨h₁, h₂⟩ := errorEvent_maps s ws
    rw [h₁, h₂]
    exact ⟨rfl, rfl⟩
  · intro id t created ht he
    have hk : b ≠ t.endpoint := by rw [he]; exact hab
    exact fireTimer_other s id created t ht hk

/-- C12, with "tasks" tracked and open next to "notifications": the abnormal close
of the transport of "notifications" leaves the entry and the counter of "tasks". -/
theorem other_channel_untouched_witness :
    ("tasks" ≠ "notifications" ∧
      (run (init none)
        [Event.connect "notifications" "7" ⟨0, none, none⟩ true,
         Event.connect "tasks" "7" ⟨1, none, none⟩ true, Event.wsOpen 1]).sockets[0]?
        = some ⟨"ws://localhost:8000/ws/notifications/7/", .CONNECTING, "notifications", "7",
            ⟨0, none, none⟩⟩) ∧
    JsMap.get
      (closeEvent
        (run (init none)
          [Event.connect "notifications" "7" ⟨0, none, none⟩ true,
           Event.connect "tasks" "7" ⟨1, none, none⟩ true, Event.wsOpen 1]) 0 1006).connections
      "tasks" =
      JsMap.get
        (run (init none)
          [Event.connect "notifications" "7" ⟨0, none, none⟩ true,
           Event.connect "tasks" "7" ⟨1, none, none⟩ true, Event.wsOpen 1]).connections
        "tasks" :=
  ⟨⟨by decide, by decide⟩,
   (((other_channel_untouched
      (run (init none)
        [Event.connect "notifications" "7" ⟨0, none, none⟩ true,
         Event.connect "tasks" "7" ⟨1, none, none⟩ true, Event.wsOpen 1])
      "notifications" "tasks" (by decide)).2.2.2.1 0
      ⟨"ws://localhost:8000/ws/notifications/7/", .CONNECTING, "notifications", "7",
        ⟨0, none, none⟩⟩ (by decide) rfl).2.2 1006).1⟩

theorem sockets_systemConnect_true (t : State) (cbs : Callbacks) :
    (systemWebSocket.connect t cbs true).1.sockets =
      (if JsMap.has t.connections "system" = true then disconnect t "system" else t).sockets ++
        [{ url := systemWsUrl t.wsBaseUrl, readyState := .CONNECTING, endpoint := "system",
           userId := "", cbs := cbs }] ∧
    (systemWebSocket.connect t cbs true).2 = some t.sockets.length := by
  have hb : (disconnect t "system").wsBaseUrl = t.wsBaseUrl := by
    unfold disconnect
    cases JsMap.get t.connections "system" <;> rfl
  have hlen := length_sockets_disconnect t "system"
  unfold systemWebSocket.connect
  by_cases hh : JsMap.has t.connections "system" = true <;> simp [hh, hb, hlen]

/-- C13. The transport that `WebSocketService.connect` constructs for channel `c`
and user id `u` has the address `base + "/ws/" + c + "/" + u + "/"`, and the one that
`systemWebSocket.connect` constructs has `base + "/ws/system/"`, where `base` is the
configured base URL, or "ws://localhost:8000" when it is unset (or empty). -/
theorem channel_addresses (s : State) (c u : String) (cbs : Callbacks) :
    (connect s c u cbs true).2 = some s.sockets.length ∧
    ((connect s c u cbs true).1.sockets[s.sockets.length]?).map Socket.url
      = some (baseUrl s.wsBaseUrl ++ "/ws/" ++ c ++ "/" ++ u ++ "/") ∧
    (systemWebSocket.connect s cbs true).2 = some s.sockets.length ∧
    ((systemWebSocket.connect s cbs true).1.sockets[s.sockets.length]?).map Socket.url
      = some (baseUrl s.wsBaseUrl ++ "/ws/system/") ∧
    baseUrl none = "ws://localhost:8000" ∧
    baseUrl (some "") = "ws://localhost:8000" ∧
    (∀ base : String, base ≠ "" → baseUrl (some base) = base) := by
  refine ⟨(connect_true_effect s c u cbs).1, ?_, (sockets_systemConnect_true s cbs).2, ?_,
    rfl, rfl, ?_⟩
  · rw [sockets_connect_true]
    by_cases hh : JsMap.has s.connections c = true
    · rw [if_pos hh, ← length_sockets_disconnect s c]
      simp [wsUrl]
    · rw [if_neg hh]
      simp [wsUrl]
  · rw [(sockets_systemConnect_true s cbs).1]
    by_cases hh : JsMap.has s.connections "system" = true
    · rw [if_pos hh, ← length_sockets_disconnect s "system"]
      simp [systemWsUrl]
    · rw [if_neg hh]
      simp [systemWsUrl]
  · intro base hb
    unfold baseUrl
    simp only [hb, if_false]

/-- C13, with the base URL "wss://office.example": the address of "tasks" for user
42, and the configured base itself. -/
theorem channel_addresses_witness :
    "wss://office.example" ≠ "" ∧
    ((connect (init (some "wss://office.example")) "tasks" "42" ⟨0, none, none⟩
        true).1.sockets[0]?).map Socket.url = some "wss://office.example/ws/tasks/42/" ∧
    baseUrl (some "wss://office.example") = "wss://office.example" :=
  ⟨by decide,
   (channel_addresses (init (some "wss://office.example")) "tasks" "42" ⟨0, none, none⟩).2.1,
   (channel_addresses (init (some "wss://office.example")) "tasks" "42"
      ⟨0, none, none⟩).2.2.2.2.2.2 "wss://office.example" (by decide)⟩

end WebSocketService

namespace JsMap

theorem set_set_same {β : Type} (m : List (String × β)) (k : String) (v : β) :
    set (set m k v) k v = set m k v := by
  induction m with
  | nil => simp [set]
  | cons p rest ih =>
    obtain ⟨k₁, v₁⟩ := p
    rw [set_cons]
    by_cases h : k₁ = k
    · rw [if_pos h, set_cons, if_pos rfl]
    · rw [if_neg h, set_cons, if_neg h, ih]

end JsMap

namespace Api

/-! ## Supporting facts about the HTTP adapter -/

theorem requestInterceptor_fields (storage : Storage) (config : Config) :
    (requestInterceptor storage config).method = config.method ∧
    (requestInterceptor storage config).url = config.url ∧
    (requestInterceptor storage config).data = config.data ∧
    (requestInterceptor storage config)._retry = config._retry := by
  unfold requestInterceptor
  cases truthy storage.access_token <;> exact ⟨rfl, rfl, rfl, rfl⟩

theorem requestInterceptor_token (storage : Storage) (config : Config) (token : String)
    (h : truthy storage.access_token = some token) :
    requestInterceptor storage config =
      { config with
        headers := JsMap.set config.headers "Authorization" ("Bearer " ++ token) } := by
  unfold requestInterceptor
  rw [h]

theorem requestInterceptor_none (storage : Storage) (config : Config)
    (h : truthy storage.access_token = none) :
    requestInterceptor storage config = config := by
  unfold requestInterceptor
  rw [h]

theorem truthy_some (t : String) : truthy (some t) = if t = "" then none else some t := rfl

/-- When the access token just stored is `t` and the header already says
"Bearer t", the request interceptor leaves the configuration as it is. -/
theorem requestInterceptor_after_refresh (storage : Storage) (config : Config) (t : String)
    (h : storage.access_token = some t) :
    requestInterceptor storage
        { config with
          headers := JsMap.set config.headers "Authorization" ("Bearer " ++ t) } =
      { config with
        headers := JsMap.set config.headers "Authorization" ("Bearer " ++ t) } := by
  unfold requestInterceptor
  rw [h, truthy_some]
  by_cases ht : t = ""
  · rw [if_pos ht]
  · rw [if_neg ht]
    simp only [JsMap.set_set_same]

theorem responseInterceptor_pass {β : Type} (api : Browser → Config → Browser × Outcome β)
    (refresh : Option RefreshReply) (b : Browser) (error : AxiosError)
    (h : ¬ (error.response.map ErrorResponse.status = some 401 ∧ error.config._retry = false)) :
    responseInterceptor api refresh b error = (b, Outcome.rejected error) := by
  unfold responseInterceptor
  rw [if_neg h]

theorem responseInterceptor_no_token {β : Type}
    (api : Browser → Config → Browser × Outcome β)
    (refresh : Option RefreshReply) (b : Browser) (error : AxiosError)
    (h401 : error.response.map ErrorResponse.status = some 401)
    (hretry : error.config._retry = false)
    (htoken : truthy b.storage.refresh_token = none) :
    responseInterceptor api refresh b error =
      (b, Outcome.rejected { error with config := { error.config with _retry := true } }) := by
  unfold responseInterceptor
  rw [if_pos ⟨h401, hretry⟩]
  simp only [htoken]

theorem responseInterceptor_token {β : Type}
    (api : Browser → Config → Browser × Outcome β)
    (refresh : Option RefreshReply) (b : Browser) (error : AxiosError) (refreshToken : String)
    (h401 : error.response.map ErrorResponse.status = some 401)
    (hretry : error.config._retry = false)
    (htoken : truthy b.storage.refresh_token = some refreshToken) :
    responseInterceptor api refresh b error =
      (match refresh with
      | none =>
        ({ b with calls := b.calls ++
            [Call.refresh (API_BASE_URL b.apiUrl ++ "/auth/token/refresh/") refreshToken] },
          Outcome.pending)
      | some (RefreshReply.fulfilled access) =>
        api { b with
              calls := b.calls ++
                [Call.refresh (API_BASE_URL b.apiUrl ++ "/auth/token/refresh/") refreshToken]
              storage := { b.storage with access_token := some (access.getD "undefined") } }
          { error.config with
            _retry := true
            headers := JsMap.set error.config.headers "Authorization"
              ("Bearer " ++ access.getD "undefined") }
      | some RefreshReply.malformed =>
        ({ b with
           calls := b.calls ++
             [Call.refresh (API_BASE_URL b.apiUrl ++ "/auth/token/refresh/") refreshToken]
           storage := clearSession b.storage
           redirects := b.redirects ++ ["/login"] },
          Outcome.rejected { error with config := { error.config with _retry := true } })
      | some RefreshReply.rejected =>
        ({ b with
           calls := b.calls ++
             [Call.refresh (API_BASE_URL b.apiUrl ++ "/auth/token/refresh/") refreshToken]
           storage := clearSession b.storage
           redirects := b.redirects ++ ["/login"] },
          Outcome.rejected { error with config := { error.config with _retry := true } })) := by
  unfold responseInterceptor
  rw [if_pos ⟨h401, hretry⟩]
  simp only [htoken]

/-- A call through `api` with a configuration already marked `_retry` sends exactly
one request and nothing else, whatever the answers. -/
theorem api_retried {β : Type} (replies : List (Reply β)) (refreshes : List RefreshReply)
    (b : Browser) (config : Config) (h : config._retry = true) :
    api replies refreshes b config =
      ({ b with calls := b.calls ++ [Call.request (requestInterceptor b.storage config)] },
        settle replies (requestInterceptor b.storage config)) := by
  cases replies with
  | nil => rfl
  | cons r rest =>
    cases r with
    | fulfilled data => rfl
    | rejected response =>
      unfold api
      simp only []
      rw [responseInterceptor_pass]
      · rfl
      · intro hc
        have := hc.2
        simp only [(requestInterceptor_fields b.storage config).2.2.2, h] at this
        cases this

/-- The retry that follows a successful refresh: the request goes out once, with the
header set by the response interceptor, and its answer is the outcome. -/
theorem retry_after_refresh {β : Type} (replies : List (Reply β))
    (refreshes : List RefreshReply) (b : Browser) (config : Config) (t : String)
    (hs : b.storage.access_token = some t) :
    api replies refreshes b
        { config with
          _retry := true
          headers := JsMap.set config.headers "Authorization" ("Bearer " ++ t) } =
      ({ b with calls := b.calls ++
          [Call.request
            { config with
              _retry := true
              headers := JsMap.set config.headers "Authorization" ("Bearer " ++ t) }] },
        settle replies
          { config with
            _retry := true
            headers := JsMap.set config.headers "Authorization" ("Bearer " ++ t) }) := by
  rw [api_retried replies refreshes b _ rfl]
  have := requestInterceptor_after_refresh b.storage { config with _retry := true } t hs
  simp only [] at this
  rw [this]

/-! ## The claims about the HTTP adapter -/

/-- C14 (fails on the code). A request that was not retried is answered 401 while
access token and identity are persisted but no refresh token: the response interceptor
issues no refresh call and no retry, clears nothing and redirects nowhere; the state
is as before and the caller gets the error. -/
theorem no_refresh_without_refresh_token :
    (responseInterceptor (fun b c => api ([] : List (Reply Nat)) [] b c)
      (some (RefreshReply.fulfilled (some "new")))
      ⟨none, ⟨some "old", none, some "u"⟩, [], []⟩
      ⟨⟨"get", "/tasks/", "", [], false⟩, some ⟨401, none⟩⟩).1
      = ⟨none, ⟨some "old", none, some "u"⟩, [], []⟩ ∧
    (responseInterceptor (fun b c => api ([] : List (Reply Nat)) [] b c)
      (some (RefreshReply.fulfilled (some "new")))
      ⟨none, ⟨some "old", none, some "u"⟩, [], []⟩
      ⟨⟨"get", "/tasks/", "", [], false⟩, some ⟨401, none⟩⟩).2
      = Outcome.rejected ⟨⟨"get", "/tasks/", "", [], true⟩, some ⟨401, none⟩⟩ := by
  constructor <;> rfl

/-- C14 as amended. A request that was not retried is answered 401. When a refresh
token is persisted, the interceptor issues exactly one refresh call; if that call is
answered with data, the original request is sent again once and nothing is redirected;
if it is rejected (or answered without data), nothing is sent again, the three
persisted items are removed and the redirect to "/login" happens exactly once. When no
refresh token is persisted, the interceptor issues no call, changes nothing and rejects
the error to the caller. -/
theorem refresh_once_when_token {β : Type} (replies : List (Reply β))
    (refreshes : List RefreshReply) (b : Browser) (error : AxiosError)
    (h401 : error.response.map ErrorResponse.status = some 401)
    (hretry : error.config._retry = false) :
    (∀ refreshToken, truthy b.storage.refresh_token = some refreshToken →
      (∀ access,
        (responseInterceptor (fun b₁ c₁ => api replies refreshes b₁ c₁)
          (some (RefreshReply.fulfilled access)) b error).1
          = { b with
              storage := { b.storage with access_token := some (access.getD "undefined") }
              calls := b.calls ++
                [Call.refresh (API_BASE_URL b.apiUrl ++ "/auth/token/refresh/") refreshToken,
                 Call.request
                  { error.config with
                    _retry := true
                    headers := JsMap.set error.config.headers "Authorization"
                      ("Bearer " ++ access.getD "undefined") }] }) ∧
      (∀ reply, reply = RefreshReply.rejected ∨ reply = RefreshReply.malformed →
        (responseInterceptor (fun b₁ c₁ => api replies refreshes b₁ c₁) (some reply) b error)
          = ({ b with
               storage := clearSession b.storage
               redirects := b.redirects ++ ["/login"]
               calls := b.calls ++
                 [Call.refresh (API_BASE_URL b.apiUrl ++ "/auth/token/refresh/")
                    refreshToken] },
             Outcome.rejected
               { error with config := { error.config with _retry := true } }))) ∧
    (truthy b.storage.refresh_token = none →
      ∀ refresh,
        responseInterceptor (fun b₁ c₁ => api replies refreshes b₁ c₁) refresh b error
          = (b, Outcome.rejected
              { error with config := { error.config with _retry := true } })) := by
  refine ⟨?_, ?_⟩
  · intro refreshToken htoken
    refine ⟨?_, ?_⟩
    · intro access
      rw [responseInterceptor_token _ _ b error refreshToken h401 hretry htoken]
      simp only []
      rw [retry_after_refresh replies refreshes _ error.config (access.getD "undefined") rfl]
      simp
    · intro reply hreply
      rw [responseInterceptor_token _ _ b error refreshToken h401 hretry htoken]
      rcases hreply with h | h <;> rw [h]
  · intro htoken refresh
    exact responseInterceptor_no_token _ refresh b error h401 hretry htoken

/-- C14 as amended, for a request answered 401 with the refresh token "r1"
persisted: a rejected refresh leaves one refresh call, one redirect and nothing
persisted. -/
theorem refresh_once_when_token_witness :
    ((some (⟨401, none⟩ : ErrorResponse)).map ErrorResponse.status = some 401 ∧
      (⟨"get", "/tasks/", "", [], false⟩ : Config)._retry = false ∧
      truthy (some "r1") = some "r1") ∧
    responseInterceptor (fun b₁ c₁ => api ([] : List (Reply Nat)) [] b₁ c₁)
        (some RefreshReply.rejected)
        ⟨none, ⟨some "old", some "r1", some "u"⟩, [], []⟩
        ⟨⟨"get", "/tasks/", "", [], false⟩, some ⟨401, none⟩⟩
      = (⟨none, ⟨none, none, none⟩, ["/login"],
          [Call.refresh "http://localhost:8000/api/auth/token/refresh/" "r1"]⟩,
         Outcome.rejected ⟨⟨"get", "/tasks/", "", [], true⟩, some ⟨401, none⟩⟩) :=
  ⟨⟨by decide, by decide, by decide⟩,
   ((refresh_once_when_token ([] : List (Reply Nat)) []
      ⟨none, ⟨some "old", some "r1", some "u"⟩, [], []⟩
      ⟨⟨"get", "/tasks/", "", [], false⟩, some ⟨401, none⟩⟩ (by decide) (by decide)).1
      "r1" (by decide)).2 RefreshReply.rejected (Or.inl rfl)⟩

theorem eq_some_of_truthy (v : Option String) (t : String) (h : truthy v = some t) :
    v = some t ∧ t ≠ "" := by
  cases v with
  | none => cases h
  | some u =>
    rw [truthy_some] at h
    by_cases hu : u = ""
    · rw [if_pos hu] at h; cases h
    · rw [if_neg hu] at h
      cases h
      exact ⟨rfl, hu⟩

/-- C15. A request that was not retried is answered 401, a refresh token is
persisted, and the refresh call is answered with the access token `t`. Then the
refresh call went to `API_BASE_URL + "/auth/token/refresh/"` with the persisted refresh
token as `refresh`; the persisted access token is `t` and nothing else in the storage
changed; the original request was sent again exactly once, marked `_retry`, with the
header `Authorization` equal to `"Bearer " + t` and its other fields unchanged; and the
caller receives what that retry yields. -/
theorem refresh_then_retry {β : Type} (replies : List (Reply β))
    (refreshes : List RefreshReply) (b : Browser) (error : AxiosError)
    (refreshToken t : String)
    (h401 : error.response.map ErrorResponse.status = some 401)
    (hretry : error.config._retry = false)
    (htoken : truthy b.storage.refresh_token = some refreshToken) :
    b.storage.refresh_token = some refreshToken ∧
    responseInterceptor (fun b₁ c₁ => api replies refreshes b₁ c₁)
        (some (RefreshReply.fulfilled (some t))) b error
      = ({ b with
           storage := { b.storage with access_token := some t }
           calls := b.calls ++
             [Call.refresh (API_BASE_URL b.apiUrl ++ "/auth/token/refresh/") refreshToken,
              Call.request
                { error.config with
                  _retry := true
                  headers := JsMap.set error.config.headers "Authorization"
                    ("Bearer " ++ t) }] },
         settle replies
           { error.config with
             _retry := true
             headers := JsMap.set error.config.headers "Authorization" ("Bearer " ++ t) }) ∧
    JsMap.get (JsMap.set error.config.headers "Authorization" ("Bearer " ++ t))
      "Authorization" = some ("Bearer " ++ t) ∧
    (∀ k, k ≠ "Authorization" →
      JsMap.get (JsMap.set error.config.headers "Authorization" ("Bearer " ++ t)) k
        = JsMap.get error.config.headers k) := by
  refine ⟨(eq_some_of_truthy _ _ htoken).1, ?_, JsMap.get_set_self _ _ _,
    fun k hk => JsMap.get_set_ne _ _ hk⟩
  rw [responseInterceptor_token _ _ b error refreshToken h401 hretry htoken]
  simp only [Option.getD_some]
  rw [retry_after_refresh replies refreshes _ error.config t rfl]
  simp

/-- C15, for a request to "/tasks/" answered 401 with refresh token "r1" persisted,
the refresh answered with "new" and the retry answered with the data 5. -/
theorem refresh_then_retry_witness :
    ((some (⟨401, none⟩ : ErrorResponse)).map ErrorResponse.status = some 401 ∧
      (⟨"get", "/tasks/", "", [], false⟩ : Config)._retry = false ∧
      truthy (some "r1") = some "r1") ∧
    responseInterceptor (fun b₁ c₁ => api [Reply.fulfilled 5] [] b₁ c₁)
        (some (RefreshReply.fulfilled (some "new")))
        ⟨none, ⟨some "old", some "r1", some "u"⟩, [], []⟩
        ⟨⟨"get", "/tasks/", "", [], false⟩, some ⟨401, none⟩⟩
      = (⟨none, ⟨some "new", some "r1", some "u"⟩, [],
          [Call.refresh "http://localhost:8000/api/auth/token/refresh/" "r1",
           Call.request ⟨"get", "/tasks/", "", [("Authorization", "Bearer new")], true⟩]⟩,
         Outcome.fulfilled 5) :=
  ⟨⟨by decide, by decide, by decide⟩,
   (refresh_then_retry [Reply.fulfilled 5] []
      ⟨none, ⟨some "old", some "r1", some "u"⟩, [], []⟩
      ⟨⟨"get", "/tasks/", "", [], false⟩, some ⟨401, none⟩⟩ "r1" "new"
      (by decide) (by decide) (by decide)).2.1⟩

/-- C16. A request that was not retried is answered 401, a refresh call is made
(a refresh token is persisted) and it fails. Then the persisted access token, refresh
token and identity are removed, "/login" is assigned to `window.location.href` exactly
once, the only call issued is the refresh call (the original request is not sent
again), and the caller gets the error as a rejection. -/
theorem refresh_failure_clears {β : Type} (api : Browser → Config → Browser × Outcome β)
    (b : Browser) (error : AxiosError) (refreshToken : String)
    (h401 : error.response.map ErrorResponse.status = some 401)
    (hretry : error.config._retry = false)
    (htoken : truthy b.storage.refresh_token = some refreshToken) :
    responseInterceptor api (some RefreshReply.rejected) b error
      = ({ b with
           storage := { access_token := none, refresh_token := none, aikshetra_user := none }
           redirects := b.redirects ++ ["/login"]
           calls := b.calls ++
             [Call.refresh (API_BASE_URL b.apiUrl ++ "/auth/token/refresh/") refreshToken] },
         Outcome.rejected { error with config := { error.config with _retry := true } }) ∧
    ((responseInterceptor api (some RefreshReply.rejected) b error).1.calls.filter
      Call.isRequest) = b.calls.filter Call.isRequest := by
  have h := responseInterceptor_token api (some RefreshReply.rejected) b error refreshToken
    h401 hretry htoken
  simp only [] at h
  refine ⟨?_, ?_⟩
  · rw [h]; rfl
  · rw [h]
    simp [Call.isRequest]

/-- C16, for a request to "/tasks/" answered 401 with refresh token "r1" persisted
and the refresh call rejected. -/
theorem refresh_failure_clears_witness :
    ((some (⟨401, none⟩ : ErrorResponse)).map ErrorResponse.status = some 401 ∧
      (⟨"get", "/tasks/", "", [], false⟩ : Config)._retry = false ∧
      truthy (some "r1") = some "r1") ∧
    responseInterceptor (fun b₁ c₁ => api [Reply.fulfilled 5] [] b₁ c₁)
        (some RefreshReply.rejected)
        ⟨none, ⟨some "old", some "r1", some "u"⟩, [], []⟩
        ⟨⟨"get", "/tasks/", "", [], false⟩, some ⟨401, none⟩⟩
      = (⟨none, ⟨none, none, none⟩, ["/login"],
          [Call.refresh "http://localhost:8000/api/auth/token/refresh/" "r1"]⟩,
         Outcome.rejected ⟨⟨"get", "/tasks/", "", [], true⟩, some ⟨401, none⟩⟩) :=
  ⟨⟨by decide, by decide, by decide⟩,
   (refresh_failure_clears (fun b₁ c₁ => api [Reply.fulfilled 5] [] b₁ c₁)
      ⟨none, ⟨some "old", some "r1", some "u"⟩, [], []⟩
      ⟨⟨"get", "/tasks/", "", [], false⟩, some ⟨401, none⟩⟩ "r1"
      (by decide) (by decide) (by decide)).1⟩

/-- The calls that one `api(config)` adds: the request; or the request and a refresh
call; or the request, a refresh call and one retry. -/
theorem api_calls {β : Type} (replies : List (Reply β)) (refreshes : List RefreshReply)
    (b : Browser) (config : Config) :
    ∃ extra, (api replies refreshes b config).1.calls = b.calls ++ extra ∧
      (extra.filter Call.isRefresh).length ≤ 1 ∧ (extra.filter Call.isRequest).length ≤ 2 := by
  cases replies with
  | nil =>
    exact ⟨[Call.request (requestInterceptor b.storage config)], rfl,
      by simp [Call.isRefresh], by simp [Call.isRequest]⟩
  | cons r rest =>
    cases r with
    | fulfilled data =>
      exact ⟨[Call.request (requestInterceptor b.storage config)], rfl,
        by simp [Call.isRefresh], by simp [Call.isRequest]⟩
    | rejected response =>
      unfold api
      simp only []
      by_cases hc : (response.map ErrorResponse.status = some 401 ∧
          (requestInterceptor b.storage config)._retry = false)
      · cases htoken : truthy b.storage.refresh_token with
        | none =>
          rw [responseInterceptor_no_token (fun b₁ c₁ => api rest refreshes.tail b₁ c₁)
            refreshes.head?
            { b with calls := b.calls ++ [Call.request (requestInterceptor b.storage config)] }
            { config := requestInterceptor b.storage config, response := response }
            hc.1 hc.2 htoken]
          exact ⟨[Call.request (requestInterceptor b.storage config)], rfl,
            by simp [Call.isRefresh], by simp [Call.isRequest]⟩
        | some refreshToken =>
          rw [responseInterceptor_token (fun b₁ c₁ => api rest refreshes.tail b₁ c₁)
            refreshes.head?
            { b with calls := b.calls ++ [Call.request (requestInterceptor b.storage config)] }
            { config := requestInterceptor b.storage config, response := response }
            refreshToken hc.1 hc.2 htoken]
          cases refreshes.head? with
          | none =>
            exact ⟨[Call.request (requestInterceptor b.storage config),
              Call.refresh (API_BASE_URL b.apiUrl ++ "/auth/token/refresh/") refreshToken],
              by simp, by simp [Call.isRefresh], by simp [Call.isRequest]⟩
          | some reply =>
            cases reply with
            | fulfilled access =>
              simp only []
              rw [retry_after_refresh rest refreshes.tail _ _ (access.getD "undefined") rfl]
              exact ⟨[Call.request (requestInterceptor b.storage config),
                Call.refresh (API_BASE_URL b.apiUrl ++ "/auth/token/refresh/") refreshToken,
                Call.request
                  { requestInterceptor b.storage config with
                    _retry := true
                    headers := JsMap.set (requestInterceptor b.storage config).headers
                      "Authorization" ("Bearer " ++ access.getD "undefined") }],
                by simp, by simp [Call.isRefresh], by simp [Call.isRequest]⟩
            | malformed =>
              exact ⟨[Call.request (requestInterceptor b.storage config),
                Call.refresh (API_BASE_URL b.apiUrl ++ "/auth/token/refresh/") refreshToken],
                by simp, by simp [Call.isRefresh], by simp [Call.isRequest]⟩
            | rejected =>
              exact ⟨[Call.request (requestInterceptor b.storage config),
                Call.refresh (API_BASE_URL b.apiUrl ++ "/auth/token/refresh/") refreshToken],
                by simp, by simp [Call.isRefresh], by simp [Call.isRequest]⟩
      · rw [responseInterceptor_pass (fun b₁ c₁ => api rest refreshes.tail b₁ c₁)
          refreshes.head?
          { b with calls := b.calls ++ [Call.request (requestInterceptor b.storage config)] }
          { config := requestInterceptor b.storage config, response := response } hc]
        exact ⟨[Call.request (requestInterceptor b.storage config)], rfl,
          by simp [Call.isRefresh], by simp [Call.isRequest]⟩

/-- C17. When the failed request is already marked `_retry`, the response
interceptor issues no refresh call and no retry, whatever the status: the state,
persisted session included, is unchanged and the error is rejected to the caller.
Consequently a call `api(config)` adds, whatever the server answers, at most one
refresh call and at most two requests (the original and one retry). -/
theorem retried_request_rejected {β : Type} :
    (∀ (api₁ : Browser → Config → Browser × Outcome β) (refresh : Option RefreshReply)
        (b : Browser) (error : AxiosError), error.config._retry = true →
      responseInterceptor api₁ refresh b error = (b, Outcome.rejected error)) ∧
    (∀ (replies : List (Reply β)) (refreshes : List RefreshReply) (b : Browser)
        (config : Config),
      ∃ extra, (api replies refreshes b config).1.calls = b.calls ++ extra ∧
        (extra.filter Call.isRefresh).length ≤ 1 ∧
        (extra.filter Call.isRequest).length ≤ 2) := by
  refine ⟨?_, api_calls⟩
  intro api₁ refresh b error h
  apply responseInterceptor_pass
  intro hc
  rw [h] at hc
  exact Bool.noConfusion hc.2

/-- C17, for a retried request to "/tasks/" answered 401 while a refresh token is
persisted: nothing is called and nothing changes. -/
theorem retried_request_rejected_witness :
    (⟨"get", "/tasks/", "", [], true⟩ : Config)._retry = true ∧
    responseInterceptor (fun b₁ c₁ => api [Reply.fulfilled 5] [] b₁ c₁)
        (some (RefreshReply.fulfilled (some "new")))
        ⟨none, ⟨some "old", some "r1", some "u"⟩, [], []⟩
        ⟨⟨"get", "/tasks/", "", [], true⟩, some ⟨401, none⟩⟩
      = (⟨none, ⟨some "old", some "r1", some "u"⟩, [], []⟩,
         Outcome.rejected ⟨⟨"get", "/tasks/", "", [], true⟩, some ⟨401, none⟩⟩) :=
  ⟨by decide,
   retried_request_rejected.1 (fun b₁ c₁ => api [Reply.fulfilled 5] [] b₁ c₁)
      (some (RefreshReply.fulfilled (some "new")))
      ⟨none, ⟨some "old", some "r1", some "u"⟩, [], []⟩
      ⟨⟨"get", "/tasks/", "", [], true⟩, some ⟨401, none⟩⟩ (by decide)⟩

/-- C18. The request interceptor sets the header `Authorization` to "Bearer "
followed by the persisted access token when one is persisted (a non-empty string),
leaving every other header as it was, and returns the configuration unchanged when
none is persisted. No other field of the configuration changes in either case. -/
theorem request_interceptor_header (storage : Storage) (config : Config) :
    (∀ token, truthy storage.access_token = some token →
      storage.access_token = some token ∧
      requestInterceptor storage config =
        { config with
          headers := JsMap.set config.headers "Authorization" ("Bearer " ++ token) } ∧
      JsMap.get (requestInterceptor storage config).headers "Authorization"
        = some ("Bearer " ++ token) ∧
      ∀ k, k ≠ "Authorization" →
        JsMap.get (requestInterceptor storage config).headers k = JsMap.get config.headers k) ∧
    (truthy storage.access_token = none → requestInterceptor storage config = config) ∧
    (requestInterceptor storage config).method = config.method ∧
    (requestInterceptor storage config).url = config.url ∧
    (requestInterceptor storage config).data = config.data ∧
    (requestInterceptor storage config)._retry = config._retry := by
  refine ⟨?_, requestInterceptor_none storage config, requestInterceptor_fields storage config⟩
  intro token h
  rw [requestInterceptor_token storage config token h]
  exact ⟨(eq_some_of_truthy _ _ h).1, rfl, JsMap.get_set_self _ _ _,
    fun k hk => JsMap.get_set_ne _ _ hk⟩

/-- C18, with the access token "abc" persisted, and with none persisted. -/
theorem request_interceptor_header_witness :
    (truthy (some "abc") = some "abc" ∧ truthy none = none) ∧
    requestInterceptor ⟨some "abc", none, none⟩
        ⟨"get", "/tasks/", "", [("Content-Type", "application/json")], false⟩
      = ⟨"get", "/tasks/", "",
          [("Content-Type", "application/json"), ("Authorization", "Bearer abc")], false⟩ ∧
    requestInterceptor ⟨none, none, none⟩
        ⟨"get", "/tasks/", "", [("Content-Type", "application/json")], false⟩
      = ⟨"get", "/tasks/", "", [("Content-Type", "application/json")], false⟩ :=
  ⟨⟨by decide, by decide⟩,
   ((request_interceptor_header ⟨some "abc", none, none⟩
      ⟨"get", "/tasks/", "", [("Content-Type", "application/json")], false⟩).1 "abc"
      (by decide)).2.1,
   (request_interceptor_header ⟨none, none, none⟩
      ⟨"get", "/tasks/", "", [("Content-Type", "application/json")], false⟩).2.1 (by decide)⟩

/-- C30. A request that was not retried is answered 401, the refresh call is
answered with the access token `t`, and the retry is rejected, with any response (a
401 included) or with none. Then the persisted refresh token and identity are kept and
the persisted access token is `t`; nothing is redirected; the calls added are the one
refresh call and the one retry, whatever further answers the server has ready; and the
caller gets the rejection of the retry, carrying the retried configuration and the
retry's response. -/
theorem retry_failure_keeps_session {β : Type} (replies : List (Reply β))
    (refreshes : List RefreshReply) (b : Browser) (error : AxiosError)
    (refreshToken t : String) (response : Option ErrorResponse)
    (h401 : error.response.map ErrorResponse.status = some 401)
    (hretry : error.config._retry = false)
    (htoken : truthy b.storage.refresh_token = some refreshToken) :
    (responseInterceptor
        (fun b₁ c₁ => api (Reply.rejected response :: replies) refreshes b₁ c₁)
        (some (RefreshReply.fulfilled (some t))) b error).1.storage
      = { b.storage with access_token := some t } ∧
    (responseInterceptor
        (fun b₁ c₁ => api (Reply.rejected response :: replies) refreshes b₁ c₁)
        (some (RefreshReply.fulfilled (some t))) b error).1.redirects = b.redirects ∧
    (responseInterceptor
        (fun b₁ c₁ => api (Reply.rejected response :: replies) refreshes b₁ c₁)
        (some (RefreshReply.fulfilled (some t))) b error).1.calls
      = b.calls ++
          [Call.refresh (API_BASE_URL b.apiUrl ++ "/auth/token/refresh/") refreshToken,
           Call.request
             { error.config with
               _retry := true
               headers := JsMap.set error.config.headers "Authorization" ("Bearer " ++ t) }] ∧
    (responseInterceptor
        (fun b₁ c₁ => api (Reply.rejected response :: replies) refreshes b₁ c₁)
        (some (RefreshReply.fulfilled (some t))) b error).2
      = Outcome.rejected
          { config :=
              { error.config with
                _retry := true
                headers := JsMap.set error.config.headers "Authorization" ("Bearer " ++ t) }
            response := response } := by
  rw [responseInterceptor_token _ _ b error refreshToken h401 hretry htoken]
  simp only [Option.getD_some]
  rw [retry_after_refresh (Reply.rejected response :: replies) refreshes _ error.config t rfl]
  refine ⟨rfl, rfl, ?_, rfl⟩
  simp

/-- C30, for a request to "/tasks/" answered 401, the refresh answered with "new"
and the retry answered 401 again, while a second refresh answer is ready. -/
theorem retry_failure_keeps_session_witness :
    ((some (⟨401, none⟩ : ErrorResponse)).map ErrorResponse.status = some 401 ∧
      (⟨"get", "/tasks/", "", [], false⟩ : Config)._retry = false ∧
      truthy (some "r1") = some "r1") ∧
    (responseInterceptor
        (fun b₁ c₁ => api (Reply.rejected (some ⟨401, none⟩) :: [Reply.fulfilled 5])
          [RefreshReply.fulfilled (some "newer")] b₁ c₁)
        (some (RefreshReply.fulfilled (some "new")))
        ⟨none, ⟨some "old", some "r1", some "u"⟩, [], []⟩
        ⟨⟨"get", "/tasks/", "", [], false⟩, some ⟨401, none⟩⟩).1.storage
      = ⟨some "new", some "r1", some "u"⟩ ∧
    (responseInterceptor
        (fun b₁ c₁ => api (Reply.rejected (some ⟨401, none⟩) :: [Reply.fulfilled 5])
          [RefreshReply.fulfilled (some "newer")] b₁ c₁)
        (some (RefreshReply.fulfilled (some "new")))
        ⟨none, ⟨some "old", some "r1", some "u"⟩, [], []⟩
        ⟨⟨"get", "/tasks/", "", [], false⟩, some ⟨401, none⟩⟩).1.calls
      = [Call.refresh "http://localhost:8000/api/auth/token/refresh/" "r1",
         Call.request ⟨"get", "/tasks/", "", [("Authorization", "Bearer new")], true⟩] :=
  ⟨⟨by decide, by decide, by decide⟩,
   (retry_failure_keeps_session [Reply.fulfilled 5] [RefreshReply.fulfilled (some "newer")]
      ⟨none, ⟨some "old", some "r1", some "u"⟩, [], []⟩
      ⟨⟨"get", "/tasks/", "", [], false⟩, some ⟨401, none⟩⟩ "r1" "new" (some ⟨401, none⟩)
      (by decide) (by decide) (by decide)).1,
   (retry_failure_keeps_session [Reply.fulfilled 5] [RefreshReply.fulfilled (some "newer")]
      ⟨none, ⟨some "old", some "r1", some "u"⟩, [], []⟩
      ⟨⟨"get", "/tasks/", "", [], false⟩, some ⟨401, none⟩⟩ "r1" "new" (some ⟨401, none⟩)
      (by decide) (by decide) (by decide)).2.2.1⟩

/-- While no refresh token is persisted, a call through `api` only sends its one
request: the storage and the redirects stay as they are, whatever the answers. -/
theorem api_without_refresh_token {β : Type} (replies : List (Reply β))
    (refreshes : List RefreshReply) (b : Browser) (config : Config)
    (h : truthy b.storage.refresh_token = none) :
    (api replies refreshes b config).1 =
      { b with calls := b.calls ++ [Call.request (requestInterceptor b.storage config)] } := by
  cases replies with
  | nil => rfl
  | cons r rest =>
    cases r with
    | fulfilled data => rfl
    | rejected response =>
      unfold api
      simp only []
      by_cases hc : (response.map ErrorResponse.status = some 401 ∧
          (requestInterceptor b.storage config)._retry = false)
      · rw [responseInterceptor_no_token (fun b₁ c₁ => api rest refreshes.tail b₁ c₁)
          refreshes.head?
          { b with calls := b.calls ++ [Call.request (requestInterceptor b.storage config)] }
          { config := requestInterceptor b.storage config, response := response }
          hc.1 hc.2 h]
      · rw [responseInterceptor_pass (fun b₁ c₁ => api rest refreshes.tail b₁ c₁)
          refreshes.head?
          { b with calls := b.calls ++ [Call.request (requestInterceptor b.storage config)] }
          { config := requestInterceptor b.storage config, response := response } hc]

/-! ## A call through the adapter, by the answers it gets -/

theorem api_rejected_plain {β : Type} (rest : List (Reply β)) (refreshes : List RefreshReply)
    (b : Browser) (config : Config) (response : Option ErrorResponse)
    (h : ¬ (response.map ErrorResponse.status = some 401 ∧ config._retry = false)) :
    api (Reply.rejected response :: rest) refreshes b config =
      ({ b with calls := b.calls ++ [Call.request (requestInterceptor b.storage config)] },
        Outcome.rejected
          { config := requestInterceptor b.storage config, response := response }) := by
  unfold api
  simp only []
  rw [responseInterceptor_pass]
  intro hc
  refine h ⟨hc.1, ?_⟩
  rw [← (requestInterceptor_fields b.storage config).2.2.2]
  exact hc.2

theorem api_rejected_no_token {β : Type} (rest : List (Reply β))
    (refreshes : List RefreshReply) (b : Browser) (config : Config)
    (response : Option ErrorResponse)
    (h401 : response.map ErrorResponse.status = some 401) (hretry : config._retry = false)
    (htoken : truthy b.storage.refresh_token = none) :
    api (Reply.rejected response :: rest) refreshes b config =
      ({ b with calls := b.calls ++ [Call.request (requestInterceptor b.storage config)] },
        Outcome.rejected
          { config := { requestInterceptor b.storage config with _retry := true },
            response := response }) := by
  unfold api
  simp only []
  rw [responseInterceptor_no_token (fun b₁ c₁ => api rest refreshes.tail b₁ c₁)
    refreshes.head?
    { b with calls := b.calls ++ [Call.request (requestInterceptor b.storage config)] }
    { config := requestInterceptor b.storage config, response := response } h401
    (by rw [(requestInterceptor_fields b.storage config).2.2.2]; exact hretry) htoken]

theorem api_refresh_pending {β : Type} (rest : List (Reply β)) (b : Browser)
    (config : Config) (response : Option ErrorResponse) (refreshToken : String)
    (h401 : response.map ErrorResponse.status = some 401) (hretry : config._retry = false)
    (htoken : truthy b.storage.refresh_token = some refreshToken) :
    api (Reply.rejected response :: rest) [] b config =
      ({ b with calls := b.calls ++
          [Call.request (requestInterceptor b.storage config),
           Call.refresh (API_BASE_URL b.apiUrl ++ "/auth/token/refresh/") refreshToken] },
        Outcome.pending) := by
  unfold api
  simp only []
  rw [responseInterceptor_token (fun b₁ c₁ => api rest (([] : List RefreshReply)).tail b₁ c₁)
    (([] : List RefreshReply)).head?
    { b with calls := b.calls ++ [Call.request (requestInterceptor b.storage config)] }
    { config := requestInterceptor b.storage config, response := response } refreshToken h401
    (by rw [(requestInterceptor_fields b.storage config).2.2.2]; exact hretry) htoken]
  simp

theorem api_refresh_failed {β : Type} (rest : List (Reply β)) (refreshes : List RefreshReply)
    (b : Browser) (config : Config) (response : Option ErrorResponse) (refreshToken : String)
    (r : RefreshReply) (hr : r = RefreshReply.malformed ∨ r = RefreshReply.rejected)
    (h401 : response.map ErrorResponse.status = some 401) (hretry : config._retry = false)
    (htoken : truthy b.storage.refresh_token = some refreshToken) :
    api (Reply.rejected response :: rest) (r :: refreshes) b config =
      ({ b with
         calls := b.calls ++
          [Call.request (requestInterceptor b.storage config),
           Call.refresh (API_BASE_URL b.apiUrl ++ "/auth/token/refresh/") refreshToken]
         storage := clearSession b.storage
         redirects := b.redirects ++ ["/login"] },
        Outcome.rejected
          { config := { requestInterceptor b.storage config with _retry := true },
            response := response }) := by
  unfold api
  simp only []
  rw [responseInterceptor_token (fun b₁ c₁ => api rest (r :: refreshes).tail b₁ c₁)
    (r :: refreshes).head?
    { b with calls := b.calls ++ [Call.request (requestInterceptor b.storage config)] }
    { config := requestInterceptor b.storage config, response := response } refreshToken h401
    (by rw [(requestInterceptor_fields b.storage config).2.2.2]; exact hretry) htoken]
  rcases hr with hr | hr <;> subst hr <;> simp

theorem api_refreshed {β : Type} (rest : List (Reply β)) (refreshes : List RefreshReply)
    (b : Browser) (config : Config) (response : Option ErrorResponse) (refreshToken : String)
    (access : Option String)
    (h401 : response.map ErrorResponse.status = some 401) (hretry : config._retry = false)
    (htoken : truthy b.storage.refresh_token = some refreshToken) :
    api (Reply.rejected response :: rest) (RefreshReply.fulfilled access :: refreshes) b config =
      ({ b with
         calls := b.calls ++
          [Call.request (requestInterceptor b.storage config),
           Call.refresh (API_BASE_URL b.apiUrl ++ "/auth/token/refresh/") refreshToken,
           Call.request
            { requestInterceptor b.storage config with
              _retry := true
              headers := JsMap.set (requestInterceptor b.storage config).headers "Authorization"
                ("Bearer " ++ access.getD "undefined") }]
         storage := { b.storage with access_token := some (access.getD "undefined") } },
        settle rest
          { requestInterceptor b.storage config with
            _retry := true
            headers := JsMap.set (requestInterceptor b.storage config).headers "Authorization"
              ("Bearer " ++ access.getD "undefined") }) := by
  unfold api
  simp only []
  rw [responseInterceptor_token (fun b₁ c₁ => api rest (RefreshReply.fulfilled access :: refreshes).tail b₁ c₁)
    (RefreshReply.fulfilled access :: refreshes).head?
    { b with calls := b.calls ++ [Call.request (requestInterceptor b.storage config)] }
    { config := requestInterceptor b.storage config, response := response } refreshToken h401
    (by rw [(requestInterceptor_fields b.storage config).2.2.2]; exact hretry) htoken]
  simp only [List.head?_cons, List.tail_cons]
  rw [retry_after_refresh rest refreshes _ (requestInterceptor b.storage config)
    (access.getD "undefined") rfl]
  simp



/-- A call through `api` that is fulfilled: either its first answer was the
response, or the first answer was a 401 that was refreshed and the retry was
answered. Nothing is redirected, and the storage differs at most in the refreshed
access token. -/
theorem api_fulfilled_cases {β : Type} (replies : List (Reply β))
    (refreshes : List RefreshReply) (b : Browser) (config : Config) (data : β)
    (hretry : config._retry = false)
    (h : (api replies refreshes b config).2 = Outcome.fulfilled data) :
    (api replies refreshes b config).1.redirects = b.redirects ∧
    ((∃ rest, replies = Reply.fulfilled data :: rest ∧
        (api replies refreshes b config).1.storage = b.storage) ∨
      (∃ response rest refreshToken access refreshes₁,
        replies = Reply.rejected response :: Reply.fulfilled data :: rest ∧
        response.map ErrorResponse.status = some 401 ∧
        truthy b.storage.refresh_token = some refreshToken ∧
        refreshes = RefreshReply.fulfilled access :: refreshes₁ ∧
        (api replies refreshes b config).1.storage
          = { b.storage with access_token := some (access.getD "undefined") })) := by
  cases replies with
  | nil => cases h
  | cons r rest =>
    cases r with
    | fulfilled d =>
      have hd : d = data := by
        have h₁ : Outcome.fulfilled d = Outcome.fulfilled data := h
        cases h₁
        rfl
      subst hd
      exact ⟨rfl, Or.inl ⟨rest, rfl, rfl⟩⟩
    | rejected response =>
      by_cases h401 : response.map ErrorResponse.status = some 401
      · cases htoken : truthy b.storage.refresh_token with
        | none =>
          rw [api_rejected_no_token rest refreshes b config response h401 hretry htoken] at h
          cases h
        | some refreshToken =>
          cases refreshes with
          | nil =>
            rw [api_refresh_pending rest b config response refreshToken h401 hretry htoken] at h
            cases h
          | cons r refreshes₁ =>
            cases r with
            | fulfilled access =>
              rw [api_refreshed rest refreshes₁ b config response refreshToken access h401
                hretry htoken] at h ⊢
              cases rest with
              | nil => cases h
              | cons r₂ rest₂ =>
                cases r₂ with
                | fulfilled d =>
                  have hd : d = data := by
                    have h₁ : Outcome.fulfilled d = Outcome.fulfilled data := h
                    cases h₁
                    rfl
                  subst hd
                  exact ⟨rfl, Or.inr ⟨response, rest₂, refreshToken, access, refreshes₁, rfl,
                    h401, rfl, rfl, rfl⟩⟩
                | rejected response₂ => cases h
            | malformed =>
              rw [api_refresh_failed rest refreshes₁ b config response refreshToken _
                (Or.inl rfl) h401 hretry htoken] at h
              cases h
            | rejected =>
              rw [api_refresh_failed rest refreshes₁ b config response refreshToken _
                (Or.inr rfl) h401 hretry htoken] at h
              cases h
      · rw [api_rejected_plain rest refreshes b config response (fun hc => h401 hc.1)] at h
        cases h

/-- A call through `api` that is rejected: either the first answer was a rejection
that the response interceptor passed on (it was not a 401, or no refresh token was
persisted); or a 401 was refreshed and the retry was rejected; or the refresh call
for a 401 failed, the session was cleared and "/login" assigned. The error carries the
response of the rejection that reached the caller. -/
theorem api_rejected_cases {β : Type} (replies : List (Reply β))
    (refreshes : List RefreshReply) (b : Browser) (config : Config) (error : AxiosError)
    (hretry : config._retry = false)
    (h : (api replies refreshes b config).2 = Outcome.rejected error) :
    (∃ response rest, replies = Reply.rejected response :: rest ∧
      (response.map ErrorResponse.status ≠ some 401 ∨
        truthy b.storage.refresh_token = none) ∧
      error.response = response ∧
      (api replies refreshes b config).1.storage = b.storage ∧
      (api replies refreshes b config).1.redirects = b.redirects) ∨
    (∃ response response₂ rest refreshToken access refreshes₁,
      replies = Reply.rejected response :: Reply.rejected response₂ :: rest ∧
      response.map ErrorResponse.status = some 401 ∧
      truthy b.storage.refresh_token = some refreshToken ∧
      refreshes = RefreshReply.fulfilled access :: refreshes₁ ∧
      error.response = response₂ ∧
      (api replies refreshes b config).1.storage
        = { b.storage with access_token := some (access.getD "undefined") } ∧
      (api replies refreshes b config).1.redirects = b.redirects) ∨
    (∃ response rest refreshToken r refreshes₁,
      replies = Reply.rejected response :: rest ∧
      response.map ErrorResponse.status = some 401 ∧
      truthy b.storage.refresh_token = some refreshToken ∧
      refreshes = r :: refreshes₁ ∧
      (r = RefreshReply.malformed ∨ r = RefreshReply.rejected) ∧
      error.response = response ∧
      (api replies refreshes b config).1.storage = clearSession b.storage ∧
      (api replies refreshes b config).1.redirects = b.redirects ++ ["/login"]) := by
  cases replies with
  | nil => cases h
  | cons r rest =>
    cases r with
    | fulfilled d => cases h
    | rejected response =>
      by_cases h401 : response.map ErrorResponse.status = some 401
      · cases htoken : truthy b.storage.refresh_token with
        | none =>
          rw [api_rejected_no_token rest refreshes b config response h401 hretry htoken] at h ⊢
          have h₁ : error = _ := (Outcome.rejected.inj h).symm
          subst h₁
          exact Or.inl ⟨response, rest, rfl, Or.inr rfl, rfl, rfl, rfl⟩
        | some refreshToken =>
          cases refreshes with
          | nil =>
            rw [api_refresh_pending rest b config response refreshToken h401 hretry htoken] at h
            cases h
          | cons r refreshes₁ =>
            cases r with
            | fulfilled access =>
              rw [api_refreshed rest refreshes₁ b config response refreshToken access h401
                hretry htoken] at h ⊢
              cases rest with
              | nil => cases h
              | cons r₂ rest₂ =>
                cases r₂ with
                | fulfilled d => cases h
                | rejected response₂ =>
                  have h₁ : error = _ := (Outcome.rejected.inj h).symm
                  subst h₁
                  exact Or.inr (Or.inl ⟨response, response₂, rest₂, refreshToken, access,
                    refreshes₁, rfl, h401, rfl, rfl, rfl, rfl, rfl⟩)
            | malformed =>
              rw [api_refresh_failed rest refreshes₁ b config response refreshToken _
                (Or.inl rfl) h401 hretry htoken] at h ⊢
              have h₁ : error = _ := (Outcome.rejected.inj h).symm
              subst h₁
              exact Or.inr (Or.inr ⟨response, rest, refreshToken, _, refreshes₁, rfl, h401,
                rfl, rfl, Or.inl rfl, rfl, rfl, rfl⟩)
            | rejected =>
              rw [api_refresh_failed rest refreshes₁ b config response refreshToken _
                (Or.inr rfl) h401 hretry htoken] at h ⊢
              have h₁ : error = _ := (Outcome.rejected.inj h).symm
              subst h₁
              exact Or.inr (Or.inr ⟨response, rest, refreshToken, _, refreshes₁, rfl, h401,
                rfl, rfl, Or.inr rfl, rfl, rfl, rfl⟩)
      · rw [api_rejected_plain rest refreshes b config response (fun hc => h401 hc.1)] at h ⊢
        have h₁ : error = _ := (Outcome.rejected.inj h).symm
        subst h₁
        exact Or.inl ⟨response, rest, rfl, Or.inl h401, rfl, rfl, rfl⟩

/-- The first call that `api(config)` adds is the request itself, as the request
interceptor left it. -/
theorem api_sends {β : Type} (replies : List (Reply β)) (refreshes : List RefreshReply)
    (b : Browser) (config : Config) (hretry : config._retry = false) :
    ∃ more, (api replies refreshes b config).1.calls
      = b.calls ++ Call.request (requestInterceptor b.storage config) :: more := by
  cases replies with
  | nil => exact ⟨[], rfl⟩
  | cons r rest =>
    cases r with
    | fulfilled d => exact ⟨[], rfl⟩
    | rejected response =>
      by_cases h401 : response.map ErrorResponse.status = some 401
      · cases htoken : truthy b.storage.refresh_token with
        | none =>
          rw [api_rejected_no_token rest refreshes b config response h401 hretry htoken]
          exact ⟨[], rfl⟩
        | some refreshToken =>
          cases refreshes with
          | nil =>
            rw [api_refresh_pending rest b config response refreshToken h401 hretry htoken]
            exact ⟨_, rfl⟩
          | cons r refreshes₁ =>
            cases r with
            | fulfilled access =>
              rw [api_refreshed rest refreshes₁ b config response refreshToken access h401
                hretry htoken]
              exact ⟨_, rfl⟩
            | malformed =>
              rw [api_refresh_failed rest refreshes₁ b config response refreshToken _
                (Or.inl rfl) h401 hretry htoken]
              exact ⟨_, rfl⟩
            | rejected =>
              rw [api_refresh_failed rest refreshes₁ b config response refreshToken _
                (Or.inr rfl) h401 hretry htoken]
              exact ⟨_, rfl⟩
      · rw [api_rejected_plain rest refreshes b config response (fun hc => h401 hc.1)]
        exact ⟨[], rfl⟩

end Api

namespace AuthContext

/-! ## The claims about the session store -/

theorem hasSavedSession_iff (storage : Api.Storage) :
    hasSavedSession storage = true ↔
      ∃ token saved, storage.access_token = some token ∧ token ≠ "" ∧
        storage.aikshetra_user = some saved ∧ saved ≠ "" := by
  unfold hasSavedSession
  constructor
  · intro h
    rw [Bool.and_eq_true, Option.isSome_iff_exists, Option.isSome_iff_exists] at h
    obtain ⟨⟨t, ht⟩, ⟨u, hu⟩⟩ := h
    exact ⟨t, u, (Api.eq_some_of_truthy _ _ ht).1, (Api.eq_some_of_truthy _ _ ht).2,
      (Api.eq_some_of_truthy _ _ hu).1, (Api.eq_some_of_truthy _ _ hu).2⟩
  · rintro ⟨t, u, ht, htne, hu, hune⟩
    rw [ht, hu, Api.truthy_some, Api.truthy_some, if_neg htne, if_neg hune]
    rfl

/-- C23. After `logout()` the persisted access token, refresh token and identity
are removed, the in-memory identity is absent and the authenticated flag is false, and
"/login" has been assigned to `window.location.href` once. The logout call is started
exactly when a refresh token was persisted, with that token as payload; `logout` does
not wait for it, and however the server answers it (a response, a rejection with any
status, or nothing), the storage stays cleared and nothing more is redirected. -/
theorem logout_spec {υ : Type} (b : Api.Browser) (a : AuthState υ) :
    (logout b a).1.storage
      = { access_token := none, refresh_token := none, aikshetra_user := none } ∧
    (logout b a).2.1.user = none ∧
    (logout b a).2.1.isAuthenticated = false ∧
    (logout b a).1.redirects = b.redirects ++ ["/login"] ∧
    (Api.truthy b.storage.refresh_token = none → (logout b a).2.2 = none) ∧
    (∀ refreshToken, Api.truthy b.storage.refresh_token = some refreshToken →
      (logout b a).2.2 = some (logoutRequest refreshToken)) ∧
    (∀ (replies : List (Api.Reply Unit)) (refreshes : List Api.RefreshReply)
        (config : Api.Config),
      (Api.api replies refreshes (logout b a).1 config).1.storage
        = { access_token := none, refresh_token := none, aikshetra_user := none } ∧
      (Api.api replies refreshes (logout b a).1 config).1.redirects
        = b.redirects ++ ["/login"]) := by
  refine ⟨rfl, rfl, rfl, rfl, ?_, ?_, ?_⟩
  · intro h
    unfold logout
    simp only [h, Option.map_none']
  · intro refreshToken h
    unfold logout
    simp only [h, Option.map_some']
  · intro replies refreshes config
    rw [Api.api_without_refresh_token replies refreshes (logout b a).1 config rfl]
    exact ⟨rfl, rfl⟩

/-- C23, for a session with tokens and identity persisted, whose logout call is
answered 401. -/
theorem logout_spec_witness :
    Api.truthy (some "r1") = some "r1" ∧
    (logout ⟨none, ⟨some "a", some "r1", some "u"⟩, [], []⟩
        (⟨some 7, true, false⟩ : AuthState Nat)).2.2 = some (logoutRequest "r1") ∧
    (Api.api ([Api.Reply.rejected (some ⟨401, none⟩)] : List (Api.Reply Unit))
        [Api.RefreshReply.fulfilled (some "n")]
        (logout ⟨none, ⟨some "a", some "r1", some "u"⟩, [], []⟩
          (⟨some 7, true, false⟩ : AuthState Nat)).1 (logoutRequest "r1")).1.storage
      = ⟨none, none, none⟩ :=
  ⟨by decide,
   (logout_spec ⟨none, ⟨some "a", some "r1", some "u"⟩, [], []⟩
      (⟨some 7, true, false⟩ : AuthState Nat)).2.2.2.2.2.1 "r1" (by decide),
   ((logout_spec ⟨none, ⟨some "a", some "r1", some "u"⟩, [], []⟩
      (⟨some 7, true, false⟩ : AuthState Nat)).2.2.2.2.2.2
      [Api.Reply.rejected (some ⟨401, none⟩)] [Api.RefreshReply.fulfilled (some "n")]
      (logoutRequest "r1")).1⟩

/-! ## The session store together with the adapter -/

theorem login_cases {υ : Type} (stringify : υ → String) (b : Api.Browser) (a : AuthState υ)
    (settled : Settled (LoginResponse υ)) :
    ((login stringify b a settled).2.2.isSuccess = true ∧
      (∃ user, (login stringify b a settled).2.1
        = { a with user := some user, isAuthenticated := true }) ∧
      (∃ access, (login stringify b a settled).1.storage.access_token = some access ∧
        access ≠ "") ∧
      (login stringify b a settled).1.storage.refresh_token.isSome = true ∧
      (login stringify b a settled).1.storage.aikshetra_user.isSome = true) ∨
    ((login stringify b a settled).2.2.isSuccess = false ∧
      (login stringify b a settled).2.1 = a ∧ (login stringify b a settled).1 = b) := by
  cases settled with
  | rejected error => exact Or.inr ⟨rfl, rfl, rfl⟩
  | fulfilled response =>
    cases hacc : Api.truthy response.access with
    | none =>
      have hl : login stringify b a (Settled.fulfilled response)
          = (b, a, LoginResult.failure "Invalid response from server") := by
        unfold login
        simp only [hacc]
      rw [hl]
      exact Or.inr ⟨rfl, rfl, rfl⟩
    | some access =>
      cases huser : response.user with
      | none =>
        have hl : login stringify b a (Settled.fulfilled response)
            = (b, a, LoginResult.failure "Invalid response from server") := by
          unfold login
          simp only [hacc, huser]
        rw [hl]
        exact Or.inr ⟨rfl, rfl, rfl⟩
      | some user =>
        have hl : login stringify b a (Settled.fulfilled response)
            = ({ b with storage :=
                  { access_token := some access
                    refresh_token := some (response.refresh.getD "undefined")
                    aikshetra_user := some (stringify user) } },
               { a with user := some user, isAuthenticated := true },
               LoginResult.success user) := by
          unfold login
          simp only [hacc, huser]
        rw [hl]
        exact Or.inl ⟨rfl, ⟨user, rfl⟩, ⟨access, rfl, (Api.eq_some_of_truthy _ _ hacc).2⟩,
          rfl, rfl⟩

/-- One step keeps the two facts: an identity in memory comes from a login, a
restore-and-verify or a profile update, and the authenticated flag comes with an
identity and from a login or a restore-and-verify. -/
theorem step_keeps_marks {υ : Type} (stringify : υ → String) (s : Session υ) (e : Step υ)
    (h₁ : s.auth.user.isSome = true → s.verified = true ∨ s.updated = true)
    (h₂ : s.auth.isAuthenticated = true → s.auth.user.isSome = true ∧ s.verified = true) :
    ((Session.step stringify s e).auth.user.isSome = true →
      (Session.step stringify s e).verified = true ∨
        (Session.step stringify s e).updated = true) ∧
    ((Session.step stringify s e).auth.isAuthenticated = true →
      (Session.step stringify s e).auth.user.isSome = true ∧
        (Session.step stringify s e).verified = true) := by
  cases e with
  | restore replies refreshes =>
    unfold Session.step
    simp only []
    by_cases hs : hasSavedSession s.browser.storage = true
    · rw [if_pos hs]
      cases (Api.api replies refreshes s.browser currentUserRequest).2 with
      | fulfilled userData =>
        exact ⟨fun _ => Or.inl rfl, fun _ => ⟨rfl, rfl⟩⟩
      | rejected error => exact ⟨h₁, h₂⟩
      | pending => exact ⟨h₁, h₂⟩
    · rw [if_neg hs]
      exact ⟨h₁, h₂⟩
  | login credentials replies refreshes =>
    unfold Session.step
    simp only []
    cases (Api.api replies refreshes s.browser (loginRequest credentials)).2 with
    | fulfilled response =>
      simp only []
      rcases login_cases stringify
        (Api.api replies refreshes s.browser (loginRequest credentials)).1 s.auth
        (Settled.fulfilled response) with ⟨hok, ⟨user, hauth⟩, _⟩ | ⟨hno, hauth, _⟩
      · rw [hauth, hok]
        exact ⟨fun _ => Or.inl (by simp), fun _ => ⟨rfl, by simp⟩⟩
      · rw [hauth, hno, Bool.or_false]
        exact ⟨h₁, h₂⟩
    | rejected error => exact ⟨h₁, h₂⟩
    | pending => exact ⟨h₁, h₂⟩
  | logout replies refreshes =>
    unfold Session.step
    simp only []
    exact ⟨fun h => (by cases h), fun h => (by cases h)⟩
  | updateUser profileData replies refreshes =>
    unfold Session.step
    simp only []
    cases (Api.api replies refreshes s.browser (profileRequest profileData)).2 with
    | fulfilled updatedUser =>
      refine ⟨fun _ => Or.inr rfl, fun h => ⟨rfl, ?_⟩⟩
      exact (h₂ h).2
    | rejected error => exact ⟨h₁, h₂⟩
    | pending => exact ⟨h₁, h₂⟩
  | request config replies refreshes => exact ⟨h₁, h₂⟩

theorem run_keeps_marks {υ : Type} (stringify : υ → String) (es : List (Step υ))
    (s : Session υ)
    (h₁ : s.auth.user.isSome = true → s.verified = true ∨ s.updated = true)
    (h₂ : s.auth.isAuthenticated = true → s.auth.user.isSome = true ∧ s.verified = true) :
    ((Session.run stringify s es).auth.user.isSome = true →
      (Session.run stringify s es).verified = true ∨
        (Session.run stringify s es).updated = true) ∧
    ((Session.run stringify s es).auth.isAuthenticated = true →
      (Session.run stringify s es).auth.user.isSome = true ∧
        (Session.run stringify s es).verified = true) := by
  induction es generalizing s with
  | nil => exact ⟨h₁, h₂⟩
  | cons e rest ih =>
    exact ih (Session.step stringify s e) (step_keeps_marks stringify s e h₁ h₂).1
      (step_keeps_marks stringify s e h₁ h₂).2

/-- C22 (fails on the code). First run: an access token and a saved identity are
persisted but no refresh token; `initializeAuth` verifies and sets the identity, so the
identity is present while no refresh token is persisted. Second run: both tokens are
persisted but no saved identity; `initializeAuth` makes no call, then a profile update
succeeds (the only request sent is the PATCH) and sets the identity, although neither a
login nor a restore-and-verify has succeeded and the authenticated flag is off. -/
theorem identity_without_refresh_token_or_login :
    ((Session.run (fun n : Nat => toString n) (Session.start none ⟨some "a", none, some "u"⟩)
        [Step.restore [Api.Reply.fulfilled 7] []]).auth.user = some 7 ∧
      (Session.run (fun n : Nat => toString n) (Session.start none ⟨some "a", none, some "u"⟩)
        [Step.restore [Api.Reply.fulfilled 7] []]).browser.storage.refresh_token = none) ∧
    ((Session.run (fun n : Nat => toString n) (Session.start none ⟨some "a", some "r", none⟩)
        [Step.restore [Api.Reply.fulfilled 7] [],
         Step.updateUser "p" [Api.Reply.fulfilled 7] []]).auth
        = ⟨some 7, false, false⟩ ∧
      (Session.run (fun n : Nat => toString n) (Session.start none ⟨some "a", some "r", none⟩)
        [Step.restore [Api.Reply.fulfilled 7] [],
         Step.updateUser "p" [Api.Reply.fulfilled 7] []]).verified = false ∧
      (Session.run (fun n : Nat => toString n) (Session.start none ⟨some "a", some "r", none⟩)
        [Step.restore [Api.Reply.fulfilled 7] [],
         Step.updateUser "p" [Api.Reply.fulfilled 7] []]).browser.calls
        = [Api.Call.request
            ⟨"patch", "/auth/profile/", "p",
              [("Content-Type", "application/json"), ("Authorization", "Bearer a")],
              false⟩]) := by
  decide

/-- C22 as amended. In every session state reached from a page load through
`initializeAuth`, `login`, `logout`, `updateUser` and requests through the adapter
(refresh handling included): the in-memory identity is present only if a login, a
restore-and-verify or a profile update has succeeded; the authenticated flag is set
only if a login or a restore-and-verify has succeeded, and then the identity is
present. A successful login leaves an access token, a refresh token and the identity
persisted, and `initializeAuth` verifies only when an access token and a saved identity
are persisted: without them it changes nothing but `loading`. -/
theorem session_marks {υ : Type} (stringify : υ → String) (apiUrl : Option String)
    (storage : Api.Storage) (es : List (Step υ)) :
    ((Session.run stringify (Session.start apiUrl storage) es).auth.user.isSome = true →
      (Session.run stringify (Session.start apiUrl storage) es).verified = true ∨
        (Session.run stringify (Session.start apiUrl storage) es).updated = true) ∧
    ((Session.run stringify (Session.start apiUrl storage) es).auth.isAuthenticated = true →
      (Session.run stringify (Session.start apiUrl storage) es).auth.user.isSome = true ∧
        (Session.run stringify (Session.start apiUrl storage) es).verified = true) ∧
    (∀ (b : Api.Browser) (a : AuthState υ) (settled : Settled (LoginResponse υ)),
      (login stringify b a settled).2.2.isSuccess = true →
      (∃ access, (login stringify b a settled).1.storage.access_token = some access ∧
        access ≠ "") ∧
      (login stringify b a settled).1.storage.refresh_token.isSome = true ∧
      (login stringify b a settled).1.storage.aikshetra_user.isSome = true) ∧
    (∀ (s : Session υ) (replies : List (Api.Reply υ)) (refreshes : List Api.RefreshReply),
      hasSavedSession s.browser.storage = false →
      Session.step stringify s (Step.restore replies refreshes)
        = { s with auth := { s.auth with loading := false } }) := by
  refine ⟨(run_keeps_marks stringify es (Session.start apiUrl storage)
      (fun h => by cases h) (fun h => by cases h)).1,
    (run_keeps_marks stringify es (Session.start apiUrl storage)
      (fun h => by cases h) (fun h => by cases h)).2, ?_, ?_⟩
  · intro b a settled hok
    rcases login_cases stringify b a settled with ⟨_, _, h₃, h₄, h₅⟩ | ⟨hno, _, _⟩
    · exact ⟨h₃, h₄, h₅⟩
    · rw [hno] at hok
      cases hok
  · intro s replies refreshes hs
    unfold Session.step
    simp only [hs]
    rfl

/-- C22 as amended, for a page load with tokens and identity persisted whose
who-am-I call succeeds: the flag is set, the identity is present and the restore is
on record. -/
theorem session_marks_witness :
    (Session.run (fun n : Nat => toString n) (Session.start none ⟨some "a", some "r", some "u"⟩)
        [Step.restore [Api.Reply.fulfilled 7] []]).auth.isAuthenticated = true ∧
    (Session.run (fun n : Nat => toString n) (Session.start none ⟨some "a", some "r", some "u"⟩)
        [Step.restore [Api.Reply.fulfilled 7] []]).auth.user.isSome = true ∧
    (Session.run (fun n : Nat => toString n) (Session.start none ⟨some "a", some "r", some "u"⟩)
        [Step.restore [Api.Reply.fulfilled 7] []]).verified = true :=
  ⟨by decide,
   (session_marks (fun n : Nat => toString n) none ⟨some "a", some "r", some "u"⟩
      [Step.restore [Api.Reply.fulfilled 7] []]).2.1 (by decide)⟩

end AuthContext

namespace AuthProvider

/-! ## The session store as called: supporting facts -/

theorem initializeAuth_fulfilled {υ : Type} (replies : List (Api.Reply υ))
    (refreshes : List Api.RefreshReply) (b : Api.Browser) (a : AuthContext.AuthState υ)
    (userData : υ) (hs : AuthContext.hasSavedSession b.storage = true)
    (h : (authAPI.getCurrentUser replies refreshes b).2 = Api.Outcome.fulfilled userData) :
    initializeAuth replies refreshes b a =
      ((authAPI.getCurrentUser replies refreshes b).1,
        { user := some userData, isAuthenticated := true, loading := false }) := by
  unfold initializeAuth
  rw [if_pos hs, h]
  rfl

theorem initializeAuth_rejected {υ : Type} (replies : List (Api.Reply υ))
    (refreshes : List Api.RefreshReply) (b : Api.Browser) (a : AuthContext.AuthState υ)
    (error : Api.AxiosError) (hs : AuthContext.hasSavedSession b.storage = true)
    (h : (authAPI.getCurrentUser replies refreshes b).2 = Api.Outcome.rejected error) :
    initializeAuth replies refreshes b a =
      ({ (authAPI.getCurrentUser replies refreshes b).1 with
          storage := { access_token := none, refresh_token := none, aikshetra_user := none } },
        { a with loading := false }) := by
  unfold initializeAuth
  rw [if_pos hs, h]
  rfl

theorem initializeAuth_pending {υ : Type} (replies : List (Api.Reply υ))
    (refreshes : List Api.RefreshReply) (b : Api.Browser) (a : AuthContext.AuthState υ)
    (hs : AuthContext.hasSavedSession b.storage = true)
    (h : (authAPI.getCurrentUser replies refreshes b).2 = Api.Outcome.pending) :
    initializeAuth replies refreshes b a = ((authAPI.getCurrentUser replies refreshes b).1, a) := by
  unfold initializeAuth
  rw [if_pos hs, h]

theorem login_fulfilled {υ : Type} (stringify : υ → String)
    (replies : List (Api.Reply (AuthContext.LoginResponse υ)))
    (refreshes : List Api.RefreshReply) (b : Api.Browser) (a : AuthContext.AuthState υ)
    (credentials : String) (response : AuthContext.LoginResponse υ)
    (h : (authAPI.login replies refreshes b credentials).2 = Api.Outcome.fulfilled response) :
    login stringify replies refreshes b a credentials =
      ((AuthContext.login stringify (authAPI.login replies refreshes b credentials).1 a
          (AuthContext.Settled.fulfilled response)).1,
        (AuthContext.login stringify (authAPI.login replies refreshes b credentials).1 a
          (AuthContext.Settled.fulfilled response)).2.1,
        some (AuthContext.login stringify (authAPI.login replies refreshes b credentials).1 a
          (AuthContext.Settled.fulfilled response)).2.2) := by
  unfold login
  rw [h]

theorem login_rejected {υ : Type} (stringify : υ → String)
    (replies : List (Api.Reply (AuthContext.LoginResponse υ)))
    (refreshes : List Api.RefreshReply) (b : Api.Browser) (a : AuthContext.AuthState υ)
    (credentials : String) (error : Api.AxiosError)
    (h : (authAPI.login replies refreshes b credentials).2 = Api.Outcome.rejected error) :
    login stringify replies refreshes b a credentials =
      ((authAPI.login replies refreshes b credentials).1, a,
        some (AuthContext.LoginResult.failure (AuthContext.loginErrorMessage error))) := by
  unfold login
  rw [h]
  rfl

theorem updateUser_fulfilled {υ : Type} (stringify : υ → String) (replies : List (Api.Reply υ))
    (refreshes : List Api.RefreshReply) (b : Api.Browser) (a : AuthContext.AuthState υ)
    (profileData : String) (updatedUser : υ)
    (h : (authAPI.updateProfile replies refreshes b profileData).2
      = Api.Outcome.fulfilled updatedUser) :
    updateUser stringify replies refreshes b a profileData =
      ({ (authAPI.updateProfile replies refreshes b profileData).1 with
          storage :=
            { (authAPI.updateProfile replies refreshes b profileData).1.storage with
              aikshetra_user := some (stringify updatedUser) } },
        { a with user := some updatedUser },
        some (AuthContext.LoginResult.success updatedUser)) := by
  unfold updateUser
  rw [h]
  rfl

theorem updateUser_rejected {υ : Type} (stringify : υ → String) (replies : List (Api.Reply υ))
    (refreshes : List Api.RefreshReply) (b : Api.Browser) (a : AuthContext.AuthState υ)
    (profileData : String) (error : Api.AxiosError)
    (h : (authAPI.updateProfile replies refreshes b profileData).2
      = Api.Outcome.rejected error) :
    updateUser stringify replies refreshes b a profileData =
      ((authAPI.updateProfile replies refreshes b profileData).1, a,
        some (AuthContext.LoginResult.failure (AuthContext.updateErrorMessage error))) := by
  unfold updateUser
  rw [h]
  rfl

/-- The steps of a session are the functions of the provider: `Session.step` and the
definitions above agree on the browser and on the React state. -/
theorem step_eq_provider {υ : Type} (stringify : υ → String) (s : AuthContext.Session υ) :
    (∀ replies refreshes,
      ((AuthContext.Session.step stringify s
          (AuthContext.Step.restore replies refreshes)).browser,
        (AuthContext.Session.step stringify s
          (AuthContext.Step.restore replies refreshes)).auth)
        = initializeAuth replies refreshes s.browser s.auth) ∧
    (∀ credentials replies refreshes,
      (AuthContext.Session.step stringify s
          (AuthContext.Step.login credentials replies refreshes)).browser
        = (login stringify replies refreshes s.browser s.auth credentials).1 ∧
      (AuthContext.Session.step stringify s
          (AuthContext.Step.login credentials replies refreshes)).auth
        = (login stringify replies refreshes s.browser s.auth credentials).2.1) ∧
    (∀ profileData replies refreshes,
      (AuthContext.Session.step stringify s
          (AuthContext.Step.updateUser profileData replies refreshes)).browser
        = (updateUser stringify replies refreshes s.browser s.auth profileData).1 ∧
      (AuthContext.Session.step stringify s
          (AuthContext.Step.updateUser profileData replies refreshes)).auth
        = (updateUser stringify replies refreshes s.browser s.auth profileData).2.1) := by
  refine ⟨?_, ?_, ?_⟩
  · intro replies refreshes
    unfold AuthContext.Session.step initializeAuth authAPI.getCurrentUser
    simp only []
    by_cases hs : AuthContext.hasSavedSession s.browser.storage = true
    · rw [if_pos hs, if_pos hs]
      cases (Api.api replies refreshes s.browser AuthContext.currentUserRequest).2 <;> rfl
    · rw [if_neg hs, if_neg hs]
  · intro credentials replies refreshes
    unfold AuthContext.Session.step login authAPI.login
    simp only []
    cases (Api.api replies refreshes s.browser (AuthContext.loginRequest credentials)).2 <;>
      exact ⟨rfl, rfl⟩
  · intro profileData replies refreshes
    unfold AuthContext.Session.step updateUser authAPI.updateProfile
    simp only []
    cases (Api.api replies refreshes s.browser (AuthContext.profileRequest profileData)).2 <;>
      exact ⟨rfl, rfl⟩

/-! ## The claims about the session store as called -/

/-- C19 (fails on the code). Tokens and identity are persisted; `login` is called,
the login request is answered 401, the adapter refreshes the access token to "n" and
retries, and the retry is answered with a body that has no access token. `login`
returns the failure, and the persisted access token is no longer "a" but "n". -/
theorem invalid_response_after_refresh_changes_token :
    (login (fun n : Nat => toString n)
        [Api.Reply.rejected (some ⟨401, none⟩), Api.Reply.fulfilled ⟨none, none, some 7⟩]
        [Api.RefreshReply.fulfilled (some "n")]
        ⟨none, ⟨some "a", some "r", some "u"⟩, [], []⟩ ⟨none, false, false⟩ "c").2.2
      = some (AuthContext.LoginResult.failure "Invalid response from server") ∧
    (login (fun n : Nat => toString n)
        [Api.Reply.rejected (some ⟨401, none⟩), Api.Reply.fulfilled ⟨none, none, some 7⟩]
        [Api.RefreshReply.fulfilled (some "n")]
        ⟨none, ⟨some "a", some "r", some "u"⟩, [], []⟩ ⟨none, false, false⟩ "c").1.storage
      = ⟨some "n", some "r", some "u"⟩ := by
  decide

/-- C19 as amended. The login call is answered with a body, either at once or, after
a 401 and a token refresh by the adapter, on the one retry. If the body contains an
access token (a non-empty string) and an identity, `login` persists the access token,
the refresh token of the body (the text "undefined" if the body has none) and the
serialized identity, sets the in-memory identity and the authenticated flag, and
returns `{ success: true, user }`. If either is missing, `login` persists nothing
itself, leaves the in-memory session unchanged and returns the failure "Invalid
response from server"; the persisted state is then as before the call when the body
answered the request itself, and has the refreshed access token in place of the old
one when it answered the retry. Nothing is redirected. -/
theorem login_response_spec {υ : Type} (stringify : υ → String)
    (replies : List (Api.Reply (AuthContext.LoginResponse υ)))
    (refreshes : List Api.RefreshReply) (b : Api.Browser) (a : AuthContext.AuthState υ)
    (credentials : String) (response : AuthContext.LoginResponse υ)
    (h : (authAPI.login replies refreshes b credentials).2 = Api.Outcome.fulfilled response) :
    (∀ access user, Api.truthy response.access = some access → response.user = some user →
      response.access = some access ∧
      login stringify replies refreshes b a credentials =
        ({ (authAPI.login replies refreshes b credentials).1 with
            storage :=
              { access_token := some access
                refresh_token := some (response.refresh.getD "undefined")
                aikshetra_user := some (stringify user) } },
          { a with user := some user, isAuthenticated := true },
          some (AuthContext.LoginResult.success user))) ∧
    (Api.truthy response.access = none ∨ response.user = none →
      login stringify replies refreshes b a credentials =
        ((authAPI.login replies refreshes b credentials).1, a,
          some (AuthContext.LoginResult.failure "Invalid response from server"))) ∧
    (authAPI.login replies refreshes b credentials).1.redirects = b.redirects ∧
    ((∃ rest, replies = Api.Reply.fulfilled response :: rest ∧
        (authAPI.login replies refreshes b credentials).1.storage = b.storage) ∨
      (∃ first rest refreshToken access refreshes₁,
        replies = Api.Reply.rejected first :: Api.Reply.fulfilled response :: rest ∧
        first.map Api.ErrorResponse.status = some 401 ∧
        Api.truthy b.storage.refresh_token = some refreshToken ∧
        refreshes = Api.RefreshReply.fulfilled access :: refreshes₁ ∧
        (authAPI.login replies refreshes b credentials).1.storage
          = { b.storage with access_token := some (access.getD "undefined") })) := by
  refine ⟨?_, ?_, ?_⟩
  · intro access user hacc huser
    refine ⟨(Api.eq_some_of_truthy _ _ hacc).1, ?_⟩
    rw [login_fulfilled stringify replies refreshes b a credentials response h]
    have hl : AuthContext.login stringify (authAPI.login replies refreshes b credentials).1 a
        (AuthContext.Settled.fulfilled response) =
        ({ (authAPI.login replies refreshes b credentials).1 with
            storage :=
              { access_token := some access
                refresh_token := some (response.refresh.getD "undefined")
                aikshetra_user := some (stringify user) } },
          { a with user := some user, isAuthenticated := true },
          AuthContext.LoginResult.success user) := by
      unfold AuthContext.login
      simp only [hacc, huser]
    rw [hl]
  · intro hlack
    rw [login_fulfilled stringify replies refreshes b a credentials response h]
    have hl : AuthContext.login stringify (authAPI.login replies refreshes b credentials).1 a
        (AuthContext.Settled.fulfilled response) =
        ((authAPI.login replies refreshes b credentials).1, a,
          AuthContext.LoginResult.failure "Invalid response from server") := by
      unfold AuthContext.login
      rcases hlack with hlack | hlack
      · simp only [hlack]
      · simp only [hlack]
        cases Api.truthy response.access <;> rfl
    rw [hl]
  · exact Api.api_fulfilled_cases replies refreshes b (AuthContext.loginRequest credentials)
      response rfl h

/-- C19 as amended, with tokens and identity persisted: for the body
`{access: "a1", refresh: "r1", user: 7}` answering the retry after a 401 and a refresh,
and for a body without access token answering the request itself. -/
theorem login_response_spec_witness :
    ((authAPI.login
        [Api.Reply.rejected (some ⟨401, none⟩),
         Api.Reply.fulfilled (⟨some "a1", some "r1", some 7⟩ : AuthContext.LoginResponse Nat)]
        [Api.RefreshReply.fulfilled (some "n")]
        ⟨none, ⟨some "a", some "r", some "u"⟩, [], []⟩ "c").2
        = Api.Outcome.fulfilled ⟨some "a1", some "r1", some 7⟩ ∧
      Api.truthy (some "a1") = some "a1" ∧ Api.truthy none = none) ∧
    login (fun n : Nat => toString n)
        [Api.Reply.rejected (some ⟨401, none⟩),
         Api.Reply.fulfilled ⟨some "a1", some "r1", some 7⟩]
        [Api.RefreshReply.fulfilled (some "n")]
        ⟨none, ⟨some "a", some "r", some "u"⟩, [], []⟩ ⟨none, false, false⟩ "c"
      = (⟨none, ⟨some "a1", some "r1", some "7"⟩, [],
          [Api.Call.request
            ⟨"post", "/auth/login/", "c",
              [("Content-Type", "application/json"), ("Authorization", "Bearer a")], false⟩,
           Api.Call.refresh "http://localhost:8000/api/auth/token/refresh/" "r",
           Api.Call.request
            ⟨"post", "/auth/login/", "c",
              [("Content-Type", "application/json"), ("Authorization", "Bearer n")],
              true⟩]⟩,
         ⟨some 7, true, false⟩, some (AuthContext.LoginResult.success 7)) ∧
    login (fun n : Nat => toString n)
        [Api.Reply.fulfilled ⟨none, some "r1", some 7⟩] []
        ⟨none, ⟨some "a", some "r", some "u"⟩, [], []⟩ ⟨none, false, false⟩ "c"
      = (⟨none, ⟨some "a", some "r", some "u"⟩, [],
          [Api.Call.request
            ⟨"post", "/auth/login/", "c",
              [("Content-Type", "application/json"), ("Authorization", "Bearer a")],
              false⟩]⟩,
         ⟨none, false, false⟩,
         some (AuthContext.LoginResult.failure "Invalid response from server")) :=
  ⟨⟨rfl, by decide, by decide⟩,
   ((login_response_spec (fun n : Nat => toString n)
      [Api.Reply.rejected (some ⟨401, none⟩),
       Api.Reply.fulfilled ⟨some "a1", some "r1", some 7⟩]
      [Api.RefreshReply.fulfilled (some "n")]
      ⟨none, ⟨some "a", some "r", some "u"⟩, [], []⟩ ⟨none, false, false⟩ "c"
      ⟨some "a1", some "r1", some 7⟩ rfl).1 "a1" 7 (by decide) rfl).2,
   (login_response_spec (fun n : Nat => toString n)
      [Api.Reply.fulfilled ⟨none, some "r1", some 7⟩] []
      ⟨none, ⟨some "a", some "r", some "u"⟩, [], []⟩ ⟨none, false, false⟩ "c"
      ⟨none, some "r1", some 7⟩ rfl).2.1 (Or.inl (by decide))⟩

/-- C20 (fails on the code). Tokens and identity are persisted and `login` is
called with wrong credentials, which the server answers 401. In the first run the
refresh call fails: the three persisted items are gone and "/login" is assigned. In
the second the refresh is answered with "n" and the retry is answered 401 again: the
persisted access token is now "n". Both times `login` returns the failure. -/
theorem login_failure_changes_storage :
    (login (fun n : Nat => toString n)
        [Api.Reply.rejected (some ⟨401, some ⟨some "No active account", none⟩⟩)]
        [Api.RefreshReply.rejected]
        ⟨none, ⟨some "a", some "r", some "u"⟩, [], []⟩ ⟨none, false, false⟩ "c").2.2
      = some (AuthContext.LoginResult.failure "No active account") ∧
    (login (fun n : Nat => toString n)
        [Api.Reply.rejected (some ⟨401, some ⟨some "No active account", none⟩⟩)]
        [Api.RefreshReply.rejected]
        ⟨none, ⟨some "a", some "r", some "u"⟩, [], []⟩ ⟨none, false, false⟩ "c").1.storage
      = ⟨none, none, none⟩ ∧
    (login (fun n : Nat => toString n)
        [Api.Reply.rejected (some ⟨401, some ⟨some "No active account", none⟩⟩)]
        [Api.RefreshReply.rejected]
        ⟨none, ⟨some "a", some "r", some "u"⟩, [], []⟩ ⟨none, false, false⟩ "c").1.redirects
      = ["/login"] ∧
    (login (fun n : Nat => toString n)
        [Api.Reply.rejected (some ⟨401, some ⟨some "No active account", none⟩⟩),
         Api.Reply.rejected (some ⟨401, some ⟨some "No active account", none⟩⟩)]
        [Api.RefreshReply.fulfilled (some "n")]
        ⟨none, ⟨some "a", some "r", some "u"⟩, [], []⟩ ⟨none, false, false⟩ "c").2.2
      = some (AuthContext.LoginResult.failure "No active account") ∧
    (login (fun n : Nat => toString n)
        [Api.Reply.rejected (some ⟨401, some ⟨some "No active account", none⟩⟩),
         Api.Reply.rejected (some ⟨401, some ⟨some "No active account", none⟩⟩)]
        [Api.RefreshReply.fulfilled (some "n")]
        ⟨none, ⟨some "a", some "r", some "u"⟩, [], []⟩ ⟨none, false, false⟩ "c").1.storage
      = ⟨some "n", some "r", some "u"⟩ := by
  decide

/-- C20 as amended. The login call fails. Then `login` returns
`{ success: false, error: m }`, where `m` is the `detail` of the payload of the
rejection that reached it if there is one (a non-empty string), else the first entry
of `non_field_errors` if there is one, else "Login failed"; the in-memory session is
as it was and `login` persists nothing itself. The persisted session is as it was
when the rejection was not a 401 or no refresh token was persisted. Otherwise the
adapter has handled the 401 before `login` returns: after an answered refresh and a
rejected retry the persisted access token is the refreshed one and nothing else
changed; after a failed refresh the three persisted items are removed and "/login" is
assigned. -/
theorem login_failure_spec {υ : Type} (stringify : υ → String)
    (replies : List (Api.Reply (AuthContext.LoginResponse υ)))
    (refreshes : List Api.RefreshReply) (b : Api.Browser) (a : AuthContext.AuthState υ)
    (credentials : String) (error : Api.AxiosError)
    (h : (authAPI.login replies refreshes b credentials).2 = Api.Outcome.rejected error) :
    login stringify replies refreshes b a credentials =
      ((authAPI.login replies refreshes b credentials).1, a,
        some (AuthContext.LoginResult.failure (AuthContext.loginErrorMessage error))) ∧
    (∀ detail,
      Api.truthy ((error.response.bind Api.ErrorResponse.data).bind Api.ErrorData.detail)
        = some detail →
      AuthContext.loginErrorMessage error = detail) ∧
    (Api.truthy ((error.response.bind Api.ErrorResponse.data).bind Api.ErrorData.detail)
        = none →
      (∀ first,
        Api.truthy (((error.response.bind Api.ErrorResponse.data).bind
          Api.ErrorData.non_field_errors).bind List.head?) = some first →
        AuthContext.loginErrorMessage error = first) ∧
      (Api.truthy (((error.response.bind Api.ErrorResponse.data).bind
          Api.ErrorData.non_field_errors).bind List.head?) = none →
        AuthContext.loginErrorMessage error = "Login failed")) ∧
    ((∃ response rest, replies = Api.Reply.rejected response :: rest ∧
        (response.map Api.ErrorResponse.status ≠ some 401 ∨
          Api.truthy b.storage.refresh_token = none) ∧
        error.response = response ∧
        (authAPI.login replies refreshes b credentials).1.storage = b.storage ∧
        (authAPI.login replies refreshes b credentials).1.redirects = b.redirects) ∨
      (∃ response response₂ rest refreshToken access refreshes₁,
        replies = Api.Reply.rejected response :: Api.Reply.rejected response₂ :: rest ∧
        response.map Api.ErrorResponse.status = some 401 ∧
        Api.truthy b.storage.refresh_token = some refreshToken ∧
        refreshes = Api.RefreshReply.fulfilled access :: refreshes₁ ∧
        error.response = response₂ ∧
        (authAPI.login replies refreshes b credentials).1.storage
          = { b.storage with access_token := some (access.getD "undefined") } ∧
        (authAPI.login replies refreshes b credentials).1.redirects = b.redirects) ∨
      (∃ response rest refreshToken r refreshes₁,
        replies = Api.Reply.rejected response :: rest ∧
        response.map Api.ErrorResponse.status = some 401 ∧
        Api.truthy b.storage.refresh_token = some refreshToken ∧
        refreshes = r :: refreshes₁ ∧
        (r = Api.RefreshReply.malformed ∨ r = Api.RefreshReply.rejected) ∧
        error.response = response ∧
        (authAPI.login replies refreshes b credentials).1.storage
          = { access_token := none, refresh_token := none, aikshetra_user := none } ∧
        (authAPI.login replies refreshes b credentials).1.redirects
          = b.redirects ++ ["/login"])) := by
  refine ⟨login_rejected stringify replies refreshes b a credentials error h, ?_, ?_,
    Api.api_rejected_cases replies refreshes b (AuthContext.loginRequest credentials) error
      rfl h⟩
  · intro detail hd
    unfold AuthContext.loginErrorMessage
    rw [hd]
  · intro hd
    refine ⟨?_, ?_⟩
    · intro first hf
      unfold AuthContext.loginErrorMessage
      rw [hd]
      simp only []
      rw [hf]
    · intro hf
      unfold AuthContext.loginErrorMessage
      rw [hd]
      simp only []
      rw [hf]

/-- C20 as amended, for a login answered 400 with only `non_field_errors` in the
payload, while tokens and identity are persisted: the storage is as it was. -/
theorem login_failure_spec_witness :
    ((authAPI.login ([Api.Reply.rejected
          (some ⟨400, some ⟨none, some ["Bad credentials", "x"]⟩⟩)] :
          List (Api.Reply (AuthContext.LoginResponse Nat))) []
        ⟨none, ⟨some "a", some "r", some "u"⟩, [], []⟩ "c").2
        = Api.Outcome.rejected
            ⟨⟨"post", "/auth/login/", "c",
              [("Content-Type", "application/json"), ("Authorization", "Bearer a")], false⟩,
             some ⟨400, some ⟨none, some ["Bad credentials", "x"]⟩⟩⟩) ∧
    login (fun n : Nat => toString n)
        [Api.Reply.rejected (some ⟨400, some ⟨none, some ["Bad credentials", "x"]⟩⟩)] []
        ⟨none, ⟨some "a", some "r", some "u"⟩, [], []⟩ ⟨none, false, false⟩ "c"
      = (⟨none, ⟨some "a", some "r", some "u"⟩, [],
          [Api.Call.request
            ⟨"post", "/auth/login/", "c",
              [("Content-Type", "application/json"), ("Authorization", "Bearer a")],
              false⟩]⟩,
         ⟨none, false, false⟩, some (AuthContext.LoginResult.failure "Bad credentials")) :=
  ⟨rfl,
   (login_failure_spec (fun n : Nat => toString n)
      [Api.Reply.rejected (some ⟨400, some ⟨none, some ["Bad credentials", "x"]⟩⟩)] []
      ⟨none, ⟨some "a", some "r", some "u"⟩, [], []⟩ ⟨none, false, false⟩ "c"
      ⟨⟨"post", "/auth/login/", "c",
        [("Content-Type", "application/json"), ("Authorization", "Bearer a")], false⟩,
       some ⟨400, some ⟨none, some ["Bad credentials", "x"]⟩⟩⟩ rfl).1⟩

/-- C21 (fails on the code). At startup an access token and a refresh token are
persisted but no saved identity: `initializeAuth` sends nothing (the server would have
answered the who-am-I call), ends unauthenticated, and leaves both tokens persisted. -/
theorem restore_skips_without_saved_identity :
    initializeAuth [Api.Reply.fulfilled 7] []
        ⟨none, ⟨some "a", some "r", none⟩, [], []⟩ ⟨none, false, true⟩
      = (⟨none, ⟨some "a", some "r", none⟩, [], []⟩, ⟨none, false, false⟩) := by
  decide

/-- C21 as amended. `initializeAuth` makes the who-am-I call exactly when an access
token and a saved identity are both persisted (non-empty); the refresh token plays no
part in that. Without them it sends nothing and changes nothing but `loading`. With
them the call goes out; while it has not settled the React state is as it was. If the
call is fulfilled, at once or on the retry after a 401 and a token refresh, restore
ends authenticated with the identity set to the result; nothing is redirected, and the
persisted state is untouched, except that after a refresh the access token is the
refreshed one. If the call is rejected, the persisted access token, refresh token and
identity are removed and the in-memory identity and flag stay as at startup; "/login"
is assigned only when the adapter's refresh of a 401 failed. -/
theorem initializeAuth_restore {υ : Type} (replies : List (Api.Reply υ))
    (refreshes : List Api.RefreshReply) (b : Api.Browser) (a : AuthContext.AuthState υ) :
    (AuthContext.hasSavedSession b.storage = false →
      initializeAuth replies refreshes b a = (b, { a with loading := false })) ∧
    (AuthContext.hasSavedSession b.storage = true →
      (∃ more, (initializeAuth replies refreshes b a).1.calls
        = b.calls ++
            Api.Call.request
              (Api.requestInterceptor b.storage AuthContext.currentUserRequest) :: more) ∧
      (∀ userData,
        (authAPI.getCurrentUser replies refreshes b).2 = Api.Outcome.fulfilled userData →
        (initializeAuth replies refreshes b a).2
          = { user := some userData, isAuthenticated := true, loading := false } ∧
        (initializeAuth replies refreshes b a).1.redirects = b.redirects ∧
        ((∃ rest, replies = Api.Reply.fulfilled userData :: rest ∧
            (initializeAuth replies refreshes b a).1.storage = b.storage) ∨
          (∃ first rest refreshToken access refreshes₁,
            replies = Api.Reply.rejected first :: Api.Reply.fulfilled userData :: rest ∧
            first.map Api.ErrorResponse.status = some 401 ∧
            Api.truthy b.storage.refresh_token = some refreshToken ∧
            refreshes = Api.RefreshReply.fulfilled access :: refreshes₁ ∧
            (initializeAuth replies refreshes b a).1.storage
              = { b.storage with access_token := some (access.getD "undefined") }))) ∧
      (∀ error,
        (authAPI.getCurrentUser replies refreshes b).2 = Api.Outcome.rejected error →
        (initializeAuth replies refreshes b a).2 = { a with loading := false } ∧
        (initializeAuth replies refreshes b a).1.storage
          = { access_token := none, refresh_token := none, aikshetra_user := none } ∧
        ((initializeAuth replies refreshes b a).1.redirects = b.redirects ∨
          (∃ response rest refreshToken r refreshes₁,
            replies = Api.Reply.rejected response :: rest ∧
            response.map Api.ErrorResponse.status = some 401 ∧
            Api.truthy b.storage.refresh_token = some refreshToken ∧
            refreshes = r :: refreshes₁ ∧
            (r = Api.RefreshReply.malformed ∨ r = Api.RefreshReply.rejected) ∧
            (initializeAuth replies refreshes b a).1.redirects
              = b.redirects ++ ["/login"]))) ∧
      ((authAPI.getCurrentUser replies refreshes b).2 = Api.Outcome.pending →
        (initializeAuth replies refreshes b a).2 = a ∧
        (initializeAuth replies refreshes b a).1.storage
          = (authAPI.getCurrentUser replies refreshes b).1.storage)) ∧
    (AuthContext.hasSavedSession b.storage = true ↔
      ∃ token saved, b.storage.access_token = some token ∧ token ≠ "" ∧
        b.storage.aikshetra_user = some saved ∧ saved ≠ "") := by
  refine ⟨?_, ?_, AuthContext.hasSavedSession_iff b.storage⟩
  · intro hs
    unfold initializeAuth
    rw [hs]
    rfl
  · intro hs
    refine ⟨?_, ?_, ?_, ?_⟩
    · obtain ⟨more, hmore⟩ := Api.api_sends replies refreshes b AuthContext.currentUserRequest rfl
      cases hout : (authAPI.getCurrentUser replies refreshes b).2 with
      | fulfilled userData =>
        rw [initializeAuth_fulfilled replies refreshes b a userData hs hout]
        exact ⟨more, hmore⟩
      | rejected error =>
        rw [initializeAuth_rejected replies refreshes b a error hs hout]
        exact ⟨more, hmore⟩
      | pending =>
        rw [initializeAuth_pending replies refreshes b a hs hout]
        exact ⟨more, hmore⟩
    · intro userData hout
      rw [initializeAuth_fulfilled replies refreshes b a userData hs hout]
      exact ⟨rfl,
        Api.api_fulfilled_cases replies refreshes b AuthContext.currentUserRequest userData
          rfl hout⟩
    · intro error hout
      rw [initializeAuth_rejected replies refreshes b a error hs hout]
      refine ⟨rfl, rfl, ?_⟩
      rcases Api.api_rejected_cases replies refreshes b AuthContext.currentUserRequest error
        rfl hout with ⟨_, _, _, _, _, _, hr⟩ | ⟨_, _, _, _, _, _, _, _, _, _, _, _, hr⟩ |
        ⟨response, rest, refreshToken, r, refreshes₁, h₁, h₂, h₃, h₄, h₅, _, _, hr⟩
      · exact Or.inl hr
      · exact Or.inl hr
      · exact Or.inr ⟨response, rest, refreshToken, r, refreshes₁, h₁, h₂, h₃, h₄, h₅, hr⟩
    · intro hout
      rw [initializeAuth_pending replies refreshes b a hs hout]
      exact ⟨rfl, rfl⟩

/-- C21 as amended, for a page load with tokens and identity persisted whose
who-am-I call is answered 401 with an expired access token: the adapter refreshes it
to "n", the retry is answered with the identity 7, and restore ends authenticated with
the refreshed access token persisted. -/
theorem initializeAuth_restore_witness :
    (AuthContext.hasSavedSession ⟨some "a", some "r", some "u"⟩ = true ∧
      (authAPI.getCurrentUser [Api.Reply.rejected (some ⟨401, none⟩), Api.Reply.fulfilled 7]
        [Api.RefreshReply.fulfilled (some "n")]
        ⟨none, ⟨some "a", some "r", some "u"⟩, [], []⟩).2 = Api.Outcome.fulfilled 7) ∧
    (initializeAuth [Api.Reply.rejected (some ⟨401, none⟩), Api.Reply.fulfilled 7]
        [Api.RefreshReply.fulfilled (some "n")]
        ⟨none, ⟨some "a", some "r", some "u"⟩, [], []⟩ ⟨none, false, true⟩).2
      = ⟨some 7, true, false⟩ ∧
    (initializeAuth [Api.Reply.rejected (some ⟨401, none⟩), Api.Reply.fulfilled 7]
        [Api.RefreshReply.fulfilled (some "n")]
        ⟨none, ⟨some "a", some "r", some "u"⟩, [], []⟩ ⟨none, false, true⟩).1.storage
      = ⟨some "n", some "r", some "u"⟩ :=
  ⟨⟨by decide, rfl⟩,
   (((initializeAuth_restore [Api.Reply.rejected (some ⟨401, none⟩), Api.Reply.fulfilled 7]
      [Api.RefreshReply.fulfilled (some "n")]
      ⟨none, ⟨some "a", some "r", some "u"⟩, [], []⟩ ⟨none, false, true⟩).2.1
      (by decide)).2.1 7 rfl).1,
   by decide⟩

/-- C24 (fails on the code). Tokens and identity are persisted and the profile
update is answered 401. In the first run the refresh call fails: `updateUser` returns
the failure, and the three persisted items are gone and "/login" is assigned. In the
second the refresh is answered with "n" and the retry is answered 400: `updateUser`
returns the failure and the persisted access token is now "n". -/
theorem update_failure_changes_storage :
    updateUser (fun n : Nat => toString n) [Api.Reply.rejected (some ⟨401, none⟩)]
        [Api.RefreshReply.rejected]
        ⟨none, ⟨some "a", some "r", some "u"⟩, [], []⟩ ⟨some 7, true, false⟩ "p"
      = (⟨none, ⟨none, none, none⟩, ["/login"],
          [Api.Call.request
            ⟨"patch", "/auth/profile/", "p",
              [("Content-Type", "application/json"), ("Authorization", "Bearer a")], false⟩,
           Api.Call.refresh "http://localhost:8000/api/auth/token/refresh/" "r"]⟩,
         ⟨some 7, true, false⟩,
         some (AuthContext.LoginResult.failure "Profile update failed")) ∧
    (updateUser (fun n : Nat => toString n)
        [Api.Reply.rejected (some ⟨401, none⟩),
         Api.Reply.rejected (some ⟨400, some ⟨some "Invalid data", none⟩⟩)]
        [Api.RefreshReply.fulfilled (some "n")]
        ⟨none, ⟨some "a", some "r", some "u"⟩, [], []⟩ ⟨some 7, true, false⟩ "p").2.2
      = some (AuthContext.LoginResult.failure "Invalid data") ∧
    (updateUser (fun n : Nat => toString n)
        [Api.Reply.rejected (some ⟨401, none⟩),
         Api.Reply.rejected (some ⟨400, some ⟨some "Invalid data", none⟩⟩)]
        [Api.RefreshReply.fulfilled (some "n")]
        ⟨none, ⟨some "a", some "r", some "u"⟩, [], []⟩ ⟨some 7, true, false⟩ "p").1.storage
      = ⟨some "n", some "r", some "u"⟩ := by
  decide

/-- C24 as amended. When the profile update is fulfilled, at once or on the retry
after a 401 and a token refresh, the in-memory identity and the persisted identity are
replaced by the returned one (serialized) and `{ success: true, user }` is returned;
the tokens are as they were, except that after a refresh the access token is the
refreshed one. When it is rejected, `updateUser` returns `{ success: false, error }`
with the `detail` of the payload of the rejection that reached it if there is one (a
non-empty string), else "Profile update failed", leaves the in-memory identity as it
was and persists nothing itself. The persisted identity and tokens are then as they
were when the rejection was not a 401 or no refresh token was persisted. Otherwise the
adapter has handled the 401 before `updateUser` returns: after an answered refresh
and a rejected retry the persisted access token is the refreshed one and nothing else
changed; after a failed refresh the three persisted items are removed and "/login" is
assigned. -/
theorem updateUser_outcomes {υ : Type} (stringify : υ → String) (replies : List (Api.Reply υ))
    (refreshes : List Api.RefreshReply) (b : Api.Browser) (a : AuthContext.AuthState υ)
    (profileData : String) :
    (∀ updatedUser,
      (authAPI.updateProfile replies refreshes b profileData).2
        = Api.Outcome.fulfilled updatedUser →
      updateUser stringify replies refreshes b a profileData =
        ({ (authAPI.updateProfile replies refreshes b profileData).1 with
            storage :=
              { (authAPI.updateProfile replies refreshes b profileData).1.storage with
                aikshetra_user := some (stringify updatedUser) } },
          { a with user := some updatedUser },
          some (AuthContext.LoginResult.success updatedUser)) ∧
      (authAPI.updateProfile replies refreshes b profileData).1.redirects = b.redirects ∧
      ((∃ rest, replies = Api.Reply.fulfilled updatedUser :: rest ∧
          (authAPI.updateProfile replies refreshes b profileData).1.storage = b.storage) ∨
        (∃ first rest refreshToken access refreshes₁,
          replies = Api.Reply.rejected first :: Api.Reply.fulfilled updatedUser :: rest ∧
          first.map Api.ErrorResponse.status = some 401 ∧
          Api.truthy b.storage.refresh_token = some refreshToken ∧
          refreshes = Api.RefreshReply.fulfilled access :: refreshes₁ ∧
          (authAPI.updateProfile replies refreshes b profileData).1.storage
            = { b.storage with access_token := some (access.getD "undefined") }))) ∧
    (∀ error,
      (authAPI.updateProfile replies refreshes b profileData).2 = Api.Outcome.rejected error →
      updateUser stringify replies refreshes b a profileData =
        ((authAPI.updateProfile replies refreshes b profileData).1, a,
          some (AuthContext.LoginResult.failure (AuthContext.updateErrorMessage error))) ∧
      (∀ detail,
        Api.truthy ((error.response.bind Api.ErrorResponse.data).bind Api.ErrorData.detail)
          = some detail →
        AuthContext.updateErrorMessage error = detail) ∧
      (Api.truthy ((error.response.bind Api.ErrorResponse.data).bind Api.ErrorData.detail)
          = none →
        AuthContext.updateErrorMessage error = "Profile update failed") ∧
      ((∃ response rest, replies = Api.Reply.rejected response :: rest ∧
          (response.map Api.ErrorResponse.status ≠ some 401 ∨
            Api.truthy b.storage.refresh_token = none) ∧
          error.response = response ∧
          (authAPI.updateProfile replies refreshes b profileData).1.storage = b.storage ∧
          (authAPI.updateProfile replies refreshes b profileData).1.redirects = b.redirects) ∨
        (∃ response response₂ rest refreshToken access refreshes₁,
          replies = Api.Reply.rejected response :: Api.Reply.rejected response₂ :: rest ∧
          response.map Api.ErrorResponse.status = some 401 ∧
          Api.truthy b.storage.refresh_token = some refreshToken ∧
          refreshes = Api.RefreshReply.fulfilled access :: refreshes₁ ∧
          error.response = response₂ ∧
          (authAPI.updateProfile replies refreshes b profileData).1.storage
            = { b.storage with access_token := some (access.getD "undefined") } ∧
          (authAPI.updateProfile replies refreshes b profileData).1.redirects = b.redirects) ∨
        (∃ response rest refreshToken r refreshes₁,
          replies = Api.Reply.rejected response :: rest ∧
          response.map Api.ErrorResponse.status = some 401 ∧
          Api.truthy b.storage.refresh_token = some refreshToken ∧
          refreshes = r :: refreshes₁ ∧
          (r = Api.RefreshReply.malformed ∨ r = Api.RefreshReply.rejected) ∧
          error.response = response ∧
          (authAPI.updateProfile replies refreshes b profileData).1.storage
            = { access_token := none, refresh_token := none, aikshetra_user := none } ∧
          (authAPI.updateProfile replies refreshes b profileData).1.redirects
            = b.redirects ++ ["/login"]))) := by
  refine ⟨?_, ?_⟩
  · intro updatedUser hout
    exact ⟨updateUser_fulfilled stringify replies refreshes b a profileData updatedUser hout,
      Api.api_fulfilled_cases replies refreshes b (AuthContext.profileRequest profileData)
        updatedUser rfl hout⟩
  · intro error hout
    refine ⟨updateUser_rejected stringify replies refreshes b a profileData error hout, ?_, ?_,
      Api.api_rejected_cases replies refreshes b (AuthContext.profileRequest profileData)
        error rfl hout⟩
    · intro detail hd
      unfold AuthContext.updateErrorMessage
      rw [hd]
    · intro hd
      unfold AuthContext.updateErrorMessage
      rw [hd]

/-- C24 as amended, for an update answered 400 with the detail "Invalid data" while
tokens and identity are persisted: the failure is returned and the storage is as it
was. -/
theorem updateUser_outcomes_witness :
    ((authAPI.updateProfile
        ([Api.Reply.rejected (some ⟨400, some ⟨some "Invalid data", none⟩⟩)] :
          List (Api.Reply Nat)) []
        ⟨none, ⟨some "a", some "r", some "u"⟩, [], []⟩ "p").2
        = Api.Outcome.rejected
            ⟨⟨"patch", "/auth/profile/", "p",
              [("Content-Type", "application/json"), ("Authorization", "Bearer a")], false⟩,
             some ⟨400, some ⟨some "Invalid data", none⟩⟩⟩) ∧
    updateUser (fun n : Nat => toString n)
        [Api.Reply.rejected (some ⟨400, some ⟨some "Invalid data", none⟩⟩)] []
        ⟨none, ⟨some "a", some "r", some "u"⟩, [], []⟩ ⟨some 7, true, false⟩ "p"
      = (⟨none, ⟨some "a", some "r", some "u"⟩, [],
          [Api.Call.request
            ⟨"patch", "/auth/profile/", "p",
              [("Content-Type", "application/json"), ("Authorization", "Bearer a")],
              false⟩]⟩,
         ⟨some 7, true, false⟩, some (AuthContext.LoginResult.failure "Invalid data")) :=
  ⟨rfl,
   ((updateUser_outcomes (fun n : Nat => toString n)
      [Api.Reply.rejected (some ⟨400, some ⟨some "Invalid data", none⟩⟩)] []
      ⟨none, ⟨some "a", some "r", some "u"⟩, [], []⟩ ⟨some 7, true, false⟩ "p").2
      ⟨⟨"patch", "/auth/profile/", "p",
        [("Content-Type", "application/json"), ("Authorization", "Bearer a")], false⟩,
       some ⟨400, some ⟨some "Invalid data", none⟩⟩⟩ rfl).1⟩

end AuthProvider

namespace useWebSocket

/-! ## The claim about the subscription hooks -/

/-- C28. The handlers of the hooks are total on the message type. On the
notifications channel `new_notification` calls `onNotification` once with the
message's `notification`, and `unread_count` and `notifications_list` call the
registered `window.updateNotificationCount` and `window.updateNotificationsList` once
with the message's `count` and `notifications`. On the tasks channel `task_assigned`
and `task_update` call `onTaskUpdate` once with the message's `data`. On the attendance
channel `attendance_update` calls `onAttendanceUpdate` once with the message's `data`.
Every other type, a missing one included, calls nothing; every handler returns. -/
theorem dispatch_total {ν δ : Type} (window : Window) (data : InboundMessage ν δ) :
    (data.type = some "new_notification" →
      useNotifications window data = [FeatureCall.onNotification data.notification]) ∧
    (data.type = some "unread_count" → window.updateNotificationCount = true →
      useNotifications window data = [FeatureCall.updateNotificationCount data.count]) ∧
    (data.type = some "notifications_list" → window.updateNotificationsList = true →
      useNotifications window data
        = [FeatureCall.updateNotificationsList data.notifications]) ∧
    (data.type ≠ some "new_notification" → data.type ≠ some "unread_count" →
      data.type ≠ some "notifications_list" → useNotifications window data = []) ∧
    (data.type = some "task_assigned" ∨ data.type = some "task_update" →
      useTasks data = [FeatureCall.onTaskUpdate data.data]) ∧
    (data.type ≠ some "task_assigned" → data.type ≠ some "task_update" →
      useTasks data = []) ∧
    (data.type = some "attendance_update" →
      useAttendance data = [FeatureCall.onAttendanceUpdate data.data]) ∧
    (data.type ≠ some "attendance_update" → useAttendance data = []) ∧
    (data.type = none →
      useNotifications window data = [] ∧ useTasks data = [] ∧ useAttendance data = []) := by
  refine ⟨?_, ?_, ?_, ?_, ?_, ?_, ?_, ?_, ?_⟩
  · intro h
    unfold useNotifications
    rw [if_pos h]
  · intro h hw
    unfold useNotifications
    rw [h, if_neg (by decide), if_pos rfl, hw]
    rfl
  · intro h hw
    unfold useNotifications
    rw [h, if_neg (by decide), if_neg (by decide), if_pos rfl, hw]
    rfl
  · intro h₁ h₂ h₃
    unfold useNotifications
    rw [if_neg h₁, if_neg h₂, if_neg h₃]
  · intro h
    unfold useTasks
    rcases h with h | h
    · rw [if_pos h]
    · rw [h, if_neg (by decide), if_pos rfl]
  · intro h₁ h₂
    unfold useTasks
    rw [if_neg h₁, if_neg h₂]
  · intro h
    unfold useAttendance
    rw [if_pos h]
  · intro h
    unfold useAttendance
    rw [if_neg h]
  · intro h
    unfold useNotifications useTasks useAttendance
    rw [h]
    exact ⟨rfl, rfl, rfl⟩

/-- C28, for the messages `{type: "unread_count", count: 3}` with the updater
registered, `{type: "task_update", data: 9}`, and a message of type "ping". -/
theorem dispatch_total_witness :
    (useNotifications ⟨true, true⟩
        (⟨some "unread_count", none, some 3, none, none⟩ : InboundMessage Nat Nat)
      = [FeatureCall.updateNotificationCount (some 3)]) ∧
    (useTasks (⟨some "task_update", none, none, none, some 9⟩ : InboundMessage Nat Nat)
      = [FeatureCall.onTaskUpdate (some 9)]) ∧
    (useNotifications ⟨true, true⟩
        (⟨some "ping", none, none, none, none⟩ : InboundMessage Nat Nat) = []) :=
  ⟨(dispatch_total ⟨true, true⟩
      (⟨some "unread_count", none, some 3, none, none⟩ : InboundMessage Nat Nat)).2.1 rfl rfl,
   (dispatch_total ⟨true, true⟩
      (⟨some "task_update", none, none, none, some 9⟩ : InboundMessage Nat Nat)).2.2.2.2.1
      (Or.inr rfl),
   (dispatch_total ⟨true, true⟩
      (⟨some "ping", none, none, none, none⟩ : InboundMessage Nat Nat)).2.2.2.1
      (by decide) (by decide) (by decide)⟩

end useWebSocket

namespace JsNumber

/-! ## Facts about the rounding to a double -/

theorem excess_small (fuel n : Nat) (h : n < 2 ^ 53) : excess fuel n = 0 := by
  cases fuel with
  | zero => rfl
  | succ fuel =>
    unfold excess
    rw [if_pos h]

/-- With `n` as fuel the halvings are not cut short: what is left of `n` is below
2^53, and for `n` of 2^53 and more it has exactly 53 bits. -/
theorem excess_spec (fuel n : Nat) (h : n ≤ fuel) :
    n / 2 ^ excess fuel n < 2 ^ 53 ∧ (2 ^ 53 ≤ n → 2 ^ 52 ≤ n / 2 ^ excess fuel n) := by
  induction fuel generalizing n with
  | zero =>
    have hn : n = 0 := by omega
    subst hn
    exact ⟨by decide, fun h => absurd h (by decide)⟩
  | succ fuel ih =>
    by_cases hlt : n < 2 ^ 53
    · rw [excess_small _ _ hlt]
      simp only [pow_zero, Nat.div_one]
      exact ⟨hlt, fun h => absurd h (by omega)⟩
    · have hge : 2 ^ 53 ≤ n := by omega
      have hstep : excess (fuel + 1) n = excess fuel (n / 2) + 1 := by
        rw [excess]
        rw [if_neg hlt]
      have hdiv : n / 2 ^ (excess fuel (n / 2) + 1) = n / 2 / 2 ^ excess fuel (n / 2) := by
        rw [pow_succ, Nat.mul_comm, Nat.div_div_eq_div_mul]
      rw [hstep, hdiv]
      have hhalf : n / 2 ≤ fuel := by
        have : (2 : Nat) ^ 53 = 9007199254740992 := by norm_num
        omega
      refine ⟨(ih (n / 2) hhalf).1, fun _ => ?_⟩
      by_cases hlt₂ : n / 2 < 2 ^ 53
      · rw [excess_small _ _ hlt₂]
        simp only [pow_zero, Nat.div_one]
        have : (2 : Nat) ^ 53 = 9007199254740992 := by norm_num
        have : (2 : Nat) ^ 52 = 4503599627370496 := by norm_num
        omega
      · exact (ih (n / 2) hhalf).2 (by omega)

/-- An integer of magnitude up to 2^53 is a double. -/
theorem toDouble_exact (x : Int) (h₁ : -9007199254740992 ≤ x) (h₂ : x ≤ 9007199254740992) :
    toDouble x = x := by
  by_cases hlt : x.natAbs < 2 ^ 53
  · unfold toDouble
    rw [if_pos hlt]
  · have hx : x = 9007199254740992 ∨ x = -9007199254740992 := by
      norm_num at hlt
      omega
    rcases hx with hx | hx <;> subst hx <;> decide

end JsNumber

namespace NotificationCenter

/-! ## Supporting facts about the notification centre -/

theorem unread_cons (n : NotificationItem) (l : List NotificationItem) :
    unread (n :: l) = (if n.is_read = true then 0 else 1) + unread l := by
  unfold unread
  cases h : n.is_read
  · simp [List.filter_cons, h]
    omega
  · simp [List.filter_cons, h]

theorem unread_nonneg (l : List NotificationItem) : 0 ≤ unread l := by
  unfold unread
  exact Int.ofNat_nonneg _

/-- Marking the items with a given id read lowers the number of unread items by the
number of unread items with that id. -/
theorem unread_map_mark (l : List NotificationItem) (notificationId : String) :
    unread (l.map (fun n => if n.id = notificationId then { n with is_read := true } else n))
      + ((l.filter (fun n => decide (n.id = notificationId) && !n.is_read)).length : Int)
      = unread l := by
  induction l with
  | nil => rfl
  | cons n rest ih =>
    rw [List.map_cons, unread_cons, unread_cons, List.filter_cons]
    by_cases hid : n.id = notificationId
    · cases hr : n.is_read
      · simp only [hid, hr, if_true, decide_True, Bool.not_false, Bool.and_self,
          List.length_cons, Nat.cast_add, Nat.cast_one]
        simp
        omega
      · simp only [hid, hr, if_true, decide_True, Bool.not_true, Bool.and_false]
        simp
        omega
    · cases hr : n.is_read
      · simp only [hid, hr, if_false, decide_False, Bool.false_and]
        simp
        omega
      · simp only [hid, hr, if_false, decide_False, Bool.false_and]
        simp
        omega

theorem markAsRead_fulfilled (s : State) (notificationId : String) :
    markAsRead s notificationId true =
      { s with
        notifications :=
          s.notifications.map
            (fun n => if n.id = notificationId then { n with is_read := true } else n)
        unreadCount := max 0 (s.unreadCount - 1)
        effects := s.effects ++
          [Effect.restMarkRead notificationId, Effect.channelMarkRead notificationId] } := by
  unfold markAsRead
  rw [if_pos rfl]

theorem markAsRead_rejected (s : State) (notificationId : String) :
    markAsRead s notificationId false =
      { s with effects := s.effects ++ [Effect.restMarkRead notificationId] } := by
  unfold markAsRead
  simp

theorem markAsRead_iterate (s : State) (notificationId : String) (k : Nat) :
    (Nat.iterate (fun t => markAsRead t notificationId true) (k + 1) s).unreadCount
      = max 0 (s.unreadCount - ((k + 1 : Nat) : Int)) := by
  induction k generalizing s with
  | zero =>
    rw [Function.iterate_succ, Function.iterate_zero]
    simp only [Function.comp, id, markAsRead_fulfilled]
    simp
  | succ k ih =>
    rw [Function.iterate_succ]
    simp only [Function.comp]
    rw [ih (markAsRead s notificationId true), markAsRead_fulfilled]
    simp only []
    push_cast
    omega

/-! ## The claims about the notification centre -/

/-- C25 (fails on the code). The counter is 2^53, a value that an `unread_count`
message can set, and a notification is pushed: the list gets the item, but the counter
is still 2^53, because in double arithmetic 2^53 + 1 is 2^53. -/
theorem push_leaves_counter_at_two_pow_53 :
    (onNotification Permission.denied ⟨[], 9007199254740992, false, []⟩
        ⟨"n1", "T", "M", false, ""⟩).notifications = [⟨"n1", "T", "M", false, ""⟩] ∧
    (onNotification Permission.denied ⟨[], 9007199254740992, false, []⟩
        ⟨"n1", "T", "M", false, ""⟩).unreadCount = 9007199254740992 := by
  decide

/-- C25 as amended. The message `{type: "new_notification", notification: n}`
arrives on the notifications channel. The hook calls `onNotification` once with `n`;
the resulting list is `n` followed by the old list, and a desktop notification with
title `n.title` and body `n.message` is raised exactly when the permission is
"granted". The counter becomes the double nearest to the old one plus 1: that is the
old one plus 1 for every integer counter from -2^53 up to 2^53 - 1. -/
theorem push_prepends {δ : Type} (window : useWebSocket.Window) (permission : Permission)
    (s : State) (n : NotificationItem)
    (data : useWebSocket.InboundMessage NotificationItem δ)
    (htype : data.type = some "new_notification") (hn : data.notification = some n) :
    useWebSocket.useNotifications window data
      = [useWebSocket.FeatureCall.onNotification (some n)] ∧
    (onNotification permission s n).notifications = n :: s.notifications ∧
    (onNotification permission s n).unreadCount = JsNumber.toDouble (s.unreadCount + 1) ∧
    (-9007199254740992 ≤ s.unreadCount → s.unreadCount < 9007199254740992 →
      (onNotification permission s n).unreadCount = s.unreadCount + 1) ∧
    (permission = Permission.granted →
      (onNotification permission s n).effects
        = s.effects ++ [Effect.desktop n.title n.message "/favicon.ico"]) ∧
    (permission ≠ Permission.granted → (onNotification permission s n).effects = s.effects) := by
  refine ⟨?_, rfl, rfl, ?_, ?_, ?_⟩
  · unfold useWebSocket.useNotifications
    rw [if_pos htype, hn]
  · intro h₁ h₂
    exact JsNumber.toDouble_exact (s.unreadCount + 1) (by omega) (by omega)
  · intro hp
    unfold onNotification
    simp only [hp, if_true]
  · intro hp
    unfold onNotification
    simp only [hp, if_false, List.append_nil]

/-- C25 as amended, for the scenario of the specification: the notification "n1"
with title "T" and message "M" arrives while the permission is granted and the counter
is 0. -/
theorem push_prepends_witness :
    ((⟨some "new_notification", some ⟨"n1", "T", "M", false, ""⟩, none, none, none⟩ :
        useWebSocket.InboundMessage NotificationItem Nat).type = some "new_notification" ∧
      Permission.granted = Permission.granted ∧
      (-9007199254740992 : Int) ≤ 0 ∧ (0 : Int) < 9007199254740992) ∧
    (onNotification Permission.granted ⟨[⟨"n0", "A", "B", true, ""⟩], 0, false, []⟩
        ⟨"n1", "T", "M", false, ""⟩).unreadCount = 0 + 1 ∧
    (onNotification Permission.granted ⟨[⟨"n0", "A", "B", true, ""⟩], 0, false, []⟩
        ⟨"n1", "T", "M", false, ""⟩).effects
      = [Effect.desktop "T" "M" "/favicon.ico"] :=
  ⟨⟨rfl, rfl, by decide, by decide⟩,
   (push_prepends ⟨true, true⟩ Permission.granted ⟨[⟨"n0", "A", "B", true, ""⟩], 0, false, []⟩
      ⟨"n1", "T", "M", false, ""⟩
      (⟨some "new_notification", some ⟨"n1", "T", "M", false, ""⟩, none, none, none⟩ :
        useWebSocket.InboundMessage NotificationItem Nat) rfl rfl).2.2.2.1
      (by decide) (by decide),
   (push_prepends ⟨true, true⟩ Permission.granted ⟨[⟨"n0", "A", "B", true, ""⟩], 0, false, []⟩
      ⟨"n1", "T", "M", false, ""⟩
      (⟨some "new_notification", some ⟨"n1", "T", "M", false, ""⟩, none, none, none⟩ :
        useWebSocket.InboundMessage NotificationItem Nat) rfl rfl).2.2.2.2.1 rfl⟩

/-- C26 (fails on the code). The REST call of `markAsRead("n1")` fails, on a list
with the unread item "n1" and counter 1: the item stays unread, the counter stays 1,
and the only call made is the REST call (no `mark_read` channel message). -/
theorem failed_rest_call_omits_update :
    markAsRead ⟨[⟨"n1", "T", "M", false, ""⟩], 1, false, []⟩ "n1" false
      = ⟨[⟨"n1", "T", "M", false, ""⟩], 1, false, [Effect.restMarkRead "n1"]⟩ := by
  decide

/-- C26 as amended. `markAsRead(id)` is not optimistic: it issues the REST call
first. When that call succeeds, it sets `is_read` to true on the list items with that
id, lowers the counter by one (floored at zero) and then hands the `mark_read` message
to the channel. When it fails, the list and the counter are left as they were and no
channel message is sent, so there is nothing to roll back. -/
theorem markAsRead_spec (s : State) (notificationId : String) :
    markAsRead s notificationId true =
      { s with
        notifications :=
          s.notifications.map
            (fun n => if n.id = notificationId then { n with is_read := true } else n)
        unreadCount := max 0 (s.unreadCount - 1)
        effects := s.effects ++
          [Effect.restMarkRead notificationId, Effect.channelMarkRead notificationId] } ∧
    markAsRead s notificationId false =
      { s with effects := s.effects ++ [Effect.restMarkRead notificationId] } ∧
    (∀ n ∈ (markAsRead s notificationId true).notifications,
      n.id = notificationId → n.is_read = true) := by
  refine ⟨markAsRead_fulfilled s notificationId, markAsRead_rejected s notificationId, ?_⟩
  intro n hn hid
  rw [markAsRead_fulfilled] at hn
  simp only [List.mem_map] at hn
  obtain ⟨m, _, hm⟩ := hn
  by_cases h : m.id = notificationId
  · rw [if_pos h] at hm
    rw [← hm]
  · rw [if_neg h] at hm
    rw [← hm] at hid
    exact absurd hid h

/-- C26 as amended, for the unread item "n1" and counter 1 with the REST call
succeeding. -/
theorem markAsRead_spec_witness :
    (⟨"n1", "T", "M", true, ""⟩ : NotificationItem) ∈
        (markAsRead ⟨[⟨"n1", "T", "M", false, ""⟩], 1, false, []⟩ "n1" true).notifications ∧
    (⟨"n1", "T", "M", true, ""⟩ : NotificationItem).id = "n1" ∧
    (⟨"n1", "T", "M", true, ""⟩ : NotificationItem).is_read = true :=
  ⟨by decide, rfl,
   (markAsRead_spec ⟨[⟨"n1", "T", "M", false, ""⟩], 1, false, []⟩ "n1").2.2
      ⟨"n1", "T", "M", true, ""⟩ (by decide) rfl⟩

/-- C27 (fails on the code). Item "n1" is unread next to the unread "n2", counter 2.
The first `markAsRead("n1")` gives counter 1; invoked once more for the now read
"n1", it gives counter 0. -/
theorem repeated_markAsRead_decrements :
    (markAsRead
      ⟨[⟨"n1", "T", "M", false, ""⟩, ⟨"n2", "T", "M", false, ""⟩], 2, false, []⟩
      "n1" true).unreadCount = 1 ∧
    (markAsRead
      (markAsRead
        ⟨[⟨"n1", "T", "M", false, ""⟩, ⟨"n2", "T", "M", false, ""⟩], 2, false, []⟩
        "n1" true) "n1" true).unreadCount = 0 := by
  decide

/-- C27 as amended. A successful `markAsRead` yields the counter `max(0, c - 1)`,
whether or not the item was already read, so `k` successful invocations in a row
yield `max(0, c - k)`; afterwards the counter is not negative. A failed one leaves the
counter. It is the click handlers that leave everything unchanged for an already-read
item, because they invoke `markAsRead` only when `is_read` is false. -/
theorem markAsRead_counter (s : State) (notificationId : String) :
    (markAsRead s notificationId true).unreadCount = max 0 (s.unreadCount - 1) ∧
    0 ≤ (markAsRead s notificationId true).unreadCount ∧
    (∀ k : Nat,
      (Nat.iterate (fun t => markAsRead t notificationId true) (k + 1) s).unreadCount
        = max 0 (s.unreadCount - ((k + 1 : Nat) : Int))) ∧
    (markAsRead s notificationId false).unreadCount = s.unreadCount ∧
    (∀ (n : NotificationItem) (fulfilled : Bool), n.is_read = true →
      onClick s n fulfilled = s) := by
  refine ⟨?_, ?_, markAsRead_iterate s notificationId, ?_, ?_⟩
  · rw [markAsRead_fulfilled]
  · rw [markAsRead_fulfilled]
    exact le_max_left 0 _
  · rw [markAsRead_rejected]
  · intro n fulfilled h
    unfold onClick
    rw [if_pos h]

/-- C27 as amended, for a click on the already-read item "n1" with counter 1. -/
theorem markAsRead_counter_witness :
    (⟨"n1", "T", "M", true, ""⟩ : NotificationItem).is_read = true ∧
    onClick ⟨[⟨"n1", "T", "M", true, ""⟩, ⟨"n2", "T", "M", false, ""⟩], 1, false, []⟩
        ⟨"n1", "T", "M", true, ""⟩ true
      = ⟨[⟨"n1", "T", "M", true, ""⟩, ⟨"n2", "T", "M", false, ""⟩], 1, false, []⟩ :=
  ⟨rfl,
   (markAsRead_counter
      ⟨[⟨"n1", "T", "M", true, ""⟩, ⟨"n2", "T", "M", false, ""⟩], 1, false, []⟩ "n1").2.2.2.2
      ⟨"n1", "T", "M", true, ""⟩ true rfl⟩

/-- C29 (fails on the code). The list is loaded with the unread items "n1" and "n2"
(counter 2, equal to the number of unread items). `markAsRead("n1")` succeeds twice,
as after a double click on "n1": the counter is 0 while "n2" is still unread. And a
push of a notification that is already read raises the counter of a loaded empty list
to 1 while no item is unread. -/
theorem counter_drifts_from_unread :
    ((markAsRead
        (markAsRead
          (loadNotifications ⟨[], 0, true, []⟩
            (some (Fetched.plain
              [⟨"n1", "T", "M", false, ""⟩, ⟨"n2", "T", "M", false, ""⟩])))
          "n1" true) "n1" true).unreadCount = 0 ∧
      unread
        (markAsRead
          (markAsRead
            (loadNotifications ⟨[], 0, true, []⟩
              (some (Fetched.plain
                [⟨"n1", "T", "M", false, ""⟩, ⟨"n2", "T", "M", false, ""⟩])))
            "n1" true) "n1" true).notifications = 1) ∧
    ((onNotification Permission.denied
        (loadNotifications ⟨[], 0, true, []⟩ (some (Fetched.plain [])))
        ⟨"n3", "T", "M", true, ""⟩).unreadCount = 1 ∧
      unread
        (onNotification Permission.denied
          (loadNotifications ⟨[], 0, true, []⟩ (some (Fetched.plain [])))
          ⟨"n3", "T", "M", true, ""⟩).notifications = 0) := by
  decide

/-- C29 as amended. After a successful initial load the counter equals the number
of list items whose `is_read` is false. From a state where the two are equal, the
equality is kept by a failed load, by a failed `markAsRead`, by the push of a
notification whose `is_read` is false (while the counter is below 2^53, as it is for
every list that fits a JavaScript array), and by a successful `markAsRead(id)` when
exactly one list item with that id is unread. -/
theorem unread_counter_kept :
    (∀ (s : State) (data : Fetched),
      (loadNotifications s (some data)).unreadCount
        = unread (loadNotifications s (some data)).notifications) ∧
    (∀ s : State, s.unreadCount = unread s.notifications →
      (loadNotifications s none).unreadCount = unread (loadNotifications s none).notifications ∧
      (∀ notificationId,
        (markAsRead s notificationId false).unreadCount
          = unread (markAsRead s notificationId false).notifications) ∧
      (∀ permission n, n.is_read = false → s.unreadCount < 9007199254740992 →
        (onNotification permission s n).unreadCount
          = unread (onNotification permission s n).notifications) ∧
      (∀ notificationId,
        (s.notifications.filter
          (fun n => decide (n.id = notificationId) && !n.is_read)).length = 1 →
        (markAsRead s notificationId true).unreadCount
          = unread (markAsRead s notificationId true).notifications)) := by
  refine ⟨fun s data => rfl, ?_⟩
  intro s h
  refine ⟨h, ?_, ?_, ?_⟩
  · intro notificationId
    rw [markAsRead_rejected]
    exact h
  · intro permission n hn hlt
    have hnn := unread_nonneg s.notifications
    have hc : (onNotification permission s n).unreadCount = s.unreadCount + 1 :=
      JsNumber.toDouble_exact (s.unreadCount + 1) (by omega) (by omega)
    rw [hc]
    unfold onNotification
    simp only []
    rw [unread_cons, hn, h]
    simp
    omega
  · intro notificationId hone
    rw [markAsRead_fulfilled]
    simp only []
    have hm := unread_map_mark s.notifications notificationId
    rw [hone] at hm
    have hnn := unread_nonneg
      (s.notifications.map
        (fun n => if n.id = notificationId then { n with is_read := true } else n))
    rw [h]
    push_cast at hm
    omega

/-- C29 as amended, for a loaded list with the unread items "n1" and "n2" and one
successful `markAsRead("n1")`. -/
theorem unread_counter_kept_witness :
    ((loadNotifications ⟨[], 0, true, []⟩
        (some (Fetched.plain
          [⟨"n1", "T", "M", false, ""⟩, ⟨"n2", "T", "M", false, ""⟩]))).unreadCount
      = unread (loadNotifications ⟨[], 0, true, []⟩
        (some (Fetched.plain
          [⟨"n1", "T", "M", false, ""⟩, ⟨"n2", "T", "M", false, ""⟩]))).notifications ∧
      ((loadNotifications ⟨[], 0, true, []⟩
        (some (Fetched.plain
          [⟨"n1", "T", "M", false, ""⟩, ⟨"n2", "T", "M", false, ""⟩]))).notifications.filter
        (fun n => decide (n.id = "n1") && !n.is_read)).length = 1) ∧
    (markAsRead
        (loadNotifications ⟨[], 0, true, []⟩
          (some (Fetched.plain
            [⟨"n1", "T", "M", false, ""⟩, ⟨"n2", "T", "M", false, ""⟩])))
        "n1" true).unreadCount
      = unread
        (markAsRead
          (loadNotifications ⟨[], 0, true, []⟩
            (some (Fetched.plain
              [⟨"n1", "T", "M", false, ""⟩, ⟨"n2", "T", "M", false, ""⟩])))
          "n1" true).notifications :=
  ⟨⟨by decide, by decide⟩,
   (unread_counter_kept.2
      (loadNotifications ⟨[], 0, true, []⟩
        (some (Fetched.plain
          [⟨"n1", "T", "M", false, ""⟩, ⟨"n2", "T", "M", false, ""⟩])))
      (by decide)).2.2.2 "n1" (by decide)⟩

end NotificationCenter
